import Mathlib

/-!
# Sponsor wall layout (`svg.go`)

A shallow embedding of `Generate` and of its closure `processSponsor`.

* Go `int` is taken to be 64 bits wide: every `+`, `-`, `*` is followed by a
  reduction into `[-2^63, 2^63)`, `/` and `%` truncate toward zero and fault on a
  zero divisor (the Go run-time panic "integer divide by zero").
* `float32` and the opacity type are a type parameter `F`; their operations and
  the collaborators that are not part of `svg.go` (`helper.StringWidth`,
  `helper.TruncateStringByWidth`, `http.DetectContentType`,
  `base64.StdEncoding.EncodeToString`) are fields of `Externals`. The results on
  the animation delay instantiate `F` with `F32`, a model of IEEE-754 binary32,
  and hold whether or not the build fuses a product of line 166 into the addition.
* The HTTP client is a function of the requests issued so far and of the URL; the
  list of requested URLs is threaded through the run as explicit state.
-/

namespace AfdianSponsor

/-! ## Machine integers -/

/-- Reduction of an exact integer into the range of a 64-bit `int`. -/
def wrap (x : Int) : Int :=
  (x + 9223372036854775808) % 18446744073709551616 - 9223372036854775808

/-- Values a Go `int` can hold. -/
def InInt64 (x : Int) : Prop :=
  -9223372036854775808 ≤ x ∧ x ≤ 9223372036854775807

instance (x : Int) : Decidable (InInt64 x) := by
  unfold InInt64; exact inferInstance

/-- A Go `error` value. -/
abbrev GoError := String

/-- Raw bytes of a response body. -/
abbrev Bytes := List UInt8

/-- Ways in which a step can stop early: a run-time panic, or a returned `error`. -/
inductive Fault where
  | panic
  | err (e : GoError)
  deriving DecidableEq, Repr

/-- Go `a + b` on `int`. -/
def iadd (a b : Int) : Int := wrap (a + b)

/-- Go `a - b` on `int`. -/
def isub (a b : Int) : Int := wrap (a - b)

/-- Go `a * b` on `int`. -/
def imul (a b : Int) : Int := wrap (a * b)

/-- Go `a / b` on `int`: truncated quotient, panics when `b = 0`. -/
def idiv (a b : Int) : Except Fault Int :=
  if b = 0 then .error .panic else .ok (wrap (Int.tdiv a b))

/-- Go `a % b` on `int`: remainder of the truncated quotient, panics when `b = 0`. -/
def imod (a b : Int) : Except Fault Int :=
  if b = 0 then .error .panic else .ok (wrap (Int.tmod a b))

/-- Go `len(xs)`. -/
def len {α : Type} (xs : List α) : Int := (xs.length : Int)

/-! ## Data model -/

/-- The fields of `Config` that `Generate` reads. -/
structure Config (F : Type) where
  AvatarSize : Int
  FontSizeScale : Int
  PaddingXScale : Int
  PaddingYScale : Int
  Margin : Int
  AvatarsPerRow : Int
  AnimationDelay : F
  ActiveSponsorOpacity : F
  ExpiredSponsorOpacity : F
  UseActiveOpacityWhenNoActive : Bool

/-- Every integer field of the configuration is a 64-bit `int`. -/
def Config.InRange {F : Type} (cfg : Config F) : Prop :=
  InInt64 cfg.AvatarSize ∧ InInt64 cfg.FontSizeScale ∧ InInt64 cfg.PaddingXScale ∧
  InInt64 cfg.PaddingYScale ∧ InInt64 cfg.Margin ∧ InInt64 cfg.AvatarsPerRow

instance {F : Type} (cfg : Config F) : Decidable cfg.InRange := by
  unfold Config.InRange; exact inferInstance

/-- The fields of `Sponsor` that `Generate` and the template touch. -/
structure Sponsor (F : Type) where
  Name : String
  OriginalName : String
  Avatar : String
  Index : Int
  IsActive : Bool
  AvatarSize : Int
  Radius : Int
  ImgMime : String
  ImgB64 : String
  TextY : Int
  CenterX : Int
  CenterY : Int
  TranslateX : Int
  TranslateY : Int
  AnimationDelay : F
  Opacity : F

/-- What `client.Get` hands back when the transport succeeds: the status code and
the result of `io.ReadAll(resp.Body)`. -/
structure Response where
  StatusCode : Int
  Body : Except GoError Bytes

/-- The HTTP client: given the URLs requested so far and a URL, the result of
`client.Get`. -/
abbrev Client := List String → String → Except GoError Response

/-- Collaborators and primitives that live outside `svg.go`. The sum of two products
`a*b + c*d` of line 166 is one primitive, `fmuladd a b c d`: Go lets a build fuse one of
the products into the addition, so the sum need not be an addition of two rounded
products. -/
structure Externals (F : Type) where
  StringWidth : String → Int
  TruncateStringByWidth : String → Int → String
  DetectContentType : Bytes → String
  EncodeToString : Bytes → String
  ofInt : Int → F
  fsub : F → F → F
  fmul : F → F → F
  fmuladd : F → F → F → F → F
  formatFloat : F → String

/-- The local variables of `Generate` computed before the sponsors are processed. -/
structure Locals where
  fontSize : Int
  nameLimit : Int
  paddingX : Int
  paddingY : Int
  rowHeight : Int
  textYOffset : Int
  numActiveRows : Int
  activeHeight : Int
  separatorHeight : Int
  numExpiredRows : Int
  expiredHeight : Int
  height : Int
  width : Int
  svgCenterX : Int
  svgCenterY : Int
  deriving DecidableEq, Repr

/-- The anonymous struct handed to `t.Execute`. -/
structure TemplateData (F : Type) where
  Width : Int
  Height : Int
  FontSize : Int
  Sponsors : List (Sponsor F)
  ActiveSponsors : List (Sponsor F)
  ExpiredSponsors : List (Sponsor F)
  LineX1 : Int
  LineX2 : Int
  LineY : Int

/-- What a call of `Generate` ends in: the returned pair, or a run-time panic. -/
inductive Outcome where
  | ret (svg : String) (err : Option GoError)
  | panic
  deriving DecidableEq, Repr

/-- A complete run of `Generate`: the URLs it requested, in order, and how it ended. -/
structure Run where
  requests : List String
  outcome : Outcome
  deriving DecidableEq, Repr

/-! ## The program -/

/-- The constant `emptySVG`. -/
def emptySVG : String :=
  "<svg width=\"1135\" height=\"100\" xmlns=\"http://www.w3.org/2000/svg\" style=\"background-color:transparent;\"></svg>"

/-- Lines 66-99 of `Generate`: the layout quantities, from the configuration and
the two lengths. -/
def Generate.locals {F : Type} (cfg : Config F) (nActive nExpired : Int) :
    Except Fault Locals := do
  let fontSize ← idiv cfg.AvatarSize cfg.FontSizeScale
  let nameLimit ← idiv (imul cfg.AvatarSize 2) fontSize
  let nameLimit := if nameLimit < 5 then 5 else nameLimit
  let paddingX ← (if cfg.PaddingXScale > 0 then idiv cfg.AvatarSize cfg.PaddingXScale else pure 0)
  let paddingY ← (if cfg.PaddingYScale > 0 then idiv cfg.AvatarSize cfg.PaddingYScale else pure 0)
  let rowHeight := iadd (iadd (iadd cfg.AvatarSize cfg.Margin) fontSize) 10
  let half ← idiv cfg.AvatarSize 2
  let textYOffset := iadd (iadd half fontSize) 10
  let numActiveRows ← idiv (isub (iadd nActive cfg.AvatarsPerRow) 1) cfg.AvatarsPerRow
  let activeHeight := imul numActiveRows rowHeight
  let separatorHeight := if nActive > 0 ∧ nExpired > 0 then 40 else 0
  let numExpiredRows ← idiv (isub (iadd nExpired cfg.AvatarsPerRow) 1) cfg.AvatarsPerRow
  let expiredHeight := imul numExpiredRows rowHeight
  let height := iadd (iadd (iadd paddingY activeHeight) separatorHeight) expiredHeight
  let width := iadd (isub (imul cfg.AvatarsPerRow (iadd cfg.AvatarSize cfg.Margin)) cfg.Margin)
    (imul paddingX 2)
  let svgCenterX ← idiv width 2
  let svgCenterY ← idiv height 2
  pure {
    fontSize := fontSize, nameLimit := nameLimit, paddingX := paddingX, paddingY := paddingY,
    rowHeight := rowHeight, textYOffset := textYOffset, numActiveRows := numActiveRows,
    activeHeight := activeHeight, separatorHeight := separatorHeight,
    numExpiredRows := numExpiredRows, expiredHeight := expiredHeight, height := height,
    width := width, svgCenterX := svgCenterX, svgCenterY := svgCenterY }

/-- Lines 107-110 of `processSponsor`: keep the full name, shorten the shown one. -/
def processSponsor.shape {F : Type} (X : Externals F) (L : Locals) (sponsor : Sponsor F) :
    Sponsor F :=
  let sponsor := { sponsor with OriginalName := sponsor.Name }
  if X.StringWidth sponsor.Name > L.nameLimit then
    { sponsor with Name := X.TruncateStringByWidth sponsor.Name L.nameLimit }
  else sponsor

/-- Lines 134-156 of `processSponsor`: the pixel centre `(finalX, finalY)`. -/
def processSponsor.final {F : Type} (cfg : Config F) (L : Locals) (radius index : Int)
    (isActive : Bool) (activeCount : Int) : Except Fault (Int × Int) :=
  if isActive then do
    let rowIndex ← idiv index cfg.AvatarsPerRow
    let colIndex ← imod index cfg.AvatarsPerRow
    let finalY := iadd (iadd L.paddingY (imul rowIndex L.rowHeight)) radius
    let finalX := iadd (iadd L.paddingX (imul colIndex (iadd cfg.AvatarSize cfg.Margin))) radius
    pure (finalX, finalY)
  else do
    let activeRows ← idiv (isub (iadd activeCount cfg.AvatarsPerRow) 1) cfg.AvatarsPerRow
    let separator := if activeCount > 0 then L.separatorHeight else 0
    let rowIndex ← idiv (isub index activeCount) cfg.AvatarsPerRow
    let colIndex ← imod (isub index activeCount) cfg.AvatarsPerRow
    let finalY := iadd (iadd (iadd (iadd L.paddingY (imul activeRows L.rowHeight)) separator)
      (imul rowIndex L.rowHeight)) radius
    let finalX := iadd (iadd L.paddingX (imul colIndex (iadd cfg.AvatarSize cfg.Margin))) radius
    pure (finalX, finalY)

/-- Lines 126-174 of `processSponsor`: everything after the image bytes are in hand. -/
def processSponsor.place {F : Type} (X : Externals F) (cfg : Config F) (L : Locals)
    (sponsor : Sponsor F) (index : Int) (isActive : Bool) (activeCount : Int) (img : Bytes) :
    Except Fault (Sponsor F) := do
  let radius ← idiv cfg.AvatarSize 2
  let final ← processSponsor.final cfg L radius index isActive activeCount
  let animationIndex := X.ofInt index
  pure { sponsor with
    Index := index
    IsActive := isActive
    AvatarSize := cfg.AvatarSize
    Radius := radius
    ImgMime := X.DetectContentType img
    ImgB64 := X.EncodeToString img
    TextY := L.textYOffset
    CenterY := final.2
    CenterX := final.1
    TranslateX := isub L.svgCenterX final.1
    TranslateY := isub L.svgCenterY final.2
    AnimationDelay :=
      if isActive then X.fmul animationIndex cfg.AnimationDelay
      else X.fmuladd (X.fsub animationIndex (X.ofInt activeCount)) cfg.AnimationDelay
        (X.ofInt activeCount) cfg.AnimationDelay
    Opacity :=
      if isActive then cfg.ActiveSponsorOpacity
      else if cfg.UseActiveOpacityWhenNoActive && decide (activeCount = 0) then
        cfg.ActiveSponsorOpacity
      else cfg.ExpiredSponsorOpacity }

/-- The closure `processSponsor`: shape the name, fetch the avatar, place the sponsor.
Returns the extended request log with the mutated sponsor or the fault. -/
def processSponsor {F : Type} (X : Externals F) (client : Client) (cfg : Config F) (L : Locals)
    (log : List String) (sponsor : Sponsor F) (index : Int) (isActive : Bool)
    (activeCount : Int) : List String × Except Fault (Sponsor F) :=
  let sponsor := processSponsor.shape X L sponsor
  match client log sponsor.Avatar with
  | .error e => (log ++ [sponsor.Avatar], .error (.err e))
  | .ok resp =>
    match resp.Body with
    | .error e => (log ++ [sponsor.Avatar], .error (.err e))
    | .ok img =>
      (log ++ [sponsor.Avatar], processSponsor.place X cfg L sponsor index isActive activeCount img)

/-- Lines 177-182: the loop over `allSponsors`, from position `i` on. -/
def Generate.loop {F : Type} (X : Externals F) (client : Client) (cfg : Config F) (L : Locals)
    (activeCount : Int) : Nat → List String → List (Sponsor F) →
    List String × Except Fault (List (Sponsor F))
  | _, log, [] => (log, .ok [])
  | i, log, s :: rest =>
    match processSponsor X client cfg L log s (i : Int) (decide ((i : Int) < activeCount))
        activeCount with
    | (log1, .error f) => (log1, .error f)
    | (log1, .ok s1) =>
      match Generate.loop X client cfg L activeCount (i + 1) log1 rest with
      | (log2, .error f) => (log2, .error f)
      | (log2, .ok out) => (log2, .ok (s1 :: out))

/-- Lines 66-211 of `Generate`: from a non-empty input to the value handed to the
template, together with the URLs requested on the way. -/
def Generate.data {F : Type} (X : Externals F) (client : Client)
    (activeSponsors expiredSponsors : List (Sponsor F)) (cfg : Config F) :
    List String × Except Fault (TemplateData F) :=
  match Generate.locals cfg (len activeSponsors) (len expiredSponsors) with
  | .error f => ([], .error f)
  | .ok L =>
    let allSponsors := activeSponsors ++ expiredSponsors
    match Generate.loop X client cfg L (len activeSponsors) 0 [] allSponsors with
    | (log, .error f) => (log, .error f)
    | (log, .ok sponsors) =>
      match idiv L.separatorHeight 2 with
      | .error f => (log, .error f)
      | .ok halfSeparator =>
        (log, .ok {
          Width := L.width
          Height := L.height
          FontSize := L.fontSize
          Sponsors := sponsors
          ActiveSponsors := activeSponsors
          ExpiredSponsors := expiredSponsors
          LineX1 := L.paddingX
          LineX2 := isub L.width L.paddingX
          LineY := iadd (iadd L.paddingY L.activeHeight) halfSeparator })

/-! ## The template -/

/-- Text of `svgTPL` up to the view box. -/
def svgTPL.head : String :=
  "<svg xmlns=\"http://www.w3.org/2000/svg\" xmlns:xlink=\"http://www.w3.org/1999/xlink\" viewBox=\"0 0 "

/-- Text of `svgTPL` from the end of the view box to the start of the definitions. -/
def svgTPL.style : String :=
  "\">\n<style>\n    .active-text \x7b fill: #000000; font-weight: bold; font-family: -apple-system, BlinkMacSystemFont, \x27Segoe UI\x27, Roboto, Helvetica, Arial, sans-serif; \x7d\n    .expired-text \x7b fill: #666666; font-family: -apple-system, BlinkMacSystemFont, \x27Segoe UI\x27, Roboto, Helvetica, Arial, sans-serif; \x7d\n    .separator \x7b stroke: #eeeeee; \x7d\n    @media (prefers-color-scheme: dark) \x7b\n        .active-text, .expired-text \x7b fill: #fff; \x7d\n        .separator \x7b stroke: #333; \x7d\n    \x7d\n    @keyframes pop-out \x7b\n        from \x7b\n            opacity: 0;\n            transform: translate(var(--tx, 0), var(--ty, 0)) scale(0.5);\n        \x7d\n        to \x7b\n            opacity: 1;\n            transform: translate(0, 0) scale(1);\n        \x7d\n    \x7d\n    .sponsor-group \x7b\n        animation: pop-out 0.5s cubic-bezier(0.25, 1, 0.5, 1) forwards;\n        opacity: 0;\n    \x7d\n</style>\n<defs>\n"

/-- How the template prints an `int`. -/
def svgTPL.int (i : Int) : String := toString i

/-- Body of the first `range .Sponsors`: one clip path. -/
def svgTPL.clip {F : Type} (s : Sponsor F) : String :=
  "\n    <clipPath id=\"clip-" ++ svgTPL.int s.Index ++ "\"><circle cx=\"0\" cy=\"0\" r=\"" ++
  svgTPL.int s.Radius ++ "\"/></clipPath>\n"

/-- Body of the second `range .Sponsors`: one sponsor group. -/
def svgTPL.group {F : Type} (X : Externals F) (fontSize : Int) (s : Sponsor F) : String :=
  "\n    <g transform=\"translate(" ++ svgTPL.int s.CenterX ++ ", " ++ svgTPL.int s.CenterY ++
  ")\" style=\"opacity: " ++ X.formatFloat s.Opacity ++
  ";\">\n        <g class=\"sponsor-group\" style=\"animation-delay: " ++
  X.formatFloat s.AnimationDelay ++ "s; --tx: " ++ svgTPL.int s.TranslateX ++ "px; --ty: " ++
  svgTPL.int s.TranslateY ++ "px;\">\n            <g clip-path=\"url(#clip-" ++
  svgTPL.int s.Index ++ ")\">\n                <title>" ++ s.OriginalName ++
  "</title>\n                <image x=\"-" ++ svgTPL.int s.Radius ++ "\" y=\"-" ++
  svgTPL.int s.Radius ++ "\" width=\"" ++ svgTPL.int s.AvatarSize ++ "\" height=\"" ++
  svgTPL.int s.AvatarSize ++ "\" xlink:href=\"data:" ++ s.ImgMime ++ ";base64," ++ s.ImgB64 ++
  "\" />\n            </g>\n            <text y=\"" ++ svgTPL.int s.TextY ++
  "\" text-anchor=\"middle\" font-size=\"" ++ svgTPL.int fontSize ++ "\" class=\"" ++
  (if s.IsActive then "active-text" else "expired-text") ++ "\">" ++ s.Name ++
  "</text>\n        </g>\n    </g>\n"

/-- Body of `if and .ActiveSponsors .ExpiredSponsors`: the separator line. -/
def svgTPL.line {F : Type} (d : TemplateData F) : String :=
  "\n<line class=\"separator\" x1=\"" ++ svgTPL.int d.LineX1 ++ "\" y1=\"" ++ svgTPL.int d.LineY ++
  "\" x2=\"" ++ svgTPL.int d.LineX2 ++ "\" y2=\"" ++ svgTPL.int d.LineY ++
  "\" stroke-width=\"1\"/>\n"

/-- Execution of the parsed `svgTPL` on the template data. -/
def svgTPL.execute {F : Type} (X : Externals F) (d : TemplateData F) : String :=
  svgTPL.head ++ svgTPL.int d.Width ++ " " ++ svgTPL.int d.Height ++ svgTPL.style ++
  String.join (d.Sponsors.map svgTPL.clip) ++ "\n</defs>\n" ++
  String.join (d.Sponsors.map (svgTPL.group X d.FontSize)) ++ "\n" ++
  (if d.ActiveSponsors.length ≠ 0 ∧ d.ExpiredSponsors.length ≠ 0 then svgTPL.line d else "") ++
  "\n</svg>"

/-- The function `Generate`. -/
def Generate {F : Type} (X : Externals F) (client : Client)
    (activeSponsors expiredSponsors : List (Sponsor F)) (cfg : Config F) : Run :=
  if len activeSponsors = 0 ∧ len expiredSponsors = 0 then
    { requests := [], outcome := .ret emptySVG none }
  else
    match Generate.data X client activeSponsors expiredSponsors cfg with
    | (log, .error .panic) => { requests := log, outcome := .panic }
    | (log, .error (.err e)) => { requests := log, outcome := .ret emptySVG (some e) }
    | (log, .ok d) => { requests := log, outcome := .ret (svgTPL.execute X d) none }

/-! ## Auxiliary definitions used to state the results -/

/-- The value of the locals when no division faults. -/
def Generate.localsOf {F : Type} (cfg : Config F) (nActive nExpired : Int) : Locals :=
  let fontSize := wrap (Int.tdiv cfg.AvatarSize cfg.FontSizeScale)
  let nameLimit := wrap (Int.tdiv (imul cfg.AvatarSize 2) fontSize)
  let paddingX :=
    if cfg.PaddingXScale > 0 then wrap (Int.tdiv cfg.AvatarSize cfg.PaddingXScale) else 0
  let paddingY :=
    if cfg.PaddingYScale > 0 then wrap (Int.tdiv cfg.AvatarSize cfg.PaddingYScale) else 0
  let rowHeight := iadd (iadd (iadd cfg.AvatarSize cfg.Margin) fontSize) 10
  let numActiveRows := wrap (Int.tdiv (isub (iadd nActive cfg.AvatarsPerRow) 1) cfg.AvatarsPerRow)
  let activeHeight := imul numActiveRows rowHeight
  let separatorHeight := if nActive > 0 ∧ nExpired > 0 then 40 else 0
  let numExpiredRows :=
    wrap (Int.tdiv (isub (iadd nExpired cfg.AvatarsPerRow) 1) cfg.AvatarsPerRow)
  let expiredHeight := imul numExpiredRows rowHeight
  let height := iadd (iadd (iadd paddingY activeHeight) separatorHeight) expiredHeight
  let width := iadd (isub (imul cfg.AvatarsPerRow (iadd cfg.AvatarSize cfg.Margin)) cfg.Margin)
    (imul paddingX 2)
  { fontSize := fontSize
    nameLimit := if nameLimit < 5 then 5 else nameLimit
    paddingX := paddingX
    paddingY := paddingY
    rowHeight := rowHeight
    textYOffset := iadd (iadd (wrap (Int.tdiv cfg.AvatarSize 2)) fontSize) 10
    numActiveRows := numActiveRows
    activeHeight := activeHeight
    separatorHeight := separatorHeight
    numExpiredRows := numExpiredRows
    expiredHeight := expiredHeight
    height := height
    width := width
    svgCenterX := wrap (Int.tdiv width 2)
    svgCenterY := wrap (Int.tdiv height 2) }

/-- The grid cell `(rowIndex, colIndex)` of lines 137-138 and 149-150. -/
def processSponsor.cellOf {F : Type} (cfg : Config F) (index : Int) (isActive : Bool)
    (ac : Int) : Int × Int :=
  if isActive then
    (wrap (Int.tdiv index cfg.AvatarsPerRow), wrap (Int.tmod index cfg.AvatarsPerRow))
  else
    (wrap (Int.tdiv (isub index ac) cfg.AvatarsPerRow),
     wrap (Int.tmod (isub index ac) cfg.AvatarsPerRow))

/-- The vertical offset at which the rows of a group start (lines 139 and 142-151). -/
def processSponsor.baseY {F : Type} (cfg : Config F) (L : Locals) (isActive : Bool)
    (ac : Int) : Int :=
  if isActive then L.paddingY
  else
    iadd (iadd L.paddingY
      (imul (wrap (Int.tdiv (isub (iadd ac cfg.AvatarsPerRow) 1) cfg.AvatarsPerRow))
        L.rowHeight))
      (if ac > 0 then L.separatorHeight else 0)

/-- The centre `(finalX, finalY)` when the column count is not zero. -/
def processSponsor.finalOf {F : Type} (cfg : Config F) (L : Locals) (radius index : Int)
    (isActive : Bool) (ac : Int) : Int × Int :=
  (iadd (iadd L.paddingX (imul (processSponsor.cellOf cfg index isActive ac).2
      (iadd cfg.AvatarSize cfg.Margin))) radius,
   iadd (iadd (processSponsor.baseY cfg L isActive ac)
      (imul (processSponsor.cellOf cfg index isActive ac).1 L.rowHeight)) radius)

/-- The sponsor written by `processSponsor.place` when the column count is not zero. -/
def processSponsor.placeOf {F : Type} (X : Externals F) (cfg : Config F) (L : Locals)
    (sponsor : Sponsor F) (index : Int) (isActive : Bool) (ac : Int) (img : Bytes) :
    Sponsor F :=
  let radius := wrap (Int.tdiv cfg.AvatarSize 2)
  let final := processSponsor.finalOf cfg L radius index isActive ac
  { sponsor with
    Index := index
    IsActive := isActive
    AvatarSize := cfg.AvatarSize
    Radius := radius
    ImgMime := X.DetectContentType img
    ImgB64 := X.EncodeToString img
    TextY := L.textYOffset
    CenterY := final.2
    CenterX := final.1
    TranslateX := isub L.svgCenterX final.1
    TranslateY := isub L.svgCenterY final.2
    AnimationDelay :=
      if isActive then X.fmul (X.ofInt index) cfg.AnimationDelay
      else X.fmuladd (X.fsub (X.ofInt index) (X.ofInt ac)) cfg.AnimationDelay
        (X.ofInt ac) cfg.AnimationDelay
    Opacity :=
      if isActive then cfg.ActiveSponsorOpacity
      else if cfg.UseActiveOpacityWhenNoActive && decide (ac = 0) then
        cfg.ActiveSponsorOpacity
      else cfg.ExpiredSponsorOpacity }

/-- The sponsor the loop writes at position `i`, given the bytes of its avatar. -/
def Generate.placed {F : Type} (X : Externals F) (cfg : Config F) (L : Locals) (ac : Int)
    (i : Nat) (s : Sponsor F) (img : Bytes) : Sponsor F :=
  processSponsor.placeOf X cfg L (processSponsor.shape X L s) (i : Int)
    (decide ((i : Int) < ac)) ac img

/-- The error a fetch ends in, if any: `client.Get` failed, or reading the body did. -/
def fetchError (r : Except GoError Response) : Option GoError :=
  match r with
  | .error e => some e
  | .ok resp =>
    match resp.Body with
    | .error e => some e
    | .ok _ => none

/-- The bytes a fetch delivers, if it succeeds; the status code plays no part. -/
def fetchBytes (r : Except GoError Response) : Option Bytes :=
  match r with
  | .error _ => none
  | .ok resp =>
    match resp.Body with
    | .error _ => none
    | .ok img => some img

/-- Every fetch the loop would issue for `sponsors`, starting from the request log
`log`, delivers its bytes. -/
def fetchesSucceed {F : Type} (client : Client) : List String → List (Sponsor F) → Bool
  | _, [] => true
  | log, s :: rest =>
    (fetchBytes (client log s.Avatar)).isSome && fetchesSucceed client (log ++ [s.Avatar]) rest

/-- The template data assembled from the locals and the processed sponsors. -/
def Generate.dataOf {F : Type} (L : Locals) (activeSponsors expiredSponsors : List (Sponsor F))
    (sponsors : List (Sponsor F)) : TemplateData F :=
  { Width := L.width
    Height := L.height
    FontSize := L.fontSize
    Sponsors := sponsors
    ActiveSponsors := activeSponsors
    ExpiredSponsors := expiredSponsors
    LineX1 := L.paddingX
    LineX2 := isub L.width L.paddingX
    LineY := iadd (iadd L.paddingY L.activeHeight) (wrap (Int.tdiv L.separatorHeight 2)) }

/-- How `Generate` ends, from what the processing of a non-empty input produced. -/
def Generate.outcomeOf {F : Type} (X : Externals F) : Except Fault (TemplateData F) → Outcome
  | .error .panic => .panic
  | .error (.err e) => .ret emptySVG (some e)
  | .ok d => .ret (svgTPL.execute X d) none

/-- The position of the sponsor with global index `j` inside its own group. -/
def groupIndex (j ac : Int) : Int := if j < ac then j else j - ac

/-- None of the integer computations behind the canvas size leaves the range of a 64-bit
`int`: the two sums `count + AvatarsPerRow - 1`, the exact width (before `Margin` is
taken off) and the exact height are at most `2^63 - 1`. -/
def Generate.NoOverflow {F : Type} (cfg : Config F) (L : Locals) (na ne : Int) : Prop :=
  na + cfg.AvatarsPerRow - 1 ≤ 9223372036854775807 ∧
  ne + cfg.AvatarsPerRow - 1 ≤ 9223372036854775807 ∧
  cfg.AvatarsPerRow * (cfg.AvatarSize + cfg.Margin) + 2 * L.paddingX ≤ 9223372036854775807 ∧
  L.paddingY + (L.numActiveRows + L.numExpiredRows) *
    (cfg.AvatarSize + cfg.Margin + L.fontSize + 10) + L.separatorHeight ≤ 9223372036854775807

instance {F : Type} (cfg : Config F) (L : Locals) (na ne : Int) :
    Decidable (Generate.NoOverflow cfg L na ne) := by
  unfold Generate.NoOverflow; exact inferInstance

/-- What the template renders before it reaches the separator condition. -/
def svgTPL.body {F : Type} (X : Externals F) (d : TemplateData F) : String :=
  svgTPL.head ++ svgTPL.int d.Width ++ " " ++ svgTPL.int d.Height ++ svgTPL.style ++
  String.join (d.Sponsors.map svgTPL.clip) ++ "\n</defs>\n" ++
  String.join (d.Sponsors.map (svgTPL.group X d.FontSize)) ++ "\n"

/-- No `<l` occurs in the text and the text does not end in `<`: no `<line` starts in it,
nor across its end. A scan used to locate the separator line in the document. -/
def svgTPL.noLineStart : List Char → Bool
  | [] => true
  | [c] => c != '<'
  | c :: d :: rest => !(c == '<' && d == 'l') && svgTPL.noLineStart (d :: rest)

/-- The text of a rendered sponsor that comes from the input or from a collaborator has
no `<`. -/
def Sponsor.Plain {F : Type} (X : Externals F) (s : Sponsor F) : Prop :=
  '<' ∉ s.OriginalName.data ∧ '<' ∉ s.Name.data ∧ '<' ∉ s.ImgMime.data ∧
  '<' ∉ s.ImgB64.data ∧ '<' ∉ (X.formatFloat s.Opacity).data ∧
  '<' ∉ (X.formatFloat s.AnimationDelay).data


/-! ## Concrete inputs used to exercise the results -/

/-- Collaborators with simple stand-ins; `F` is `Nat`. -/
def sampleExternals : Externals Nat :=
  { StringWidth := fun s => (s.length : Int)
    TruncateStringByWidth := fun s n => s.take n.toNat
    DetectContentType := fun _ => "image/png"
    EncodeToString := fun b => String.mk (b.map (fun c => Char.ofNat c.toNat))
    ofInt := Int.toNat
    fsub := Nat.sub
    fmul := Nat.mul
    fmuladd := fun a b c d => a * b + c * d
    formatFloat := fun n => toString n }

/-- A sponsor as the caller supplies it: only the name and the avatar are set. -/
def sampleSponsor (name : String) : Sponsor Nat :=
  { Name := name, OriginalName := "", Avatar := name, Index := 0, IsActive := false,
    AvatarSize := 0, Radius := 0, ImgMime := "", ImgB64 := "", TextY := 0, CenterX := 0,
    CenterY := 0, TranslateX := 0, TranslateY := 0, AnimationDelay := 0, Opacity := 0 }

/-- The configuration of the worked example of the specification. -/
def sampleConfig : Config Nat :=
  { AvatarSize := 60, FontSizeScale := 5, PaddingXScale := 10, PaddingYScale := 10,
    Margin := 10, AvatarsPerRow := 5, AnimationDelay := 1, ActiveSponsorOpacity := 10,
    ExpiredSponsorOpacity := 5, UseActiveOpacityWhenNoActive := false }

/-- A client whose every fetch delivers two bytes with status 200. -/
def sampleClient : Client := fun _ _ => .ok { StatusCode := 200, Body := .ok [65, 66] }

/-- A client whose second request fails in transport. -/
def failingClient : Client := fun log _ =>
  if log.length = 1 then .error "connection reset"
  else .ok { StatusCode := 200, Body := .ok [65, 66] }

/-- A client that answers every request with status 404 and a readable body. -/
def notFoundClient : Client := fun _ _ => .ok { StatusCode := 404, Body := .ok [52, 48, 52] }

/-- The sample configuration with the largest column count an `int` can hold. -/
def hugeRowConfig : Config Nat :=
  { sampleConfig with AvatarsPerRow := 9223372036854775807 }

/-- A configuration whose cell width `AvatarSize + Margin` is `2^62`. -/
def wideCellConfig : Config Nat :=
  { AvatarSize := 4611686018427387904, FontSizeScale := 4611686018427387904,
    PaddingXScale := 0, PaddingYScale := 0, Margin := 0, AvatarsPerRow := 5,
    AnimationDelay := 1, ActiveSponsorOpacity := 10, ExpiredSponsorOpacity := 5,
    UseActiveOpacityWhenNoActive := false }

/-- Five sponsors as the caller supplies them. -/
def fiveSponsors : List (Sponsor Nat) :=
  [sampleSponsor "a", sampleSponsor "b", sampleSponsor "c", sampleSponsor "d", sampleSponsor "e"]

/-- Two active sponsors. -/
def sampleActive : List (Sponsor Nat) := [sampleSponsor "a", sampleSponsor "b"]

/-- One expired sponsor. -/
def sampleExpired : List (Sponsor Nat) := [sampleSponsor "c"]

/-- The locals of the sample configuration for two active and one expired sponsor. -/
def sampleLocals : Locals := Generate.localsOf sampleConfig 2 1

/-- The sponsor the sample run writes at position `j`. -/
def samplePlaced (j : Nat) (name : String) : Sponsor Nat :=
  Generate.placed sampleExternals sampleConfig sampleLocals 2 j (sampleSponsor name) [65, 66]

/-- The template data of the sample run. -/
def sampleData : TemplateData Nat :=
  Generate.dataOf sampleLocals sampleActive sampleExpired
    [samplePlaced 0 "a", samplePlaced 1 "b", samplePlaced 2 "c"]

/-- A configuration whose row height `AvatarSize + Margin + fontSize + 10` exceeds `2^63`. -/
def tallRowConfig : Config Nat :=
  { AvatarSize := 4611686018427387904, FontSizeScale := 1, PaddingXScale := 0,
    PaddingYScale := 0, Margin := 0, AvatarsPerRow := 1, AnimationDelay := 1,
    ActiveSponsorOpacity := 10, ExpiredSponsorOpacity := 5,
    UseActiveOpacityWhenNoActive := false }

/-- The sample configuration with a font scale larger than the avatar size. -/
def smallFontConfig : Config Nat :=
  { sampleConfig with FontSizeScale := 61 }

/-- A sponsor name that is a separator line element. -/
def lineName : String :=
  "<line class=\"separator\" x1=\"6\" y1=\"26\" x2=\"346\" y2=\"26\" stroke-width=\"1\"/>"

/-! ## A model of `float32`

`AnimationDelay` and the opacities are `float32` values. The results that depend on how
`float32` rounds use the IEEE-754 binary32 format with round-to-nearest, ties to even:
24 significant bits, exponents from `-126` (subnormal numbers share the exponent `-126`),
overflow to an infinity from `2^128`. A finite value is kept as the rational number it
denotes, so the two zeros are one value. Go lets a build fuse `x*y + z` into one operation
that rounds once; `F32.mulAdd` covers the three ways line 166 can be evaluated. -/

/-- A `float32`: a finite value, an infinity with its sign bit, or a NaN. -/
inductive F32 where
  | fin (q : ℚ)
  | inf (neg : Bool)
  | nan
  deriving DecidableEq

/-- The exponent of the binade of `q`, not below that of the subnormal numbers. -/
def F32.expo (q : ℚ) : Int := max (Int.log 2 |q|) (-126)

/-- The unit in the last place of the binade of `q`. -/
def F32.ulp (q : ℚ) : ℚ := (2 : ℚ) ^ (F32.expo q - 23)

/-- The integer nearest to `x`, the even one of the two when `x` lies halfway. -/
def F32.nearestEven (x : ℚ) : Int :=
  if x - ⌊x⌋ < 1 / 2 then ⌊x⌋
  else if 1 / 2 < x - ⌊x⌋ then ⌊x⌋ + 1
  else if ⌊x⌋ % 2 = 0 then ⌊x⌋ else ⌊x⌋ + 1

/-- The multiple of the unit in the last place nearest to `q`. -/
def F32.roundVal (q : ℚ) : ℚ := (F32.nearestEven (q / F32.ulp q) : ℚ) * F32.ulp q

/-- Rounding of an exact result to `float32`. -/
def F32.round (q : ℚ) : F32 :=
  if (2 : ℚ) ^ (128 : Nat) ≤ |F32.roundVal q| then .inf (decide (F32.roundVal q < 0))
  else .fin (F32.roundVal q)

/-- The conversion `float32(i)` of an `int`. -/
def F32.ofInt (i : Int) : F32 := F32.round (i : ℚ)

/-- The negation of a `float32`. -/
def F32.neg : F32 → F32
  | .fin a => .fin (-a)
  | .inf s => .inf (!s)
  | .nan => .nan

/-- The sum `x + y` of two `float32`. -/
def F32.add : F32 → F32 → F32
  | .fin a, .fin b => F32.round (a + b)
  | .fin _, .inf s => .inf s
  | .inf s, .fin _ => .inf s
  | .inf s, .inf t => if s = t then .inf s else .nan
  | .nan, _ => .nan
  | .fin _, .nan => .nan
  | .inf _, .nan => .nan

/-- The difference `x - y` of two `float32`. -/
def F32.sub (x y : F32) : F32 := F32.add x (F32.neg y)

/-- The product `x * y` of two `float32`. -/
def F32.mul : F32 → F32 → F32
  | .fin a, .fin b => F32.round (a * b)
  | .fin a, .inf s => if a = 0 then .nan else .inf (xor s (decide (a < 0)))
  | .inf s, .fin b => if b = 0 then .nan else .inf (xor s (decide (b < 0)))
  | .inf s, .inf t => .inf (xor s t)
  | .nan, _ => .nan
  | .fin _, .nan => .nan
  | .inf _, .nan => .nan

/-- The comparison `x <= y` of two `float32`; it is false when either side is a NaN. -/
def F32.le : F32 → F32 → Bool
  | .fin a, .fin b => decide (a ≤ b)
  | .fin _, .inf s => !s
  | .inf s, .fin _ => s
  | .inf s, .inf t => s || !t
  | .nan, _ => false
  | .fin _, .nan => false
  | .inf _, .nan => false

/-- The value is a `float32` that is zero, positive or `+Inf`. -/
def F32.IsNonneg : F32 → Prop
  | .fin v => 0 ≤ v ∧ F32.roundVal v = v ∧ v < (2 : ℚ) ^ (128 : Nat)
  | .inf s => s = false
  | .nan => False

/-- The fused multiply-add `x*y + z`: the exact product and sum, rounded once. -/
def F32.fma (x y z : F32) : F32 :=
  match x, y with
  | .fin a, .fin b =>
    match z with
    | .fin c => F32.round (a * b + c)
    | .inf s => .inf s
    | .nan => .nan
  | _, _ => F32.add (F32.mul x y) z

/-- The ways a build may evaluate `a*b + c*d`: every operation rounded on its own, or the
left or the right product fused into the addition. -/
inductive Fusion where
  | none
  | left
  | right
  deriving DecidableEq

/-- The sum of two products `a*b + c*d` as a build with the given fusion evaluates it. -/
def F32.mulAdd (m : Fusion) (a b c d : F32) : F32 :=
  match m with
  | .none => F32.add (F32.mul a b) (F32.mul c d)
  | .left => F32.fma a b (F32.mul c d)
  | .right => F32.fma c d (F32.mul a b)

/-- The float operations of the collaborators are those of binary32, the sum of two
products being evaluated in one of the three ways Go allows. -/
def Externals.IEEE (X : Externals F32) : Prop :=
  X.ofInt = F32.ofInt ∧ X.fsub = F32.sub ∧ X.fmul = F32.mul ∧
    ∃ m : Fusion, X.fmuladd = F32.mulAdd m

/-- Collaborators with the binary32 operations of a build with the given fusion, and
simple stand-ins for the rest. -/
def ieeeExternals (m : Fusion) : Externals F32 :=
  { StringWidth := fun s => (s.length : Int)
    TruncateStringByWidth := fun s n => s.take n.toNat
    DetectContentType := fun _ => "image/png"
    EncodeToString := fun b => String.mk (b.map (fun c => Char.ofNat c.toNat))
    ofInt := F32.ofInt
    fsub := F32.sub
    fmul := F32.mul
    fmuladd := F32.mulAdd m
    formatFloat := fun x =>
      match x with
      | .fin q => toString q.num ++ "/" ++ toString q.den
      | .inf s => if s then "-Inf" else "+Inf"
      | .nan => "NaN" }

/-- A sponsor as the caller supplies it, over `F32`. -/
def ieeeSponsor (name : String) : Sponsor F32 :=
  { Name := name, OriginalName := "", Avatar := name, Index := 0, IsActive := false,
    AvatarSize := 0, Radius := 0, ImgMime := "", ImgB64 := "", TextY := 0, CenterX := 0,
    CenterY := 0, TranslateX := 0, TranslateY := 0, AnimationDelay := .fin 0,
    Opacity := .fin 0 }

/-- The configuration of the worked example with the given delay unit. -/
def ieeeConfig (delay : F32) : Config F32 :=
  { AvatarSize := 60, FontSizeScale := 5, PaddingXScale := 10, PaddingYScale := 10,
    Margin := 10, AvatarsPerRow := 5, AnimationDelay := delay,
    ActiveSponsorOpacity := .fin 1, ExpiredSponsorOpacity := .fin (1 / 2),
    UseActiveOpacityWhenNoActive := false }

/-- The `float32` nearest to one tenth, `13421773 / 2^27`. -/
def tenth : ℚ := 13421773 / 134217728


/-! ## Basic facts about the embedding -/

theorem wrap_eq_self {x : Int} (h : InInt64 x) : wrap x = x := by
  unfold InInt64 at h; unfold wrap; omega

theorem wrap_inInt64 (x : Int) : InInt64 (wrap x) := by
  unfold InInt64 wrap; omega

theorem idiv_ok {a b : Int} (h : b ≠ 0) : idiv a b = .ok (wrap (Int.tdiv a b)) := by
  simp [idiv, h]

theorem imod_ok {a b : Int} (h : b ≠ 0) : imod a b = .ok (wrap (Int.tmod a b)) := by
  simp [imod, h]

theorem idiv_zero (a : Int) : idiv a 0 = .error .panic := by
  simp [idiv]

theorem idiv_two (a : Int) : idiv a 2 = .ok (wrap (Int.tdiv a 2)) := idiv_ok (by decide)

theorem padding_eq (a s : Int) :
    (if s > 0 then idiv a s else (pure 0 : Except Fault Int)) =
      .ok (if s > 0 then wrap (Int.tdiv a s) else 0) := by
  by_cases h : s > 0
  · have : s ≠ 0 := by omega
    simp [h, idiv_ok this]
  · simp [h]; rfl

theorem locals_ok {F : Type} (cfg : Config F) (na ne : Int)
    (h1 : cfg.FontSizeScale ≠ 0)
    (h2 : wrap (Int.tdiv cfg.AvatarSize cfg.FontSizeScale) ≠ 0)
    (h3 : cfg.AvatarsPerRow ≠ 0) :
    Generate.locals cfg na ne = .ok (Generate.localsOf cfg na ne) := by
  unfold Generate.locals
  simp only [padding_eq]
  simp only [Generate.localsOf, idiv_ok h1, idiv_ok h2, idiv_ok h3, idiv_two,
    bind, Except.bind, pure, Except.pure]

theorem locals_panic {F : Type} (cfg : Config F) (na ne : Int)
    (h : cfg.FontSizeScale = 0 ∨ wrap (Int.tdiv cfg.AvatarSize cfg.FontSizeScale) = 0 ∨
      cfg.AvatarsPerRow = 0) :
    Generate.locals cfg na ne = .error .panic := by
  by_cases h1 : cfg.FontSizeScale = 0
  · simp only [Generate.locals, h1, idiv_zero, bind, Except.bind]
  by_cases h2 : wrap (Int.tdiv cfg.AvatarSize cfg.FontSizeScale) = 0
  · simp only [Generate.locals, idiv_ok h1, h2, idiv_zero, bind, Except.bind]
  have h3 : cfg.AvatarsPerRow = 0 := by tauto
  unfold Generate.locals
  simp only [padding_eq]
  simp only [idiv_ok h1, idiv_ok h2, h3, idiv_zero, idiv_two, bind, Except.bind]

/-- A successful computation of the locals pins down the divisors and the value. -/
theorem locals_inv {F : Type} {cfg : Config F} {na ne : Int} {L : Locals}
    (h : Generate.locals cfg na ne = .ok L) :
    cfg.FontSizeScale ≠ 0 ∧ wrap (Int.tdiv cfg.AvatarSize cfg.FontSizeScale) ≠ 0 ∧
      cfg.AvatarsPerRow ≠ 0 ∧ L = Generate.localsOf cfg na ne := by
  by_cases h1 : cfg.FontSizeScale = 0
  · rw [locals_panic cfg na ne (Or.inl h1)] at h; cases h
  by_cases h2 : wrap (Int.tdiv cfg.AvatarSize cfg.FontSizeScale) = 0
  · rw [locals_panic cfg na ne (Or.inr (Or.inl h2))] at h; cases h
  by_cases h3 : cfg.AvatarsPerRow = 0
  · rw [locals_panic cfg na ne (Or.inr (Or.inr h3))] at h; cases h
  rw [locals_ok cfg na ne h1 h2 h3] at h
  exact ⟨h1, h2, h3, (Except.ok.inj h).symm⟩

theorem final_ok {F : Type} (cfg : Config F) (L : Locals) (radius index : Int)
    (isActive : Bool) (ac : Int) (h3 : cfg.AvatarsPerRow ≠ 0) :
    processSponsor.final cfg L radius index isActive ac =
      .ok (processSponsor.finalOf cfg L radius index isActive ac) := by
  cases isActive <;>
    simp only [processSponsor.final, processSponsor.finalOf, processSponsor.cellOf,
      processSponsor.baseY, idiv_ok h3, imod_ok h3, bind, Except.bind, pure, Except.pure,
      if_true, if_false, Bool.false_eq_true]

theorem final_panic {F : Type} (cfg : Config F) (L : Locals) (radius index : Int)
    (isActive : Bool) (ac : Int) (h3 : cfg.AvatarsPerRow = 0) :
    processSponsor.final cfg L radius index isActive ac = .error .panic := by
  cases isActive <;>
    simp only [processSponsor.final, h3, idiv_zero, bind, Except.bind, if_true, if_false,
      Bool.false_eq_true]

theorem place_ok {F : Type} (X : Externals F) (cfg : Config F) (L : Locals) (s : Sponsor F)
    (index : Int) (isActive : Bool) (ac : Int) (img : Bytes) (h3 : cfg.AvatarsPerRow ≠ 0) :
    processSponsor.place X cfg L s index isActive ac img =
      .ok (processSponsor.placeOf X cfg L s index isActive ac img) := by
  simp only [processSponsor.place, processSponsor.placeOf, idiv_two, final_ok cfg L _ _ _ _ h3,
    bind, Except.bind, pure, Except.pure]

theorem place_panic {F : Type} (X : Externals F) (cfg : Config F) (L : Locals) (s : Sponsor F)
    (index : Int) (isActive : Bool) (ac : Int) (img : Bytes) (h3 : cfg.AvatarsPerRow = 0) :
    processSponsor.place X cfg L s index isActive ac img = .error .panic := by
  simp only [processSponsor.place, idiv_two, final_panic cfg L _ _ _ _ h3, bind, Except.bind]

@[simp] theorem shape_Avatar {F : Type} (X : Externals F) (L : Locals) (s : Sponsor F) :
    (processSponsor.shape X L s).Avatar = s.Avatar := by
  simp only [processSponsor.shape]; split <;> rfl

@[simp] theorem shape_OriginalName {F : Type} (X : Externals F) (L : Locals) (s : Sponsor F) :
    (processSponsor.shape X L s).OriginalName = s.Name := by
  simp only [processSponsor.shape]; split <;> rfl

theorem fetch_cases (r : Except GoError Response) :
    (∃ e, fetchError r = some e ∧ fetchBytes r = none) ∨
      (∃ img, fetchBytes r = some img ∧ fetchError r = none) := by
  rcases r with e | ⟨st, e | img⟩
  · exact Or.inl ⟨e, rfl, rfl⟩
  · exact Or.inl ⟨e, rfl, rfl⟩
  · exact Or.inr ⟨img, rfl, rfl⟩

theorem processSponsor_err {F : Type} (X : Externals F) (client : Client) (cfg : Config F)
    (L : Locals) (log : List String) (s : Sponsor F) (index : Int) (isActive : Bool) (ac : Int)
    {e : GoError} (h : fetchError (client log s.Avatar) = some e) :
    processSponsor X client cfg L log s index isActive ac =
      (log ++ [s.Avatar], .error (.err e)) := by
  unfold processSponsor
  simp only [shape_Avatar]
  rcases hc : client log s.Avatar with e1 | ⟨st, e1 | img⟩ <;> rw [hc] at h <;>
    simp_all [fetchError]

theorem processSponsor_bytes {F : Type} (X : Externals F) (client : Client) (cfg : Config F)
    (L : Locals) (log : List String) (s : Sponsor F) (index : Int) (isActive : Bool) (ac : Int)
    {img : Bytes} (h : fetchBytes (client log s.Avatar) = some img) :
    processSponsor X client cfg L log s index isActive ac =
      (log ++ [s.Avatar],
        processSponsor.place X cfg L (processSponsor.shape X L s) index isActive ac img) := by
  unfold processSponsor
  simp only [shape_Avatar]
  rcases hc : client log s.Avatar with e1 | ⟨st, e1 | img1⟩ <;> rw [hc] at h <;>
    simp_all [fetchBytes]

theorem loop_cons_err {F : Type} (X : Externals F) (client : Client) (cfg : Config F)
    (L : Locals) (ac : Int) (i : Nat) (log : List String) (s : Sponsor F)
    (rest : List (Sponsor F)) {e : GoError} (h : fetchError (client log s.Avatar) = some e) :
    Generate.loop X client cfg L ac i log (s :: rest) = (log ++ [s.Avatar], .error (.err e)) := by
  simp only [Generate.loop, processSponsor_err X client cfg L log s _ _ ac h]

theorem loop_cons_panic {F : Type} (X : Externals F) (client : Client) (cfg : Config F)
    (L : Locals) (ac : Int) (i : Nat) (log : List String) (s : Sponsor F)
    (rest : List (Sponsor F)) {img : Bytes} (h : fetchBytes (client log s.Avatar) = some img)
    (h3 : cfg.AvatarsPerRow = 0) :
    Generate.loop X client cfg L ac i log (s :: rest) = (log ++ [s.Avatar], .error .panic) := by
  simp only [Generate.loop, processSponsor_bytes X client cfg L log s _ _ ac h,
    place_panic X cfg L _ _ _ ac img h3]

theorem loop_cons_bytes {F : Type} (X : Externals F) (client : Client) (cfg : Config F)
    (L : Locals) (ac : Int) (i : Nat) (log : List String) (s : Sponsor F)
    (rest : List (Sponsor F)) {img : Bytes} (h : fetchBytes (client log s.Avatar) = some img)
    (h3 : cfg.AvatarsPerRow ≠ 0) :
    Generate.loop X client cfg L ac i log (s :: rest) =
      ((Generate.loop X client cfg L ac (i + 1) (log ++ [s.Avatar]) rest).1,
        (Generate.loop X client cfg L ac (i + 1) (log ++ [s.Avatar]) rest).2.map
          (fun out => Generate.placed X cfg L ac i s img :: out)) := by
  simp only [Generate.loop, processSponsor_bytes X client cfg L log s _ _ ac h,
    place_ok X cfg L _ _ _ ac img h3, Generate.placed]
  rcases Generate.loop X client cfg L ac (i + 1) (log ++ [s.Avatar]) rest with ⟨log2, f | out⟩ <;>
    rfl

/-- The request log only grows. -/
theorem loop_log_extends {F : Type} (X : Externals F) (client : Client) (cfg : Config F)
    (L : Locals) (ac : Int) (l : List (Sponsor F)) :
    ∀ (i : Nat) (log : List String),
      ∃ t, (Generate.loop X client cfg L ac i log l).1 = log ++ t := by
  induction l with
  | nil => intro i log; exact ⟨[], by simp [Generate.loop]⟩
  | cons s rest ih =>
    intro i log
    rcases fetch_cases (client log s.Avatar) with ⟨e, he, _⟩ | ⟨img, hb, _⟩
    · exact ⟨[s.Avatar], by rw [loop_cons_err X client cfg L ac i log s rest he]⟩
    · by_cases h3 : cfg.AvatarsPerRow = 0
      · exact ⟨[s.Avatar], by rw [loop_cons_panic X client cfg L ac i log s rest hb h3]⟩
      · obtain ⟨t, ht⟩ := ih (i + 1) (log ++ [s.Avatar])
        refine ⟨s.Avatar :: t, ?_⟩
        rw [loop_cons_bytes X client cfg L ac i log s rest hb h3]
        simp [ht]

/-- When every fetch delivers and the column count is not zero, the loop completes. -/
theorem loop_ok {F : Type} (X : Externals F) (client : Client) (cfg : Config F)
    (L : Locals) (ac : Int) (h3 : cfg.AvatarsPerRow ≠ 0) (l : List (Sponsor F)) :
    ∀ (i : Nat) (log : List String), fetchesSucceed client log l = true →
      ∃ out, Generate.loop X client cfg L ac i log l = (log ++ l.map (·.Avatar), .ok out) := by
  induction l with
  | nil => intro i log _; exact ⟨[], by simp [Generate.loop]⟩
  | cons s rest ih =>
    intro i log hf
    simp only [fetchesSucceed, Bool.and_eq_true, Option.isSome_iff_exists] at hf
    obtain ⟨⟨img, hb⟩, hrest⟩ := hf
    obtain ⟨out, hout⟩ := ih (i + 1) (log ++ [s.Avatar]) hrest
    refine ⟨Generate.placed X cfg L ac i s img :: out, ?_⟩
    rw [loop_cons_bytes X client cfg L ac i log s rest hb h3, hout]
    simp [Except.map]

/-- What a completed loop has done: one request per sponsor, each fetch delivered, and
the sponsor at every position is the placed one. -/
theorem loop_inv {F : Type} (X : Externals F) (client : Client) (cfg : Config F)
    (L : Locals) (ac : Int) (l : List (Sponsor F)) :
    ∀ (i : Nat) (log log1 : List String) (out : List (Sponsor F)),
      Generate.loop X client cfg L ac i log l = (log1, .ok out) →
      log1 = log ++ l.map (·.Avatar) ∧ out.length = l.length ∧
      fetchesSucceed client log l = true ∧
      ∀ (j : Nat) (s : Sponsor F), l[j]? = some s →
        ∃ img, fetchBytes (client (log ++ (l.take j).map (·.Avatar)) s.Avatar) = some img ∧
          out[j]? = some (Generate.placed X cfg L ac (i + j) s img) := by
  induction l with
  | nil =>
    intro i log log1 out h
    simp only [Generate.loop, Prod.mk.injEq, Except.ok.injEq] at h
    obtain ⟨h1, h2⟩ := h
    subst h1 h2
    simp [fetchesSucceed]
  | cons s rest ih =>
    intro i log log1 out h
    rcases fetch_cases (client log s.Avatar) with ⟨e, he, _⟩ | ⟨img, hb, _⟩
    · rw [loop_cons_err X client cfg L ac i log s rest he] at h
      simp at h
    · by_cases h3 : cfg.AvatarsPerRow = 0
      · rw [loop_cons_panic X client cfg L ac i log s rest hb h3] at h
        simp at h
      · rw [loop_cons_bytes X client cfg L ac i log s rest hb h3] at h
        rcases hr : Generate.loop X client cfg L ac (i + 1) (log ++ [s.Avatar]) rest with
          ⟨log2, f | out2⟩
        · rw [hr] at h; simp [Except.map] at h
        · rw [hr] at h
          simp only [Except.map, Prod.mk.injEq, Except.ok.injEq] at h
          obtain ⟨h1, h2⟩ := h
          subst h1 h2
          obtain ⟨ha, hb2, hc, hd⟩ := ih (i + 1) (log ++ [s.Avatar]) log2 out2 hr
          refine ⟨by simp [ha], by simp [hb2], by simp [fetchesSucceed, hb, hc], ?_⟩
          intro j t hj
          cases j with
          | zero =>
            simp only [List.getElem?_cons_zero, Option.some.injEq] at hj
            subst hj
            exact ⟨img, by simpa using hb, by simp⟩
          | succ j =>
            simp only [List.getElem?_cons_succ] at hj
            obtain ⟨img2, hi1, hi2⟩ := hd j t hj
            refine ⟨img2, ?_, ?_⟩
            · simpa using hi1
            · simp only [List.getElem?_cons_succ]
              rw [hi2]
              congr 2
              omega

theorem log_get_length (log t : List String) (a url : String)
    (h : (log ++ a :: t)[log.length]? = some url) : url = a := by
  rw [List.getElem?_append_right (Nat.le_refl _)] at h
  simp only [Nat.sub_self, List.getElem?_cons_zero, Option.some.injEq] at h
  exact h.symm

theorem log_take_length (log t : List String) : (log ++ t).take log.length = log := by
  simp

/-- A fetch that the loop issued and that failed is the last one, and its error is
what the loop returns. -/
theorem loop_fail {F : Type} (X : Externals F) (client : Client) (cfg : Config F)
    (L : Locals) (ac : Int) (l : List (Sponsor F)) :
    ∀ (i : Nat) (log : List String) (k : Nat) (url : String) (e : GoError),
      log.length ≤ k →
      (Generate.loop X client cfg L ac i log l).1[k]? = some url →
      fetchError (client ((Generate.loop X client cfg L ac i log l).1.take k) url) = some e →
      (Generate.loop X client cfg L ac i log l).2 = .error (.err e) := by
  induction l with
  | nil =>
    intro i log k url e hk hu _
    simp only [Generate.loop] at hu
    have := List.getElem?_eq_none hk
    rw [this] at hu; cases hu
  | cons s rest ih =>
    intro i log k url e hk hu he
    rcases fetch_cases (client log s.Avatar) with ⟨e0, he0, _⟩ | ⟨img, hb, hne⟩
    · rw [loop_cons_err X client cfg L ac i log s rest he0] at hu he ⊢
      simp only at hu he ⊢
      have hk2 : k = log.length := by
        have := (List.getElem?_eq_some_iff.mp hu).1
        simp at this; omega
      subst hk2
      have hurl := log_get_length log [] s.Avatar url hu
      subst hurl
      rw [log_take_length, he0] at he
      cases he
      rfl
    · by_cases h3 : cfg.AvatarsPerRow = 0
      · rw [loop_cons_panic X client cfg L ac i log s rest hb h3] at hu he
        simp only at hu he
        have hk2 : k = log.length := by
          have := (List.getElem?_eq_some_iff.mp hu).1
          simp at this; omega
        subst hk2
        have hurl := log_get_length log [] s.Avatar url hu
        subst hurl
        rw [log_take_length, hne] at he
        cases he
      · rw [loop_cons_bytes X client cfg L ac i log s rest hb h3] at hu he ⊢
        simp only at hu he ⊢
        obtain ⟨t, ht⟩ := loop_log_extends X client cfg L ac rest (i + 1) (log ++ [s.Avatar])
        by_cases hk2 : k = log.length
        · subst hk2
          rw [ht, List.append_assoc] at hu he
          have hurl := log_get_length log t s.Avatar url (by simpa using hu)
          subst hurl
          rw [log_take_length, hne] at he
          cases he
        · have := ih (i + 1) (log ++ [s.Avatar]) k url e (by simp; omega) hu he
          rw [this]; rfl

theorem data_of_locals {F : Type} (X : Externals F) (client : Client)
    (a ex : List (Sponsor F)) (cfg : Config F) {L : Locals}
    (hL : Generate.locals cfg (len a) (len ex) = .ok L) :
    Generate.data X client a ex cfg =
      ((Generate.loop X client cfg L (len a) 0 [] (a ++ ex)).1,
        (Generate.loop X client cfg L (len a) 0 [] (a ++ ex)).2.map (Generate.dataOf L a ex)) := by
  simp only [Generate.data, hL, idiv_two]
  rcases Generate.loop X client cfg L (len a) 0 [] (a ++ ex) with ⟨log, f | out⟩ <;> rfl

theorem data_of_panic {F : Type} (X : Externals F) (client : Client)
    (a ex : List (Sponsor F)) (cfg : Config F) {f : Fault}
    (hL : Generate.locals cfg (len a) (len ex) = .error f) :
    Generate.data X client a ex cfg = ([], .error f) := by
  simp only [Generate.data, hL]

theorem generate_nonempty {F : Type} (X : Externals F) (client : Client)
    (a ex : List (Sponsor F)) (cfg : Config F) (h : ¬ (len a = 0 ∧ len ex = 0)) :
    Generate X client a ex cfg =
      { requests := (Generate.data X client a ex cfg).1,
        outcome := Generate.outcomeOf X (Generate.data X client a ex cfg).2 } := by
  simp only [Generate, h, if_false]
  rcases Generate.data X client a ex cfg with ⟨log, (_ | e) | d⟩ <;> rfl

theorem len_eq_zero {α : Type} (xs : List α) : len xs = 0 ↔ xs = [] := by
  simp [len]

/-- A completed processing of a non-empty input, unfolded: the locals were computed and
the loop ran to its end. -/
theorem data_inv {F : Type} {X : Externals F} {client : Client} {a ex : List (Sponsor F)}
    {cfg : Config F} {log : List String} {d : TemplateData F}
    (h : Generate.data X client a ex cfg = (log, .ok d)) :
    ∃ L, Generate.locals cfg (len a) (len ex) = .ok L ∧
      Generate.loop X client cfg L (len a) 0 [] (a ++ ex) = (log, .ok d.Sponsors) ∧
      d = Generate.dataOf L a ex d.Sponsors := by
  rcases hL : Generate.locals cfg (len a) (len ex) with f | L
  · rw [data_of_panic X client a ex cfg hL] at h; simp at h
  · refine ⟨L, rfl, ?_⟩
    rw [data_of_locals X client a ex cfg hL] at h
    rcases hr : Generate.loop X client cfg L (len a) 0 [] (a ++ ex) with ⟨log2, f | out⟩
    · rw [hr] at h; simp [Except.map] at h
    · rw [hr] at h
      simp only [Except.map, Prod.mk.injEq, Except.ok.injEq] at h
      obtain ⟨h1, h2⟩ := h
      subst h1 h2
      exact ⟨rfl, rfl⟩

/-- When the locals are computed and every fetch delivers, the processing completes. -/
theorem data_ok {F : Type} (X : Externals F) (client : Client) (a ex : List (Sponsor F))
    (cfg : Config F) {L : Locals} (hL : Generate.locals cfg (len a) (len ex) = .ok L)
    (hf : fetchesSucceed client [] (a ++ ex) = true) :
    ∃ out, Generate.data X client a ex cfg =
      ((a ++ ex).map (·.Avatar), .ok (Generate.dataOf L a ex out)) := by
  obtain ⟨_, _, h3, _⟩ := locals_inv hL
  obtain ⟨out, hout⟩ := loop_ok X client cfg L (len a) h3 (a ++ ex) 0 [] hf
  refine ⟨out, ?_⟩
  rw [data_of_locals X client a ex cfg hL, hout]
  simp [Except.map]

theorem fetchBytes_ok {resp : Response} {img : Bytes} :
    fetchBytes (.ok resp) = some img ↔ resp.Body = .ok img := by
  rcases resp with ⟨st, e | b⟩ <;> simp [fetchBytes]

@[simp] theorem placed_Index {F : Type} (X : Externals F) (cfg : Config F) (L : Locals)
    (ac : Int) (i : Nat) (s : Sponsor F) (img : Bytes) :
    (Generate.placed X cfg L ac i s img).Index = (i : Int) := rfl

@[simp] theorem placed_IsActive {F : Type} (X : Externals F) (cfg : Config F) (L : Locals)
    (ac : Int) (i : Nat) (s : Sponsor F) (img : Bytes) :
    (Generate.placed X cfg L ac i s img).IsActive = decide ((i : Int) < ac) := rfl

@[simp] theorem placed_Avatar {F : Type} (X : Externals F) (cfg : Config F) (L : Locals)
    (ac : Int) (i : Nat) (s : Sponsor F) (img : Bytes) :
    (Generate.placed X cfg L ac i s img).Avatar = s.Avatar := by
  simp [Generate.placed, processSponsor.placeOf]

@[simp] theorem placed_OriginalName {F : Type} (X : Externals F) (cfg : Config F) (L : Locals)
    (ac : Int) (i : Nat) (s : Sponsor F) (img : Bytes) :
    (Generate.placed X cfg L ac i s img).OriginalName = s.Name := by
  simp [Generate.placed, processSponsor.placeOf]

@[simp] theorem placed_ImgB64 {F : Type} (X : Externals F) (cfg : Config F) (L : Locals)
    (ac : Int) (i : Nat) (s : Sponsor F) (img : Bytes) :
    (Generate.placed X cfg L ac i s img).ImgB64 = X.EncodeToString img := rfl

@[simp] theorem placed_ImgMime {F : Type} (X : Externals F) (cfg : Config F) (L : Locals)
    (ac : Int) (i : Nat) (s : Sponsor F) (img : Bytes) :
    (Generate.placed X cfg L ac i s img).ImgMime = X.DetectContentType img := rfl

/-- The sponsors of a completed processing, position by position. -/
theorem data_sponsors {F : Type} {X : Externals F} {client : Client}
    {a ex : List (Sponsor F)} {cfg : Config F} {log : List String} {d : TemplateData F}
    {L : Locals} (h : Generate.data X client a ex cfg = (log, .ok d))
    (hL : Generate.locals cfg (len a) (len ex) = .ok L) :
    d = Generate.dataOf L a ex d.Sponsors ∧
    log = (a ++ ex).map (·.Avatar) ∧ d.Sponsors.length = a.length + ex.length ∧
    ∀ (j : Nat) (s : Sponsor F), (a ++ ex)[j]? = some s →
      ∃ img, fetchBytes (client (((a ++ ex).take j).map (·.Avatar)) s.Avatar) = some img ∧
        d.Sponsors[j]? = some (Generate.placed X cfg L (len a) j s img) := by
  obtain ⟨L1, hL1, hloop, hd⟩ := data_inv h
  rw [hL] at hL1
  cases hL1
  obtain ⟨h1, h2, _, h4⟩ := loop_inv X client cfg L (len a) (a ++ ex) 0 [] log d.Sponsors hloop
  refine ⟨hd, by simpa using h1, by simpa using h2, ?_⟩
  intro j s hs
  obtain ⟨img, hi1, hi2⟩ := h4 j s hs
  exact ⟨img, by simpa using hi1, by simpa using hi2⟩

/-! ## Exactness of the machine operations on small values -/

theorem tdiv_exact {a b : Int} (ha : 0 ≤ a) (hb : 0 < b) (hr : a ≤ 9223372036854775807) :
    wrap (Int.tdiv a b) = a / b := by
  rw [Int.tdiv_eq_ediv ha (Int.le_of_lt hb)]
  apply wrap_eq_self
  have h1 : 0 ≤ a / b := Int.ediv_nonneg ha (Int.le_of_lt hb)
  have h2 : a / b ≤ a := Int.ediv_le_self b ha
  unfold InInt64; omega

theorem tmod_exact {a b : Int} (ha : 0 ≤ a) (hb : 0 < b) (hr : b ≤ 9223372036854775808) :
    wrap (Int.tmod a b) = a % b := by
  rw [Int.tmod_eq_emod ha (Int.le_of_lt hb)]
  apply wrap_eq_self
  have h1 : 0 ≤ a % b := Int.emod_nonneg a (by omega)
  have h2 : a % b < b := Int.emod_lt_of_pos a hb
  unfold InInt64; omega

/-- The row count of lines 86, 94 and 142 is exact when `n + p - 1` fits an `int`. -/
theorem rows_exact {n p : Int} (hn : 0 ≤ n) (hp : 1 ≤ p)
    (h : n + p - 1 ≤ 9223372036854775807) :
    wrap (Int.tdiv (isub (iadd n p) 1) p) = (n + p - 1) / p := by
  have h1 : isub (iadd n p) 1 = n + p - 1 := by
    unfold isub iadd wrap; omega
  rw [h1]
  exact tdiv_exact (by omega) (by omega) h

theorem ceilDiv_spec (n : Int) {p : Int} (hp : 1 ≤ p) :
    n ≤ ((n + p - 1) / p) * p ∧ ((n + p - 1) / p - 1) * p < n := by
  have h1 := Int.ediv_add_emod (n + p - 1) p
  have h2 : 0 ≤ (n + p - 1) % p := Int.emod_nonneg _ (by omega)
  have h3 : (n + p - 1) % p < p := Int.emod_lt_of_pos _ (by omega)
  have h4 : ((n + p - 1) / p) * p = p * ((n + p - 1) / p) := mul_comm _ _
  have h5 : ((n + p - 1) / p - 1) * p = p * ((n + p - 1) / p) - p := by ring
  constructor
  · rw [h4]; omega
  · rw [h5]; omega

theorem ceilDiv_least {n p r : Int} (hp : 1 ≤ p) (h : n ≤ r * p) : (n + p - 1) / p ≤ r := by
  have : (n + p - 1) / p < r + 1 := by
    apply Int.ediv_lt_of_lt_mul (by omega)
    have : (r + 1) * p = r * p + p := by ring
    omega
  omega

theorem ceilDiv_nonneg {n p : Int} (hn : 0 ≤ n) (hp : 1 ≤ p) : 0 ≤ (n + p - 1) / p :=
  Int.ediv_nonneg (by omega) (by omega)

theorem ceilDiv_eq_ceil (n : Int) {p : Int} (hp : 1 ≤ p) :
    (n + p - 1) / p = ⌈(n : ℚ) / (p : ℚ)⌉ := by
  obtain ⟨h1, h2⟩ := ceilDiv_spec n hp
  have hp0 : (0 : ℚ) < (p : ℚ) := by exact_mod_cast (by omega : 0 < p)
  symm
  rw [Int.ceil_eq_iff]
  constructor
  · rw [lt_div_iff₀ hp0]
    exact_mod_cast h2
  · rw [div_le_iff₀ hp0]
    exact_mod_cast h1

/-! ## The centre of a placed sponsor -/

theorem placed_centre_active {F : Type} (X : Externals F) (cfg : Config F) (L : Locals)
    (ac : Int) (i : Nat) (s : Sponsor F) (img : Bytes) (h : (i : Int) < ac) :
    (Generate.placed X cfg L ac i s img).CenterX =
        iadd (iadd L.paddingX (imul (wrap (Int.tmod (i : Int) cfg.AvatarsPerRow))
          (iadd cfg.AvatarSize cfg.Margin))) (wrap (Int.tdiv cfg.AvatarSize 2)) ∧
    (Generate.placed X cfg L ac i s img).CenterY =
        iadd (iadd L.paddingY (imul (wrap (Int.tdiv (i : Int) cfg.AvatarsPerRow)) L.rowHeight))
          (wrap (Int.tdiv cfg.AvatarSize 2)) := by
  simp [Generate.placed, processSponsor.placeOf, processSponsor.finalOf,
    processSponsor.cellOf, processSponsor.baseY, h]

theorem placed_centre_expired {F : Type} (X : Externals F) (cfg : Config F) (L : Locals)
    (ac : Int) (i : Nat) (s : Sponsor F) (img : Bytes) (h : ¬ (i : Int) < ac) :
    (Generate.placed X cfg L ac i s img).CenterX =
        iadd (iadd L.paddingX (imul (wrap (Int.tmod (isub (i : Int) ac) cfg.AvatarsPerRow))
          (iadd cfg.AvatarSize cfg.Margin))) (wrap (Int.tdiv cfg.AvatarSize 2)) ∧
    (Generate.placed X cfg L ac i s img).CenterY =
        iadd (iadd (iadd (iadd L.paddingY
          (imul (wrap (Int.tdiv (isub (iadd ac cfg.AvatarsPerRow) 1) cfg.AvatarsPerRow))
            L.rowHeight))
          (if ac > 0 then L.separatorHeight else 0))
          (imul (wrap (Int.tdiv (isub (i : Int) ac) cfg.AvatarsPerRow)) L.rowHeight))
          (wrap (Int.tdiv cfg.AvatarSize 2)) := by
  simp [Generate.placed, processSponsor.placeOf, processSponsor.finalOf,
    processSponsor.cellOf, processSponsor.baseY, h]

theorem placed_centre {F : Type} (X : Externals F) (cfg : Config F) (L : Locals)
    (ac : Int) (i : Nat) (s : Sponsor F) (img : Bytes) :
    (Generate.placed X cfg L ac i s img).CenterX =
        iadd (iadd L.paddingX
          (imul (processSponsor.cellOf cfg (i : Int) (decide ((i : Int) < ac)) ac).2
            (iadd cfg.AvatarSize cfg.Margin))) (wrap (Int.tdiv cfg.AvatarSize 2)) ∧
    (Generate.placed X cfg L ac i s img).CenterY =
        iadd (iadd (processSponsor.baseY cfg L (decide ((i : Int) < ac)) ac)
          (imul (processSponsor.cellOf cfg (i : Int) (decide ((i : Int) < ac)) ac).1
            L.rowHeight)) (wrap (Int.tdiv cfg.AvatarSize 2)) :=
  ⟨rfl, rfl⟩

/-- Every rendered sponsor is the placed version of the input sponsor at its position. -/
theorem data_sponsor_at {F : Type} {X : Externals F} {client : Client}
    {a ex : List (Sponsor F)} {cfg : Config F} {log : List String} {d : TemplateData F}
    {L : Locals} (h : Generate.data X client a ex cfg = (log, .ok d))
    (hL : Generate.locals cfg (len a) (len ex) = .ok L)
    {j : Nat} {s : Sponsor F} (hs : d.Sponsors[j]? = some s) :
    j < a.length + ex.length ∧
      ∃ src img, (a ++ ex)[j]? = some src ∧ s = Generate.placed X cfg L (len a) j src img := by
  obtain ⟨_, _, hlen, hall⟩ := data_sponsors h hL
  have hj : j < d.Sponsors.length := (List.getElem?_eq_some_iff.mp hs).1
  have hj2 : j < (a ++ ex).length := by simp; omega
  obtain ⟨img, _, hp⟩ := hall j (a ++ ex)[j] (List.getElem?_eq_getElem hj2)
  rw [hs] at hp
  exact ⟨by omega, _, img, List.getElem?_eq_getElem hj2, Option.some.inj hp⟩

/-! ## Grid cells -/

theorem cellOf_exact {F : Type} (cfg : Config F) (j : Nat) (ac : Int)
    (hp : 1 ≤ cfg.AvatarsPerRow) (hb : cfg.AvatarsPerRow ≤ 9223372036854775808)
    (hj : (j : Int) ≤ 9223372036854775807) (hac : 0 ≤ ac) :
    processSponsor.cellOf cfg (j : Int) (decide ((j : Int) < ac)) ac =
      (groupIndex (j : Int) ac / cfg.AvatarsPerRow,
       groupIndex (j : Int) ac % cfg.AvatarsPerRow) := by
  unfold processSponsor.cellOf groupIndex
  by_cases h : (j : Int) < ac
  · simp only [h, decide_True, if_true]
    rw [@tdiv_exact (j : Int) cfg.AvatarsPerRow (by omega) (by omega) hj,
      @tmod_exact (j : Int) cfg.AvatarsPerRow (by omega) (by omega) hb]
  · have hk : isub (j : Int) ac = (j : Int) - ac := by unfold isub wrap; omega
    simp only [h, decide_False, if_false, Bool.false_eq_true, hk]
    rw [@tdiv_exact ((j : Int) - ac) cfg.AvatarsPerRow (by omega) (by omega) (by omega),
      @tmod_exact ((j : Int) - ac) cfg.AvatarsPerRow (by omega) (by omega) hb]

theorem cell_injective {k1 k2 p : Int} (h : (k1 / p, k1 % p) = (k2 / p, k2 % p)) : k1 = k2 := by
  simp only [Prod.mk.injEq] at h
  have h1 := Int.ediv_add_emod k1 p
  have h2 := Int.ediv_add_emod k2 p
  rw [h.1, h.2] at h1
  omega

/-- Two equal centres along one axis have equal offsets, when the offsets fit an `int`. -/
theorem iadd_imul_cancel {base r x1 x2 y : Int}
    (h1 : 0 ≤ x1 * y) (h2 : x1 * y ≤ 9223372036854775807)
    (h3 : 0 ≤ x2 * y) (h4 : x2 * y ≤ 9223372036854775807)
    (h : iadd (iadd base (imul x1 y)) r = iadd (iadd base (imul x2 y)) r) :
    x1 * y = x2 * y := by
  unfold iadd imul wrap at h
  omega

/-- The row height is the exact sum whenever that sum fits an `int`. -/
theorem rowHeight_exact {a m f : Int} (h : InInt64 (a + m + f + 10)) :
    iadd (iadd (iadd a m) f) 10 = a + m + f + 10 := by
  unfold InInt64 at h
  unfold iadd wrap
  omega

theorem groupIndex_bounds {j ac n : Int} (hj : 0 ≤ j) (hn : j < ac + n) :
    0 ≤ groupIndex j ac ∧ groupIndex j ac < (if j < ac then ac else n) := by
  unfold groupIndex
  split_ifs <;> omega

/-! ## The layout without overflow -/

/-- The locals, field by field, as `Generate` computes them. -/
theorem locals_fields {F : Type} {cfg : Config F} {na ne : Int} {L : Locals}
    (hL : Generate.locals cfg na ne = .ok L) :
    L.fontSize = wrap (Int.tdiv cfg.AvatarSize cfg.FontSizeScale) ∧
    L.paddingX =
      (if cfg.PaddingXScale > 0 then wrap (Int.tdiv cfg.AvatarSize cfg.PaddingXScale) else 0) ∧
    L.paddingY =
      (if cfg.PaddingYScale > 0 then wrap (Int.tdiv cfg.AvatarSize cfg.PaddingYScale) else 0) ∧
    L.rowHeight = iadd (iadd (iadd cfg.AvatarSize cfg.Margin) L.fontSize) 10 ∧
    L.numActiveRows =
      wrap (Int.tdiv (isub (iadd na cfg.AvatarsPerRow) 1) cfg.AvatarsPerRow) ∧
    L.numExpiredRows =
      wrap (Int.tdiv (isub (iadd ne cfg.AvatarsPerRow) 1) cfg.AvatarsPerRow) ∧
    L.activeHeight = imul L.numActiveRows L.rowHeight ∧
    L.expiredHeight = imul L.numExpiredRows L.rowHeight ∧
    L.separatorHeight = (if na > 0 ∧ ne > 0 then 40 else 0) ∧
    L.height = iadd (iadd (iadd L.paddingY L.activeHeight) L.separatorHeight) L.expiredHeight ∧
    L.width = iadd (isub (imul cfg.AvatarsPerRow (iadd cfg.AvatarSize cfg.Margin)) cfg.Margin)
      (imul L.paddingX 2) ∧
    L.svgCenterX = wrap (Int.tdiv L.width 2) ∧
    L.svgCenterY = wrap (Int.tdiv L.height 2) ∧
    L.textYOffset = iadd (iadd (wrap (Int.tdiv cfg.AvatarSize 2)) L.fontSize) 10 := by
  obtain ⟨_, _, _, rfl⟩ := locals_inv hL
  exact ⟨rfl, rfl, rfl, rfl, rfl, rfl, rfl, rfl, rfl, rfl, rfl, rfl, rfl, rfl⟩

theorem padding_nonneg {a s : Int} (ha : 0 ≤ a) (hr : a ≤ 9223372036854775807) :
    0 ≤ (if s > 0 then wrap (Int.tdiv a s) else 0) ∧
    (if s > 0 then wrap (Int.tdiv a s) else 0) ≤ a := by
  by_cases h : s > 0
  · rw [if_pos h, tdiv_exact ha h hr]
    exact ⟨Int.ediv_nonneg ha (by omega), Int.ediv_le_self s ha⟩
  · rw [if_neg h]
    exact ⟨le_refl _, ha⟩

/-- When nothing overflows, every layout quantity has its exact integer value. -/
theorem locals_exact {F : Type} {cfg : Config F} {na ne : Int} {L : Locals}
    (hL : Generate.locals cfg na ne = .ok L)
    (hr : cfg.InRange) (hA : 1 ≤ cfg.AvatarSize) (hf : 1 ≤ L.fontSize) (hM : 0 ≤ cfg.Margin)
    (hp : 1 ≤ cfg.AvatarsPerRow) (hna : 0 ≤ na) (hne : 0 ≤ ne) (hpos : 1 ≤ na + ne)
    (hov : Generate.NoOverflow cfg L na ne) :
    0 ≤ L.paddingX ∧ 0 ≤ L.paddingY ∧
    iadd cfg.AvatarSize cfg.Margin = cfg.AvatarSize + cfg.Margin ∧
    wrap (Int.tdiv cfg.AvatarSize 2) = cfg.AvatarSize / 2 ∧
    L.rowHeight = cfg.AvatarSize + cfg.Margin + L.fontSize + 10 ∧
    L.numActiveRows = (na + cfg.AvatarsPerRow - 1) / cfg.AvatarsPerRow ∧
    L.numExpiredRows = (ne + cfg.AvatarsPerRow - 1) / cfg.AvatarsPerRow ∧
    L.activeHeight = L.numActiveRows * L.rowHeight ∧
    L.expiredHeight = L.numExpiredRows * L.rowHeight ∧
    0 ≤ L.activeHeight ∧ 0 ≤ L.expiredHeight ∧
    (L.separatorHeight = 0 ∨ L.separatorHeight = 40) ∧
    L.height = L.paddingY + L.activeHeight + L.separatorHeight + L.expiredHeight ∧
    L.height ≤ 9223372036854775807 ∧
    L.width = cfg.AvatarsPerRow * (cfg.AvatarSize + cfg.Margin) - cfg.Margin +
      2 * L.paddingX ∧
    L.width ≤ 9223372036854775807 := by
  obtain ⟨_, hpx, hpy, hrh, hra, hre, hah, heh, hsep, hh, hw, _, _, _⟩ := locals_fields hL
  obtain ⟨hoa, hoe, hoW, hoH⟩ := hov
  have hAr : cfg.AvatarSize ≤ 9223372036854775807 := hr.1.2
  have hfr : L.fontSize ≤ 9223372036854775807 := by
    have := (locals_fields hL).1
    have h2 := wrap_inInt64 (Int.tdiv cfg.AvatarSize cfg.FontSizeScale)
    rw [← this] at h2
    exact h2.2
  -- paddings
  obtain ⟨hpx0, _⟩ := @padding_nonneg cfg.AvatarSize cfg.PaddingXScale (by omega) hAr
  obtain ⟨hpy0, _⟩ := @padding_nonneg cfg.AvatarSize cfg.PaddingYScale (by omega) hAr
  rw [← hpx] at hpx0
  rw [← hpy] at hpy0
  -- rows
  have hra2 : L.numActiveRows = (na + cfg.AvatarsPerRow - 1) / cfg.AvatarsPerRow := by
    rw [hra]; exact rows_exact hna hp hoa
  have hre2 : L.numExpiredRows = (ne + cfg.AvatarsPerRow - 1) / cfg.AvatarsPerRow := by
    rw [hre]; exact rows_exact hne hp hoe
  have hra0 : 0 ≤ L.numActiveRows := by rw [hra2]; exact ceilDiv_nonneg hna hp
  have hre0 : 0 ≤ L.numExpiredRows := by rw [hre2]; exact ceilDiv_nonneg hne hp
  have hrows : 1 ≤ L.numActiveRows + L.numExpiredRows := by
    have h1 := (ceilDiv_spec na hp).1
    have h2 := (ceilDiv_spec ne hp).1
    rw [← hra2] at h1
    rw [← hre2] at h2
    by_contra hc
    have hz1 : L.numActiveRows = 0 := by omega
    have hz2 : L.numExpiredRows = 0 := by omega
    rw [hz1] at h1
    rw [hz2] at h2
    simp only [zero_mul] at h1 h2
    omega
  -- cell width
  have hS0 : 0 ≤ cfg.AvatarSize + cfg.Margin := by omega
  have hSle : cfg.AvatarSize + cfg.Margin ≤
      cfg.AvatarsPerRow * (cfg.AvatarSize + cfg.Margin) := by
    have := Int.mul_le_mul_of_nonneg_right hp hS0
    simpa using this
  have hSe : iadd cfg.AvatarSize cfg.Margin = cfg.AvatarSize + cfg.Margin :=
    wrap_eq_self (by unfold InInt64; omega)
  have hRe : wrap (Int.tdiv cfg.AvatarSize 2) = cfg.AvatarSize / 2 :=
    tdiv_exact (by omega) (by decide) hAr
  -- row height
  have hE0 : 0 ≤ cfg.AvatarSize + cfg.Margin + L.fontSize + 10 := by omega
  have hsep2 : L.separatorHeight = 0 ∨ L.separatorHeight = 40 := by
    rw [hsep]; split_ifs <;> simp
  have hTA : 0 ≤ L.numActiveRows * (cfg.AvatarSize + cfg.Margin + L.fontSize + 10) :=
    Int.mul_nonneg hra0 hE0
  have hTE : 0 ≤ L.numExpiredRows * (cfg.AvatarSize + cfg.Margin + L.fontSize + 10) :=
    Int.mul_nonneg hre0 hE0
  have hdist : (L.numActiveRows + L.numExpiredRows) *
      (cfg.AvatarSize + cfg.Margin + L.fontSize + 10) =
      L.numActiveRows * (cfg.AvatarSize + cfg.Margin + L.fontSize + 10) +
      L.numExpiredRows * (cfg.AvatarSize + cfg.Margin + L.fontSize + 10) := by ring
  have hEle : cfg.AvatarSize + cfg.Margin + L.fontSize + 10 ≤
      (L.numActiveRows + L.numExpiredRows) *
        (cfg.AvatarSize + cfg.Margin + L.fontSize + 10) := by
    have := Int.mul_le_mul_of_nonneg_right hrows hE0
    simpa using this
  have hEe : L.rowHeight = cfg.AvatarSize + cfg.Margin + L.fontSize + 10 := by
    rw [hrh]
    exact rowHeight_exact (by unfold InInt64; omega)
  have hah2 : L.activeHeight = L.numActiveRows * L.rowHeight := by
    rw [hah, hEe]
    exact wrap_eq_self (by unfold InInt64; omega)
  have heh2 : L.expiredHeight = L.numExpiredRows * L.rowHeight := by
    rw [heh, hEe]
    exact wrap_eq_self (by unfold InInt64; omega)
  have hah0 : 0 ≤ L.activeHeight := by rw [hah2, hEe]; exact hTA
  have heh0 : 0 ≤ L.expiredHeight := by rw [heh2, hEe]; exact hTE
  have hh2 : L.height = L.paddingY + L.activeHeight + L.separatorHeight + L.expiredHeight := by
    rw [hh]
    rw [hah2, heh2, hEe] at *
    unfold iadd wrap
    omega
  have hw2 : L.width = cfg.AvatarsPerRow * (cfg.AvatarSize + cfg.Margin) - cfg.Margin +
      2 * L.paddingX := by
    rw [hw, hSe]
    unfold iadd isub imul wrap
    omega
  refine ⟨hpx0, hpy0, hSe, hRe, hEe, hra2, hre2, hah2, heh2, hah0, heh0, hsep2, hh2, ?_, hw2, ?_⟩
  · rw [hh2, hah2, heh2, hEe]; omega
  · rw [hw2]; omega

/-! ## Further fields of a placed sponsor -/

@[simp] theorem placed_Opacity {F : Type} (X : Externals F) (cfg : Config F) (L : Locals)
    (ac : Int) (i : Nat) (s : Sponsor F) (img : Bytes) :
    (Generate.placed X cfg L ac i s img).Opacity =
      (if decide ((i : Int) < ac) then cfg.ActiveSponsorOpacity
       else if cfg.UseActiveOpacityWhenNoActive && decide (ac = 0) then
         cfg.ActiveSponsorOpacity
       else cfg.ExpiredSponsorOpacity) := rfl

@[simp] theorem placed_AnimationDelay {F : Type} (X : Externals F) (cfg : Config F)
    (L : Locals) (ac : Int) (i : Nat) (s : Sponsor F) (img : Bytes) :
    (Generate.placed X cfg L ac i s img).AnimationDelay =
      (if decide ((i : Int) < ac) then X.fmul (X.ofInt (i : Int)) cfg.AnimationDelay
       else X.fmuladd (X.fsub (X.ofInt (i : Int)) (X.ofInt ac)) cfg.AnimationDelay
         (X.ofInt ac) cfg.AnimationDelay) := rfl

@[simp] theorem placed_Name {F : Type} (X : Externals F) (cfg : Config F) (L : Locals)
    (ac : Int) (i : Nat) (s : Sponsor F) (img : Bytes) :
    (Generate.placed X cfg L ac i s img).Name =
      (if X.StringWidth s.Name > L.nameLimit then X.TruncateStringByWidth s.Name L.nameLimit
       else s.Name) := by
  simp only [Generate.placed, processSponsor.placeOf, processSponsor.shape]
  split <;> rfl

@[simp] theorem placed_Radius {F : Type} (X : Externals F) (cfg : Config F) (L : Locals)
    (ac : Int) (i : Nat) (s : Sponsor F) (img : Bytes) :
    (Generate.placed X cfg L ac i s img).Radius = wrap (Int.tdiv cfg.AvatarSize 2) := rfl

@[simp] theorem placed_AvatarSize {F : Type} (X : Externals F) (cfg : Config F) (L : Locals)
    (ac : Int) (i : Nat) (s : Sponsor F) (img : Bytes) :
    (Generate.placed X cfg L ac i s img).AvatarSize = cfg.AvatarSize := rfl

@[simp] theorem placed_TextY {F : Type} (X : Externals F) (cfg : Config F) (L : Locals)
    (ac : Int) (i : Nat) (s : Sponsor F) (img : Bytes) :
    (Generate.placed X cfg L ac i s img).TextY = L.textYOffset := rfl

theorem placed_Translate {F : Type} (X : Externals F) (cfg : Config F) (L : Locals)
    (ac : Int) (i : Nat) (s : Sponsor F) (img : Bytes) :
    (Generate.placed X cfg L ac i s img).TranslateX =
        isub L.svgCenterX (Generate.placed X cfg L ac i s img).CenterX ∧
    (Generate.placed X cfg L ac i s img).TranslateY =
        isub L.svgCenterY (Generate.placed X cfg L ac i s img).CenterY :=
  ⟨rfl, rfl⟩

/-- Every rendered sponsor is a placed input sponsor; the locals need not be named. -/
theorem data_sponsor_of {F : Type} {X : Externals F} {client : Client}
    {a ex : List (Sponsor F)} {cfg : Config F} {log : List String} {d : TemplateData F}
    (h : Generate.data X client a ex cfg = (log, .ok d))
    {j : Nat} {s : Sponsor F} (hs : d.Sponsors[j]? = some s) :
    ∃ L src img, Generate.locals cfg (len a) (len ex) = .ok L ∧
      d = Generate.dataOf L a ex d.Sponsors ∧ j < a.length + ex.length ∧
      (a ++ ex)[j]? = some src ∧ s = Generate.placed X cfg L (len a) j src img := by
  obtain ⟨L, hL, _, hd⟩ := data_inv h
  obtain ⟨hj, src, img, hsrc, hp⟩ := data_sponsor_at h hL hs
  exact ⟨L, src, img, hL, hd, hj, hsrc, hp⟩

/-- With a column count that is not zero the loop never panics. -/
theorem loop_no_panic {F : Type} (X : Externals F) (client : Client) (cfg : Config F)
    (L : Locals) (ac : Int) (h3 : cfg.AvatarsPerRow ≠ 0) (l : List (Sponsor F)) :
    ∀ (i : Nat) (log : List String),
      (Generate.loop X client cfg L ac i log l).2 ≠ .error .panic := by
  induction l with
  | nil => intro i log; simp [Generate.loop]
  | cons s rest ih =>
    intro i log
    rcases fetch_cases (client log s.Avatar) with ⟨e, he, _⟩ | ⟨img, hb, _⟩
    · rw [loop_cons_err X client cfg L ac i log s rest he]
      simp
    · rw [loop_cons_bytes X client cfg L ac i log s rest hb h3]
      have := ih (i + 1) (log ++ [s.Avatar])
      rcases hr : (Generate.loop X client cfg L ac (i + 1) (log ++ [s.Avatar]) rest).2 with
        f | out
      · rw [hr] at this
        simp only [Except.map]
        intro hc
        exact this (by rw [← hc])
      · simp [Except.map]

theorem prefix_step (x t u : String) (h : ∃ pre, t = pre ++ u) : ∃ pre, x ++ t = pre ++ u := by
  obtain ⟨p, hp⟩ := h
  exact ⟨x ++ p, by rw [hp, String.append_assoc]⟩

/-! ## The centre of a sponsor without overflow -/

/-- When nothing overflows, the centre of the sponsor at position `j` has its exact
integer value, and its row lies among the rows of its group. -/
theorem placed_centre_exact {F : Type} (X : Externals F) {cfg : Config F} {na ne : Int}
    {L : Locals} (hL : Generate.locals cfg na ne = .ok L)
    (hr : cfg.InRange) (hA : 1 ≤ cfg.AvatarSize) (hf : 1 ≤ L.fontSize) (hM : 0 ≤ cfg.Margin)
    (hp : 1 ≤ cfg.AvatarsPerRow) (hna : 0 ≤ na) (hne : 0 ≤ ne)
    (hlen : na + ne ≤ 9223372036854775807)
    (hov : Generate.NoOverflow cfg L na ne)
    (j : Nat) (hj : (j : Int) < na + ne) (s : Sponsor F) (img : Bytes) :
    (Generate.placed X cfg L na j s img).CenterX =
      L.paddingX + groupIndex (j : Int) na % cfg.AvatarsPerRow *
        (cfg.AvatarSize + cfg.Margin) + cfg.AvatarSize / 2 ∧
    (Generate.placed X cfg L na j s img).CenterY =
      (if (j : Int) < na then L.paddingY
       else L.paddingY + L.activeHeight + L.separatorHeight) +
      groupIndex (j : Int) na / cfg.AvatarsPerRow * L.rowHeight + cfg.AvatarSize / 2 ∧
    0 ≤ groupIndex (j : Int) na / cfg.AvatarsPerRow * L.rowHeight ∧
    groupIndex (j : Int) na / cfg.AvatarsPerRow * L.rowHeight + L.rowHeight ≤
      (if (j : Int) < na then L.activeHeight else L.expiredHeight) ∧
    0 ≤ groupIndex (j : Int) na % cfg.AvatarsPerRow * (cfg.AvatarSize + cfg.Margin) ∧
    groupIndex (j : Int) na % cfg.AvatarsPerRow * (cfg.AvatarSize + cfg.Margin) +
      (cfg.AvatarSize + cfg.Margin) ≤ cfg.AvatarsPerRow * (cfg.AvatarSize + cfg.Margin) := by
  obtain ⟨hpx0, hpy0, hSe, hRe, hEe, hra, hre, hah, heh, hah0, heh0, hsep, hh, hhle, hw, hwle⟩ :=
    locals_exact hL hr hA hf hM hp hna hne (by omega) hov
  obtain ⟨hoa, hoe, hoW, hoH⟩ := hov
  have hsepdef := (locals_fields hL).2.2.2.2.2.2.2.2.1
  have hb : cfg.AvatarsPerRow ≤ 9223372036854775808 := by omega
  have hp0 : (0 : Int) < cfg.AvatarsPerRow := by omega
  have hc := cellOf_exact cfg j na hp hb (by omega) hna
  obtain ⟨hk0, hk1⟩ := @groupIndex_bounds (j : Int) na ne (by omega) hj
  obtain ⟨hx, hy⟩ := placed_centre X cfg L na j s img
  have hah2 : L.activeHeight =
      L.numActiveRows * (cfg.AvatarSize + cfg.Margin + L.fontSize + 10) := by rw [hah, hEe]
  have heh2 : L.expiredHeight =
      L.numExpiredRows * (cfg.AvatarSize + cfg.Margin + L.fontSize + 10) := by rw [heh, hEe]
  have hR0 : 0 ≤ cfg.AvatarSize / 2 := Int.ediv_nonneg (by omega) (by decide)
  have hR1 : cfg.AvatarSize / 2 < cfg.AvatarSize := by omega
  have hc0 : 0 ≤ groupIndex (j : Int) na % cfg.AvatarsPerRow := Int.emod_nonneg _ (by omega)
  have hc1 : groupIndex (j : Int) na % cfg.AvatarsPerRow + 1 ≤ cfg.AvatarsPerRow :=
    Int.emod_lt_of_pos _ hp0
  have hS0 : 0 ≤ cfg.AvatarSize + cfg.Margin := by omega
  have hP0 : 0 ≤ groupIndex (j : Int) na % cfg.AvatarsPerRow *
      (cfg.AvatarSize + cfg.Margin) := Int.mul_nonneg hc0 hS0
  have hP1 : groupIndex (j : Int) na % cfg.AvatarsPerRow *
      (cfg.AvatarSize + cfg.Margin) + (cfg.AvatarSize + cfg.Margin) ≤
      cfg.AvatarsPerRow * (cfg.AvatarSize + cfg.Margin) := by
    have := Int.mul_le_mul_of_nonneg_right hc1 hS0
    have e : (groupIndex (j : Int) na % cfg.AvatarsPerRow + 1) *
        (cfg.AvatarSize + cfg.Margin) =
        groupIndex (j : Int) na % cfg.AvatarsPerRow * (cfg.AvatarSize + cfg.Margin) +
          (cfg.AvatarSize + cfg.Margin) := by ring
    omega
  have hE0 : 0 ≤ cfg.AvatarSize + cfg.Margin + L.fontSize + 10 := by omega
  have hq0 : 0 ≤ groupIndex (j : Int) na / cfg.AvatarsPerRow :=
    Int.ediv_nonneg hk0 (by omega)
  have hrowlt : ∀ n : Int, groupIndex (j : Int) na < n →
      groupIndex (j : Int) na / cfg.AvatarsPerRow + 1 ≤
        (n + cfg.AvatarsPerRow - 1) / cfg.AvatarsPerRow := by
    intro n hn
    have e : (n + cfg.AvatarsPerRow - 1) / cfg.AvatarsPerRow =
        (n - 1) / cfg.AvatarsPerRow + 1 := by
      have := Int.add_mul_ediv_right (n - 1) 1 (Int.ne_of_gt hp0)
      rw [one_mul] at this
      rw [← this]
      congr 1
      ring
    rw [e]
    have := Int.ediv_le_ediv hp0 (show groupIndex (j : Int) na ≤ n - 1 by omega)
    omega
  have hT0 : 0 ≤ groupIndex (j : Int) na / cfg.AvatarsPerRow *
      (cfg.AvatarSize + cfg.Margin + L.fontSize + 10) := Int.mul_nonneg hq0 hE0
  have hTstep : ∀ rows : Int,
      groupIndex (j : Int) na / cfg.AvatarsPerRow + 1 ≤ rows →
      groupIndex (j : Int) na / cfg.AvatarsPerRow *
        (cfg.AvatarSize + cfg.Margin + L.fontSize + 10) +
        (cfg.AvatarSize + cfg.Margin + L.fontSize + 10) ≤
      rows * (cfg.AvatarSize + cfg.Margin + L.fontSize + 10) := by
    intro rows hrows
    have := Int.mul_le_mul_of_nonneg_right hrows hE0
    have e : (groupIndex (j : Int) na / cfg.AvatarsPerRow + 1) *
        (cfg.AvatarSize + cfg.Margin + L.fontSize + 10) =
        groupIndex (j : Int) na / cfg.AvatarsPerRow *
          (cfg.AvatarSize + cfg.Margin + L.fontSize + 10) +
          (cfg.AvatarSize + cfg.Margin + L.fontSize + 10) := by ring
    omega
  have hdist : (L.numActiveRows + L.numExpiredRows) *
      (cfg.AvatarSize + cfg.Margin + L.fontSize + 10) =
      L.numActiveRows * (cfg.AvatarSize + cfg.Margin + L.fontSize + 10) +
      L.numExpiredRows * (cfg.AvatarSize + cfg.Margin + L.fontSize + 10) := by ring
  rw [hah2] at hah0
  rw [heh2] at heh0
  rw [hdist] at hoH
  have hbase : processSponsor.baseY cfg L (decide ((j : Int) < na)) na =
      (if (j : Int) < na then L.paddingY
       else L.paddingY +
          L.numActiveRows * (cfg.AvatarSize + cfg.Margin + L.fontSize + 10) +
          L.separatorHeight) := by
    by_cases hact : (j : Int) < na
    · simp only [processSponsor.baseY, hact, decide_True, if_true]
    · simp only [processSponsor.baseY, hact, decide_False, if_false, Bool.false_eq_true]
      rw [rows_exact hna hp hoa, ← hra, hEe]
      have hs2 : (if na > 0 then L.separatorHeight else 0) = L.separatorHeight := by
        by_cases h0 : na > 0
        · rw [if_pos h0]
        · rw [if_neg h0, hsepdef]
          simp [h0]
      rw [hs2]
      clear hx hy hc hsepdef hs2 hTstep hrowlt hL
      unfold iadd imul wrap
      omega
  have hrow : groupIndex (j : Int) na / cfg.AvatarsPerRow + 1 ≤
      (if (j : Int) < na then L.numActiveRows else L.numExpiredRows) := by
    by_cases hact : (j : Int) < na
    · rw [if_pos hact] at hk1 ⊢
      rw [hra]; exact hrowlt na hk1
    · rw [if_neg hact] at hk1 ⊢
      rw [hre]; exact hrowlt ne hk1
  have hT1 := hTstep _ hrow
  rw [hx, hy, hc, hSe, hRe, hEe, hbase, hah2, heh2]
  simp only
  clear hx hy hc hsepdef hTstep hrowlt hL hbase hah2 heh2 hah heh hra hre hh hw
  by_cases hact : (j : Int) < na
  · simp only [if_pos hact] at hrow hT1 ⊢
    refine ⟨?_, ?_, hT0, hT1, hP0, hP1⟩
    all_goals (unfold iadd imul wrap; omega)
  · simp only [if_neg hact] at hrow hT1 ⊢
    refine ⟨?_, ?_, hT0, hT1, hP0, hP1⟩
    all_goals (unfold iadd imul wrap; omega)
/-! ## Facts about the binary32 model

Rounding to nearest is monotone and idempotent, which is all the order results below rest on;
`round_eval` evaluates a rounding at a concrete rational from its binade and its nearest
multiple of the unit in the last place. -/

namespace F32

/-! nearestEven -/

theorem nearestEven_spec (x : ℚ) :
    |x - nearestEven x| ≤ 1 / 2 ∧ (|x - nearestEven x| = 1 / 2 → nearestEven x % 2 = 0) := by
  have h1 := Int.floor_le x
  have h2 := Int.lt_floor_add_one x
  unfold nearestEven
  split_ifs with ha hb hc
  · refine ⟨?_, ?_⟩
    · rw [abs_le]; constructor <;> linarith
    · intro h
      rw [abs_of_nonneg (by linarith)] at h
      linarith
  · refine ⟨?_, ?_⟩
    · push_cast; rw [abs_le]; constructor <;> linarith
    · intro h
      push_cast at h
      rw [abs_of_nonpos (by linarith)] at h
      linarith
  · exact ⟨by rw [abs_le]; constructor <;> linarith, fun _ => hc⟩
  · refine ⟨by push_cast; rw [abs_le]; constructor <;> linarith, fun _ => ?_⟩
    omega

theorem nearestEven_unique (x : ℚ) (n : Int) (h1 : |x - n| ≤ 1 / 2)
    (h2 : |x - n| = 1 / 2 → n % 2 = 0) : nearestEven x = n := by
  obtain ⟨s1, s2⟩ := nearestEven_spec x
  rw [abs_le] at h1 s1
  have hd1 : ((nearestEven x - n : Int) : ℚ) ≤ 1 := by push_cast; linarith
  have hd2 : (-1 : ℚ) ≤ ((nearestEven x - n : Int) : ℚ) := by push_cast; linarith
  have hd1' : nearestEven x - n ≤ 1 := by exact_mod_cast hd1
  have hd2' : -1 ≤ nearestEven x - n := by exact_mod_cast hd2
  rcases (by omega : nearestEven x - n = 0 ∨ nearestEven x - n = 1 ∨ nearestEven x - n = -1)
    with h | h | h
  · omega
  · exfalso
    have hq : ((nearestEven x : Int) : ℚ) = n + 1 := by
      have : ((nearestEven x - n : Int) : ℚ) = 1 := by rw [h]; norm_num
      push_cast at this; linarith
    have e1 : |x - n| = 1 / 2 := by
      rw [abs_of_nonneg (by linarith)]; linarith
    have e2 : |x - nearestEven x| = 1 / 2 := by
      rw [abs_of_nonpos (by linarith)]; linarith
    have := h2 e1
    have := s2 e2
    omega
  · exfalso
    have hq : ((nearestEven x : Int) : ℚ) = n - 1 := by
      have : ((nearestEven x - n : Int) : ℚ) = -1 := by rw [h]; norm_num
      push_cast at this; linarith
    have e1 : |x - n| = 1 / 2 := by
      rw [abs_of_nonpos (by linarith)]; linarith
    have e2 : |x - nearestEven x| = 1 / 2 := by
      rw [abs_of_nonneg (by linarith)]; linarith
    have := h2 e1
    have := s2 e2
    omega

theorem nearestEven_int (n : Int) : nearestEven (n : ℚ) = n :=
  nearestEven_unique _ n (by simp) (by simp)

theorem nearestEven_neg (x : ℚ) : nearestEven (-x) = -nearestEven x := by
  obtain ⟨s1, s2⟩ := nearestEven_spec x
  apply nearestEven_unique
  · have : -x - ((-nearestEven x : Int) : ℚ) = -(x - nearestEven x) := by push_cast; ring
    rw [this, abs_neg]; exact s1
  · intro h
    have : -x - ((-nearestEven x : Int) : ℚ) = -(x - nearestEven x) := by push_cast; ring
    rw [this, abs_neg] at h
    have := s2 h
    omega

theorem nearestEven_mono {x y : ℚ} (h : x ≤ y) : nearestEven x ≤ nearestEven y := by
  obtain ⟨s1, s2⟩ := nearestEven_spec x
  obtain ⟨t1, t2⟩ := nearestEven_spec y
  rw [abs_le] at s1 t1
  by_contra hc
  have hlt : nearestEven y + 1 ≤ nearestEven x := by omega
  have hq : ((nearestEven y : Int) : ℚ) + 1 ≤ nearestEven x := by exact_mod_cast hlt
  -- then x ≥ nx - 1/2 ≥ ny + 1/2 ≥ y, so x = y and both are ties
  have hxy : x = y := by linarith
  subst hxy
  exact hc (le_refl _)


theorem nearestEven_le_of_le {x : ℚ} {n : Int} (h : x ≤ n) : nearestEven x ≤ n := by
  have := nearestEven_mono h
  rwa [nearestEven_int] at this

theorem le_nearestEven_of_le {x : ℚ} {n : Int} (h : (n : ℚ) ≤ x) : n ≤ nearestEven x := by
  have := nearestEven_mono h
  rwa [nearestEven_int] at this

/-! expo and ulp -/

theorem ulp_pos (q : ℚ) : 0 < ulp q := by
  unfold ulp; positivity

theorem expo_ge (q : ℚ) : -126 ≤ expo q := le_max_right _ _

theorem expo_neg (q : ℚ) : expo (-q) = expo q := by
  unfold expo; rw [abs_neg]

theorem ulp_neg (q : ℚ) : ulp (-q) = ulp q := by
  unfold ulp; rw [expo_neg]

theorem roundVal_neg (q : ℚ) : roundVal (-q) = -roundVal q := by
  unfold roundVal
  rw [ulp_neg, neg_div, nearestEven_neg]
  push_cast; ring

theorem roundVal_zero : roundVal 0 = 0 := by
  have h : nearestEven (0 : ℚ) = 0 := by simpa using nearestEven_int 0
  unfold roundVal
  rw [zero_div, h]
  simp

theorem roundVal_nonneg {q : ℚ} (h : 0 ≤ q) : 0 ≤ roundVal q := by
  unfold roundVal
  have h1 : ((0 : Int) : ℚ) ≤ q / ulp q := by
    simpa using div_nonneg h (le_of_lt (ulp_pos q))
  have h2 := le_nearestEven_of_le h1
  exact mul_nonneg (by exact_mod_cast h2) (le_of_lt (ulp_pos q))

/-- the binade of a positive number -/
theorem lt_zpow_expo {q : ℚ} (hq : 0 < q) : q < (2 : ℚ) ^ (expo q + 1) := by
  have h1 := Int.lt_zpow_succ_log_self (by norm_num : 1 < 2) q
  have h2 : Int.log 2 q + 1 ≤ expo q + 1 := by
    unfold expo; rw [abs_of_pos hq]
    have := le_max_left (Int.log 2 q) (-126)
    omega
  have h3 : (2 : ℚ) ^ (Int.log 2 q + 1) ≤ (2 : ℚ) ^ (expo q + 1) :=
    zpow_le_zpow_right₀ (by norm_num) h2
  push_cast at h1
  linarith

theorem zpow_expo_le {q : ℚ} (hq : 0 < q) (he : -126 < expo q) : (2 : ℚ) ^ expo q ≤ q := by
  have h1 := Int.zpow_log_le_self (by norm_num : 1 < 2) hq
  have h2 : expo q = Int.log 2 q := by
    unfold expo at he ⊢
    rw [abs_of_pos hq] at he ⊢
    rcases max_cases (Int.log 2 q) (-126) with ⟨h, _⟩ | ⟨h, _⟩
    · exact h
    · rw [h] at he; omega
  rw [h2]
  push_cast at h1
  exact h1

theorem expo_mono {q1 q2 : ℚ} (h1 : 0 < q1) (h : q1 ≤ q2) : expo q1 ≤ expo q2 := by
  unfold expo
  rw [abs_of_pos h1, abs_of_pos (lt_of_lt_of_le h1 h)]
  exact max_le_max (Int.log_mono_right h1 h) (le_refl _)

theorem ulp_eq (q : ℚ) : ulp q = (2 : ℚ) ^ expo q / 8388608 := by
  unfold ulp
  rw [zpow_sub₀ (by norm_num : (2 : ℚ) ≠ 0)]
  norm_num

/-- a positive number rounds into the closure of its binade -/
theorem roundVal_le_top {q : ℚ} (hq : 0 < q) : roundVal q ≤ (2 : ℚ) ^ (expo q + 1) := by
  have hu := ulp_pos q
  have h1 := lt_zpow_expo hq
  rw [zpow_add_one₀ (by norm_num : (2 : ℚ) ≠ 0)] at h1 ⊢
  have h2 : q / ulp q ≤ ((16777216 : Int) : ℚ) := by
    rw [div_le_iff₀ hu, ulp_eq]
    push_cast
    linarith
  have h3 := nearestEven_le_of_le h2
  have h4 : ((nearestEven (q / ulp q) : Int) : ℚ) ≤ 16777216 := by exact_mod_cast h3
  unfold roundVal
  calc (nearestEven (q / ulp q) : ℚ) * ulp q ≤ 16777216 * ulp q :=
        mul_le_mul_of_nonneg_right h4 (le_of_lt hu)
    _ = (2 : ℚ) ^ expo q * 2 := by rw [ulp_eq]; ring

theorem bot_le_roundVal {q : ℚ} (hq : 0 < q) (he : -126 < expo q) :
    (2 : ℚ) ^ expo q ≤ roundVal q := by
  have hu := ulp_pos q
  have h1 := zpow_expo_le hq he
  have h2 : ((8388608 : Int) : ℚ) ≤ q / ulp q := by
    rw [le_div_iff₀ hu, ulp_eq]
    push_cast
    linarith
  have h3 := le_nearestEven_of_le h2
  have h4 : (8388608 : ℚ) ≤ ((nearestEven (q / ulp q) : Int) : ℚ) := by exact_mod_cast h3
  unfold roundVal
  calc (2 : ℚ) ^ expo q = 8388608 * ulp q := by rw [ulp_eq]; ring
    _ ≤ (nearestEven (q / ulp q) : ℚ) * ulp q :=
        mul_le_mul_of_nonneg_right h4 (le_of_lt hu)

theorem roundVal_mono {q1 q2 : ℚ} (h0 : 0 ≤ q1) (h : q1 ≤ q2) : roundVal q1 ≤ roundVal q2 := by
  rcases eq_or_lt_of_le h0 with h1 | h1
  · rw [← h1, roundVal_zero]
    exact roundVal_nonneg (le_trans h0 h)
  have h2 : 0 < q2 := lt_of_lt_of_le h1 h
  have he := expo_mono h1 h
  rcases eq_or_lt_of_le he with heq | hlt
  · have hu : ulp q1 = ulp q2 := by unfold ulp; rw [heq]
    unfold roundVal
    rw [hu]
    have := nearestEven_mono (div_le_div_of_nonneg_right h (le_of_lt (ulp_pos q2)))
    exact mul_le_mul_of_nonneg_right (by exact_mod_cast this) (le_of_lt (ulp_pos q2))
  · have ha := roundVal_le_top h1
    have hb := bot_le_roundVal h2 (by have := expo_ge q1; omega)
    have hc : (2 : ℚ) ^ (expo q1 + 1) ≤ (2 : ℚ) ^ expo q2 :=
      zpow_le_zpow_right₀ (by norm_num) (by omega)
    linarith


theorem expo_zpow (k : Int) (hk : -126 ≤ k) : expo ((2 : ℚ) ^ k) = k := by
  unfold expo
  rw [abs_of_pos (by positivity)]
  have := Int.log_zpow (R := ℚ) (by norm_num : 1 < 2) k
  push_cast at this
  rw [this]
  exact max_eq_left hk

theorem roundVal_zpow (k : Int) (hk : -126 ≤ k) : roundVal ((2 : ℚ) ^ k) = (2 : ℚ) ^ k := by
  have hp : (0 : ℚ) < (2 : ℚ) ^ k := by positivity
  have hu : ulp ((2 : ℚ) ^ k) = (2 : ℚ) ^ k / 8388608 := by
    rw [ulp_eq, expo_zpow k hk]
  have hd : (2 : ℚ) ^ k / ulp ((2 : ℚ) ^ k) = ((8388608 : Int) : ℚ) := by
    rw [hu]; push_cast; field_simp
  unfold roundVal
  rw [hd, nearestEven_int, hu]
  push_cast
  field_simp

theorem roundVal_idem_pos {q : ℚ} (hq : 0 < q) : roundVal (roundVal q) = roundVal q := by
  have hu := ulp_pos q
  have hr0 := roundVal_nonneg (le_of_lt hq)
  have htop := roundVal_le_top hq
  rcases eq_or_lt_of_le hr0 with h0 | hpos
  · rw [← h0, roundVal_zero]
  rcases eq_or_lt_of_le htop with heq | hlt
  · rw [heq]
    exact roundVal_zpow _ (by have := expo_ge q; omega)
  · -- the rounded value stays in the binade of q
    have hexpo : expo (roundVal q) = expo q := by
      apply le_antisymm
      · unfold expo
        rw [abs_of_pos hpos]
        apply max_le _ (expo_ge q)
        have : Int.log 2 (roundVal q) < expo q + 1 := by
          have := (Int.lt_zpow_iff_log_lt (R := ℚ) (by norm_num : 1 < 2) hpos
            (x := expo q + 1)).mp (by push_cast; exact hlt)
          exact this
        have h2 : expo q = max (Int.log 2 |q|) (-126) := rfl
        omega
      · rcases eq_or_lt_of_le (expo_ge q) with he | he
        · rw [← he]; exact expo_ge _
        · have hb := bot_le_roundVal hq he
          have : expo q ≤ Int.log 2 (roundVal q) :=
            (Int.zpow_le_iff_le_log (R := ℚ) (by norm_num : 1 < 2) hpos).mp
              (by push_cast; exact hb)
          unfold expo at *
          rw [abs_of_pos hpos]
          exact le_trans this (le_max_left _ _)
    have hulp : ulp (roundVal q) = ulp q := by unfold ulp; rw [hexpo]
    have hdiv : roundVal q / ulp q = ((nearestEven (q / ulp q) : Int) : ℚ) := by
      unfold roundVal
      field_simp
    show (nearestEven (roundVal q / ulp (roundVal q)) : ℚ) * ulp (roundVal q) = roundVal q
    rw [hulp, hdiv, nearestEven_int]
    rfl

theorem roundVal_idem (q : ℚ) : roundVal (roundVal q) = roundVal q := by
  rcases lt_trichotomy q 0 with h | h | h
  · have hn : 0 < -q := by linarith
    have := roundVal_idem_pos hn
    rw [roundVal_neg, roundVal_neg] at this
    linarith
  · rw [h, roundVal_zero, roundVal_zero]
  · exact roundVal_idem_pos h

/-! values and order -/

theorem round_zero : round 0 = .fin 0 := by
  unfold round
  rw [roundVal_zero]
  norm_num

theorem round_of_fixed {v : ℚ} (h1 : roundVal v = v) (h2 : |v| < (2 : ℚ) ^ (128 : Nat)) :
    round v = .fin v := by
  unfold round
  rw [h1, if_neg (not_le.mpr h2)]

theorem round_cases (q : ℚ) :
    (round q = .fin (roundVal q) ∧ |roundVal q| < (2 : ℚ) ^ (128 : Nat)) ∨
    (round q = .inf (decide (roundVal q < 0)) ∧ (2 : ℚ) ^ (128 : Nat) ≤ |roundVal q|) := by
  unfold round
  by_cases h : (2 : ℚ) ^ (128 : Nat) ≤ |roundVal q|
  · right; rw [if_pos h]; exact ⟨rfl, h⟩
  · left; rw [if_neg h]; exact ⟨rfl, not_le.mp h⟩

theorem round_isNonneg {q : ℚ} (h : 0 ≤ q) : IsNonneg (round q) := by
  have h0 := roundVal_nonneg h
  rcases round_cases q with ⟨e, hb⟩ | ⟨e, _⟩
  · rw [e]
    rw [abs_of_nonneg h0] at hb
    exact ⟨h0, roundVal_idem q, hb⟩
  · rw [e]
    show decide (roundVal q < 0) = false
    simp [h0]

theorem round_of_isNonneg {v : ℚ} (h : IsNonneg (.fin v)) : round v = .fin v := by
  obtain ⟨h0, h1, h2⟩ := h
  exact round_of_fixed h1 (by rw [abs_of_nonneg h0]; exact h2)

theorem le_round {q1 q2 : ℚ} (h0 : 0 ≤ q1) (h : q1 ≤ q2) : le (round q1) (round q2) = true := by
  have hm := roundVal_mono h0 h
  have hn1 := roundVal_nonneg h0
  have hn2 := roundVal_nonneg (le_trans h0 h)
  rcases round_cases q1 with ⟨e1, b1⟩ | ⟨e1, b1⟩ <;> rcases round_cases q2 with ⟨e2, b2⟩ | ⟨e2, b2⟩
  · rw [e1, e2]; simp [le, hm]
  · rw [e1, e2]; simp [le, hn2]
  · exfalso
    rw [abs_of_nonneg hn1] at b1
    rw [abs_of_nonneg hn2] at b2
    linarith
  · rw [e1, e2]; simp [le, hn2]

theorem le_trans_of_le {x y z : F32} (h1 : le x y = true) (h2 : le y z = true) : le x z = true := by
  cases x <;> cases y <;> cases z <;> simp_all [le]
  · exact le_trans h1 h2
  · rename_i a b c
    revert h1 h2
    cases a <;> cases b <;> cases c <;> simp

theorem le_inf_of_isNonneg {x : F32} (h : IsNonneg x) : le x (.inf false) = true := by
  cases x <;> simp_all [le, IsNonneg]

theorem mul_fin_isNonneg {x : F32} {d : ℚ} (hx : IsNonneg x) (hd : 0 < d) :
    IsNonneg (mul x (.fin d)) := by
  cases x with
  | fin v => exact round_isNonneg (mul_nonneg hx.1 (le_of_lt hd))
  | inf s =>
    have hs : s = false := hx
    subst hs
    simp [mul, IsNonneg, ne_of_gt hd, not_lt.mpr (le_of_lt hd)]
  | nan => exact hx.elim

theorem mul_fin_mono {x y : F32} {d : ℚ} (hx : IsNonneg x) (hy : IsNonneg y)
    (h : le x y = true) (hd : 0 < d) : le (mul x (.fin d)) (mul y (.fin d)) = true := by
  cases x with
  | nan => exact hx.elim
  | fin v =>
    cases y with
    | nan => exact hy.elim
    | fin w =>
      have hvw : v ≤ w := by simpa [le] using h
      exact le_round (mul_nonneg hx.1 (le_of_lt hd)) (mul_le_mul_of_nonneg_right hvw (le_of_lt hd))
    | inf t =>
      have ht : t = false := hy
      subst ht
      have : mul (.inf false) (.fin d) = .inf false := by
        simp [mul, ne_of_gt hd, not_lt.mpr (le_of_lt hd)]
      rw [this]
      exact le_inf_of_isNonneg (mul_fin_isNonneg hx hd)
  | inf s =>
    have hs : s = false := hx
    subst hs
    cases y with
    | nan => exact hy.elim
    | fin w => simp [le] at h
    | inf t =>
      have ht : t = false := hy
      subst ht
      have : mul (.inf false) (.fin d) = .inf false := by
        simp [mul, ne_of_gt hd, not_lt.mpr (le_of_lt hd)]
      rw [this]
      rfl

theorem add_isNonneg {x y : F32} (hx : IsNonneg x) (hy : IsNonneg y) : IsNonneg (add x y) := by
  cases x <;> cases y <;> simp_all [add, IsNonneg]
  · rename_i v w
    exact round_isNonneg (add_nonneg hx.1 hy.1)

theorem add_mono_left {x y c : F32} (hx : IsNonneg x) (hy : IsNonneg y) (hc : IsNonneg c)
    (h : le x y = true) : le (add x c) (add y c) = true := by
  cases c with
  | nan => exact hc.elim
  | inf s =>
    have hs : s = false := hc
    subst hs
    cases x <;> cases y <;> simp_all [add, le, IsNonneg]
  | fin w =>
    cases x with
    | nan => exact hx.elim
    | fin v =>
      cases y with
      | nan => exact hy.elim
      | fin u =>
        have hvu : v ≤ u := by simpa [le] using h
        exact le_round (add_nonneg hx.1 hc.1) (by linarith)
      | inf t =>
        have ht : t = false := hy
        subst ht
        exact le_inf_of_isNonneg (add_isNonneg hx hc)
    | inf s =>
      have hs : s = false := hx
      subst hs
      cases y with
      | nan => exact hy.elim
      | fin u => simp [le] at h
      | inf t =>
        have ht : t = false := hy
        subst ht
        rfl

theorem le_add_self {p c : F32} (hp : IsNonneg p) (hc : IsNonneg c) :
    le c (add p c) = true := by
  cases c with
  | nan => exact hc.elim
  | inf s =>
    have hs : s = false := hc
    subst hs
    cases p <;> simp_all [add, le, IsNonneg]
  | fin w =>
    cases p with
    | nan => exact hp.elim
    | inf t =>
      have ht : t = false := hp
      subst ht
      simp [add, le]
    | fin v =>
      have h1 := le_round hc.1 (show w ≤ v + w by linarith [hp.1])
      rw [round_of_isNonneg hc] at h1
      exact h1


theorem sub_fin_isNonneg {x : F32} {w : ℚ} (hx : IsNonneg x) (h : le (.fin w) x = true) :
    IsNonneg (sub x (.fin w)) := by
  cases x with
  | nan => exact hx.elim
  | inf s =>
    have hs : s = false := hx
    subst hs
    simp [sub, neg, add, IsNonneg]
  | fin v =>
    have hwv : w ≤ v := by simpa [le] using h
    exact round_isNonneg (by linarith)

theorem sub_fin_mono {x y : F32} {w : ℚ} (hx : IsNonneg x) (hy : IsNonneg y)
    (hwx : le (.fin w) x = true) (hxy : le x y = true) :
    le (sub x (.fin w)) (sub y (.fin w)) = true := by
  cases x with
  | nan => exact hx.elim
  | inf s =>
    have hs : s = false := hx
    subst hs
    cases y with
    | nan => exact hy.elim
    | fin u => simp [le] at hxy
    | inf t =>
      have ht : t = false := hy
      subst ht
      rfl
  | fin v =>
    have hwv : w ≤ v := by simpa [le] using hwx
    cases y with
    | nan => exact hy.elim
    | fin u =>
      have hvu : v ≤ u := by simpa [le] using hxy
      exact le_round (show 0 ≤ v + -w by linarith) (show v + -w ≤ u + -w by linarith)
    | inf t =>
      have ht : t = false := hy
      subst ht
      have : sub (.inf false) (.fin w) = .inf false := by simp [sub, neg, add]
      rw [this]
      exact le_inf_of_isNonneg (sub_fin_isNonneg hx hwx)

/-- A count that fits a 64-bit `int` converts to a finite value. -/
theorem round_int_fin {i : Int} (h0 : 0 ≤ i) (h : i ≤ 9223372036854775807) :
    ∃ v : ℚ, round (i : ℚ) = .fin v := by
  have hq0 : (0 : ℚ) ≤ (i : ℚ) := by exact_mod_cast h0
  have hq : (i : ℚ) ≤ (2 : ℚ) ^ (63 : Int) := by
    have : (i : ℚ) ≤ 9223372036854775807 := by exact_mod_cast h
    have e : (2 : ℚ) ^ (63 : Int) = 9223372036854775808 := by norm_num
    rw [e]; linarith
  have hm := roundVal_mono hq0 hq
  rw [roundVal_zpow 63 (by norm_num)] at hm
  have hn := roundVal_nonneg hq0
  refine ⟨roundVal (i : ℚ), ?_⟩
  unfold round
  rw [if_neg]
  rw [abs_of_nonneg hn, not_le]
  have e : (2 : ℚ) ^ (63 : Int) = 9223372036854775808 := by norm_num
  rw [e] at hm
  have : (9223372036854775808 : ℚ) < (2 : ℚ) ^ (128 : Nat) := by norm_num
  linarith

/-! zero -/

theorem round_round {q v : ℚ} (h : round q = .fin v) : round v = .fin v := by
  rcases round_cases q with ⟨e, hb⟩ | ⟨e, _⟩
  · rw [e] at h
    injection h with h
    subst h
    exact round_of_fixed (roundVal_idem q) hb
  · rw [e] at h; cases h

theorem add_zero_round (q : ℚ) : add (round q) (.fin 0) = round q := by
  rcases round_cases q with ⟨e, hb⟩ | ⟨e, _⟩
  · have := round_round e
    rw [e]
    show round (roundVal q + 0) = _
    rw [add_zero, this]
  · rw [e]; rfl

theorem zero_add_round (q : ℚ) : add (.fin 0) (round q) = round q := by
  rcases round_cases q with ⟨e, hb⟩ | ⟨e, _⟩
  · have := round_round e
    rw [e]
    show round (0 + roundVal q) = _
    rw [zero_add, this]
  · rw [e]; rfl

theorem sub_zero_round (q : ℚ) : sub (round q) (.fin 0) = round q := by
  have : sub (round q) (.fin 0) = add (round q) (.fin 0) := by
    unfold sub neg
    simp
  rw [this, add_zero_round]

theorem mul_zero_fin (δ : ℚ) : mul (.fin 0) (.fin δ) = .fin 0 := by
  show round (0 * δ) = _
  rw [zero_mul, round_zero]

theorem add_zero_mul (q δ : ℚ) :
    add (mul (round q) (.fin δ)) (.fin 0) = mul (round q) (.fin δ) := by
  rcases round_cases q with ⟨e, _⟩ | ⟨e, _⟩
  · rw [e]
    exact add_zero_round _
  · rw [e]
    by_cases h : δ = 0 <;> simp [mul, add, h]

theorem ofInt_zero : ofInt 0 = .fin 0 := by
  unfold ofInt
  rw [Int.cast_zero, round_zero]

/-- With no active sponsor the two-part delay is the one-part delay. -/
theorem delay_expired_only (i : Int) (δ : ℚ) :
    add (mul (sub (ofInt i) (ofInt 0)) (.fin δ)) (mul (ofInt 0) (.fin δ)) =
      mul (ofInt i) (.fin δ) := by
  rw [ofInt_zero, mul_zero_fin]
  unfold ofInt
  rw [sub_zero_round, add_zero_mul]

/-- For the first expired sponsor the two-part delay is the one-part delay. -/
theorem delay_first_expired {i : Int} {v : ℚ} (h : ofInt i = .fin v) (δ : ℚ) :
    add (mul (sub (ofInt i) (ofInt i)) (.fin δ)) (mul (ofInt i) (.fin δ)) =
      mul (ofInt i) (.fin δ) := by
  rw [h]
  have h1 : sub (.fin v) (.fin v) = .fin 0 := by
    show round (v + -v) = _
    rw [add_neg_cancel, round_zero]
  rw [h1, mul_zero_fin]
  exact zero_add_round _

theorem add_nan (x : F32) : add x .nan = .nan := by
  cases x <;> rfl

theorem le_nan_left (x : F32) : le .nan x = false := rfl

/-! evaluation of a rounding -/

theorem expo_eq {q : ℚ} {e : Int} (he : -126 ≤ e) (h0 : q ≠ 0)
    (hlo : e = -126 ∨ (2 : ℚ) ^ e ≤ |q|) (hhi : |q| < (2 : ℚ) ^ (e + 1)) : expo q = e := by
  have hp : 0 < |q| := abs_pos.mpr h0
  have h1 : Int.log 2 |q| < e + 1 :=
    (Int.lt_zpow_iff_log_lt (R := ℚ) (by norm_num : 1 < 2) hp).mp (by push_cast; exact hhi)
  unfold expo
  rcases hlo with h | h
  · subst h; exact max_eq_right (by omega)
  · have h2 : e ≤ Int.log 2 |q| :=
      (Int.zpow_le_iff_le_log (R := ℚ) (by norm_num : 1 < 2) hp).mp (by push_cast; exact h)
    have : Int.log 2 |q| = e := by omega
    rw [this]; exact max_eq_left he

theorem round_eval {q : ℚ} (e n : Int) (u : ℚ) {r : ℚ} (he : -126 ≤ e) (h0 : q ≠ 0)
    (hlo : e = -126 ∨ (2 : ℚ) ^ e ≤ |q|) (hhi : |q| < (2 : ℚ) ^ (e + 1))
    (hu : (2 : ℚ) ^ (e - 23) = u) (hn : |q / u - n| < 1 / 2) (hr : (n : ℚ) * u = r)
    (hfin : |r| < (2 : ℚ) ^ (128 : Nat)) : round q = .fin r := by
  have h1 : ulp q = u := by unfold ulp; rw [expo_eq he h0 hlo hhi, hu]
  have h2 : nearestEven (q / u) = n :=
    nearestEven_unique _ n (le_of_lt hn) (fun h => absurd h (ne_of_lt hn))
  have h3 : roundVal q = r := by unfold roundVal; rw [h1, h2, hr]
  unfold round
  rw [h3, if_neg (not_le.mpr hfin)]

theorem round_one : round 1 = .fin 1 :=
  round_eval 0 8388608 (1 / 8388608) (by norm_num) (by norm_num) (by norm_num) (by norm_num)
    (by norm_num) (by norm_num) (by norm_num) (by norm_num)

/-! the fused multiply-add -/

theorem fma_fin (a b c : ℚ) : fma (.fin a) (.fin b) (.fin c) = round (a * b + c) := rfl

theorem mul_inf_fin {δ : ℚ} (hδ : 0 < δ) : mul (.inf false) (.fin δ) = .inf false := by
  simp [mul, ne_of_gt hδ, not_lt.mpr (le_of_lt hδ)]

theorem fma_inf_left {z : F32} {δ : ℚ} (hδ : 0 < δ) (hz : IsNonneg z) :
    fma (.inf false) (.fin δ) z = .inf false := by
  show add (mul (.inf false) (.fin δ)) z = .inf false
  rw [mul_inf_fin hδ]
  cases z with
  | nan => exact hz.elim
  | fin c => rfl
  | inf t =>
    have ht : t = false := hz
    subst ht
    rfl

theorem fma_isNonneg {x z : F32} {δ : ℚ} (hx : IsNonneg x) (hδ : 0 < δ) (hz : IsNonneg z) :
    IsNonneg (fma x (.fin δ) z) := by
  cases x with
  | nan => exact hx.elim
  | inf s =>
    have hs : s = false := hx
    subst hs
    rw [fma_inf_left hδ hz]
    exact hx
  | fin v =>
    cases z with
    | nan => exact hz.elim
    | inf t => exact hz
    | fin c => exact round_isNonneg (add_nonneg (mul_nonneg hx.1 (le_of_lt hδ)) hz.1)

theorem fma_mono_left {x y z : F32} {δ : ℚ} (hx : IsNonneg x) (hy : IsNonneg y)
    (hz : IsNonneg z) (h : le x y = true) (hδ : 0 < δ) :
    le (fma x (.fin δ) z) (fma y (.fin δ) z) = true := by
  cases y with
  | nan => exact hy.elim
  | inf t =>
    have ht : t = false := hy
    subst ht
    rw [fma_inf_left hδ hz]
    exact le_inf_of_isNonneg (fma_isNonneg hx hδ hz)
  | fin u =>
    cases x with
    | nan => exact hx.elim
    | inf s =>
      have hs : s = false := hx
      subst hs
      simp [le] at h
    | fin v =>
      have hvu : v ≤ u := by simpa [le] using h
      cases z with
      | nan => exact hz.elim
      | inf t =>
        have ht : t = false := hz
        subst ht
        rfl
      | fin c =>
        exact le_round (add_nonneg (mul_nonneg hx.1 (le_of_lt hδ)) hz.1)
          (by have := mul_le_mul_of_nonneg_right hvu (le_of_lt hδ); linarith)

theorem fma_mono_right {x z1 z2 : F32} {δ : ℚ} (hx : IsNonneg x) (h1 : IsNonneg z1)
    (h2 : IsNonneg z2) (h : le z1 z2 = true) (hδ : 0 < δ) :
    le (fma x (.fin δ) z1) (fma x (.fin δ) z2) = true := by
  cases x with
  | nan => exact hx.elim
  | inf s =>
    have hs : s = false := hx
    subst hs
    rw [fma_inf_left hδ h1, fma_inf_left hδ h2]
    rfl
  | fin v =>
    cases z2 with
    | nan => exact h2.elim
    | inf t =>
      have ht : t = false := h2
      subst ht
      exact le_inf_of_isNonneg (fma_isNonneg hx hδ h1)
    | fin c2 =>
      cases z1 with
      | nan => exact h1.elim
      | inf s =>
        have hs : s = false := h1
        subst hs
        simp [le] at h
      | fin c1 =>
        have hc : c1 ≤ c2 := by simpa [le] using h
        exact le_round (add_nonneg (mul_nonneg hx.1 (le_of_lt hδ)) h1.1) (by linarith)

theorem le_fma_self {x z : F32} {δ : ℚ} (hx : IsNonneg x) (hz : IsNonneg z) (hδ : 0 < δ) :
    le z (fma x (.fin δ) z) = true := by
  cases x with
  | nan => exact hx.elim
  | inf s =>
    have hs : s = false := hx
    subst hs
    rw [fma_inf_left hδ hz]
    exact le_inf_of_isNonneg hz
  | fin v =>
    cases z with
    | nan => exact hz.elim
    | inf t =>
      have ht : t = false := hz
      subst ht
      rfl
    | fin c =>
      have h1 := le_round hz.1 (show c ≤ v * δ + c by
        have := mul_nonneg hx.1 (le_of_lt hδ); linarith)
      rw [round_of_isNonneg hz] at h1
      exact h1

theorem mul_le_fma {x z : F32} {δ : ℚ} (hx : IsNonneg x) (hz : IsNonneg z) (hδ : 0 < δ) :
    le (mul x (.fin δ)) (fma x (.fin δ) z) = true := by
  cases x with
  | nan => exact hx.elim
  | inf s =>
    have hs : s = false := hx
    subst hs
    rw [fma_inf_left hδ hz, mul_inf_fin hδ]
    rfl
  | fin v =>
    cases z with
    | nan => exact hz.elim
    | inf t =>
      have ht : t = false := hz
      subst ht
      exact le_inf_of_isNonneg (mul_fin_isNonneg hx hδ)
    | fin c =>
      exact le_round (mul_nonneg hx.1 (le_of_lt hδ)) (by linarith [hz.1])

theorem fma_inf_zero (s : Bool) (δ : ℚ) :
    fma (.inf s) (.fin δ) (.fin 0) = mul (.inf s) (.fin δ) := by
  show add (mul (.inf s) (.fin δ)) (.fin 0) = mul (.inf s) (.fin δ)
  by_cases h : δ = 0
  · have : mul (.inf s) (.fin δ) = .nan := by
      show (if δ = 0 then nan else _) = nan
      rw [if_pos h]
    rw [this]
    rfl
  · have : mul (.inf s) (.fin δ) = .inf (xor s (decide (δ < 0))) := by
      show (if δ = 0 then nan else _) = _
      rw [if_neg h]
    rw [this]
    rfl

theorem fma_zero_right_round (q δ : ℚ) :
    fma (round q) (.fin δ) (.fin 0) = mul (round q) (.fin δ) := by
  rcases round_cases q with ⟨e, _⟩ | ⟨e, _⟩
  · rw [e]
    show round (roundVal q * δ + 0) = round (roundVal q * δ)
    rw [add_zero]
  · rw [e]
    exact fma_inf_zero _ δ

theorem fma_zero_fin (v δ : ℚ) : fma (.fin v) (.fin δ) (.fin 0) = mul (.fin v) (.fin δ) := by
  show round (v * δ + 0) = round (v * δ)
  rw [add_zero]

theorem fma_zero_left (δ : ℚ) {z : F32} (hz : ∀ p, z = .fin p → round p = .fin p) :
    fma (.fin 0) (.fin δ) z = z := by
  cases z with
  | nan => rfl
  | inf t => rfl
  | fin p =>
    show round (0 * δ + p) = .fin p
    rw [zero_mul, zero_add]
    exact hz p rfl

theorem mul_round_fixed (q δ : ℚ) :
    ∀ p, mul (round q) (.fin δ) = .fin p → round p = .fin p := by
  intro p hp
  rcases round_cases q with ⟨e, _⟩ | ⟨e, _⟩
  · rw [e] at hp
    exact round_round hp
  · rw [e] at hp
    exfalso
    by_cases h : δ = 0
    · have : mul (.inf (decide (roundVal q < 0))) (.fin δ) = .nan := by
        show (if δ = 0 then nan else _) = nan
        rw [if_pos h]
      rw [this] at hp
      cases hp
    · have : mul (.inf (decide (roundVal q < 0))) (.fin δ) =
          .inf (xor (decide (roundVal q < 0)) (decide (δ < 0))) := by
        show (if δ = 0 then nan else _) = _
        rw [if_neg h]
      rw [this] at hp
      cases hp

theorem mul_fin_fixed {v δ p : ℚ} (hp : mul (.fin v) (.fin δ) = .fin p) :
    round p = .fin p :=
  round_round hp

/-- With no active sponsor the two-part delay is the one-part delay, in every build. -/
theorem mulAdd_expired_only (m : Fusion) (i : Int) (δ : ℚ) :
    mulAdd m (sub (ofInt i) (ofInt 0)) (.fin δ) (ofInt 0) (.fin δ) =
      mul (ofInt i) (.fin δ) := by
  cases m with
  | none => exact delay_expired_only i δ
  | left =>
    show fma (sub (ofInt i) (ofInt 0)) (.fin δ) (mul (ofInt 0) (.fin δ)) = _
    rw [ofInt_zero, mul_zero_fin]
    unfold ofInt
    rw [sub_zero_round, fma_zero_right_round]
  | right =>
    show fma (ofInt 0) (.fin δ) (mul (sub (ofInt i) (ofInt 0)) (.fin δ)) = _
    rw [ofInt_zero]
    unfold ofInt
    rw [sub_zero_round]
    exact fma_zero_left δ (mul_round_fixed _ δ)

/-- For the first expired sponsor the two-part delay is the one-part delay, in every
build. -/
theorem mulAdd_first_expired (m : Fusion) {i : Int} {v : ℚ} (h : ofInt i = .fin v) (δ : ℚ) :
    mulAdd m (sub (ofInt i) (ofInt i)) (.fin δ) (ofInt i) (.fin δ) =
      mul (ofInt i) (.fin δ) := by
  cases m with
  | none => exact delay_first_expired h δ
  | left =>
    show fma (sub (ofInt i) (ofInt i)) (.fin δ) (mul (ofInt i) (.fin δ)) = _
    rw [h]
    have h1 : sub (.fin v) (.fin v) = .fin 0 := by
      show round (v + -v) = _
      rw [add_neg_cancel, round_zero]
    rw [h1]
    exact fma_zero_left δ (fun p hp => mul_fin_fixed hp)
  | right =>
    show fma (ofInt i) (.fin δ) (mul (sub (ofInt i) (ofInt i)) (.fin δ)) = _
    rw [h]
    have h1 : sub (.fin v) (.fin v) = .fin 0 := by
      show round (v + -v) = _
      rw [add_neg_cancel, round_zero]
    rw [h1, mul_zero_fin, fma_zero_fin]

/-- When the difference and the two partial products are exact, the two-part delay is
the one-part delay, in every build. -/
theorem mulAdd_exact (m : Fusion) {x y δ : ℚ}
    (h1 : mul (.fin (x - y)) (.fin δ) = .fin ((x - y) * δ))
    (h2 : mul (.fin y) (.fin δ) = .fin (y * δ)) :
    mulAdd m (.fin (x - y)) (.fin δ) (.fin y) (.fin δ) = mul (.fin x) (.fin δ) := by
  cases m with
  | none =>
    show add (mul (.fin (x - y)) (.fin δ)) (mul (.fin y) (.fin δ)) = _
    rw [h1, h2]
    show round _ = round _
    congr 1
    ring
  | left =>
    show fma (.fin (x - y)) (.fin δ) (mul (.fin y) (.fin δ)) = _
    rw [h2]
    show round _ = round _
    congr 1
    ring
  | right =>
    show fma (.fin y) (.fin δ) (mul (.fin (x - y)) (.fin δ)) = _
    rw [h1]
    show round _ = round _
    congr 1
    ring

/-- With the unit `+Inf` the two-part delay of index 1 behind no active sponsor is a NaN,
in every build. -/
theorem mulAdd_inf_nan (m : Fusion) :
    mulAdd m (.fin 1) (.inf false) (.fin 0) (.inf false) = .nan := by
  have h0 : mul (.fin 0) (.inf false) = .nan := by
    show (if (0 : ℚ) = 0 then nan else .inf (xor false (decide ((0 : ℚ) < 0)))) = nan
    rw [if_pos rfl]
  cases m with
  | none =>
    show add (mul (.fin 1) (.inf false)) (mul (.fin 0) (.inf false)) = .nan
    rw [h0, add_nan]
  | left =>
    show add (mul (.fin 1) (.inf false)) (mul (.fin 0) (.inf false)) = .nan
    rw [h0, add_nan]
  | right =>
    show add (mul (.fin 0) (.inf false)) (mul (.fin 1) (.inf false)) = .nan
    rw [h0]
    rfl

end F32

/-! ## The animation delay in the binary32 model -/

/-- The delay the loop writes at index `i`, spelled with the binary32 operations. -/
theorem placed_delay_ieee {X : Externals F32} (hX : X.IEEE) (cfg : Config F32) (L : Locals)
    (ac : Int) (i : Nat) (s : Sponsor F32) (img : Bytes) :
    (Generate.placed X cfg L ac i s img).AnimationDelay =
      (if (i : Int) < ac then F32.mul (F32.ofInt (i : Int)) cfg.AnimationDelay
       else X.fmuladd (F32.sub (F32.ofInt (i : Int)) (F32.ofInt ac)) cfg.AnimationDelay
         (F32.ofInt ac) cfg.AnimationDelay) := by
  obtain ⟨h1, h2, h3, _⟩ := hX
  rw [placed_AnimationDelay, h1, h2, h3]
  by_cases h : (i : Int) < ac <;> simp [h]

/-- For a finite positive unit the delay does not decrease with the index, across the
boundary between the two groups too, in every build. -/
theorem delay_mono (m : Fusion) {ac : Int} {δ : ℚ} (hδ : 0 < δ) (h0 : 0 ≤ ac)
    (hac : ac ≤ 9223372036854775807) {i j : Int} (hi : 0 ≤ i) (hij : i ≤ j) :
    F32.le
      (if i < ac then F32.mul (F32.ofInt i) (.fin δ)
       else F32.mulAdd m (F32.sub (F32.ofInt i) (F32.ofInt ac)) (.fin δ)
         (F32.ofInt ac) (.fin δ))
      (if j < ac then F32.mul (F32.ofInt j) (.fin δ)
       else F32.mulAdd m (F32.sub (F32.ofInt j) (F32.ofInt ac)) (.fin δ)
         (F32.ofInt ac) (.fin δ)) = true := by
  have qi : (0 : ℚ) ≤ (i : ℚ) := by exact_mod_cast hi
  have qij : (i : ℚ) ≤ (j : ℚ) := by exact_mod_cast hij
  have qac : (0 : ℚ) ≤ (ac : ℚ) := by exact_mod_cast h0
  have ni : F32.IsNonneg (F32.ofInt i) := F32.round_isNonneg qi
  have nj : F32.IsNonneg (F32.ofInt j) := F32.round_isNonneg (le_trans qi qij)
  have nac : F32.IsNonneg (F32.ofInt ac) := F32.round_isNonneg qac
  have lij : F32.le (F32.ofInt i) (F32.ofInt j) = true := F32.le_round qi qij
  have nC : F32.IsNonneg (F32.mul (F32.ofInt ac) (.fin δ)) := F32.mul_fin_isNonneg nac hδ
  obtain ⟨w, hw⟩ := F32.round_int_fin h0 hac
  have hw2 : F32.ofInt ac = .fin w := hw
  -- the difference taken for an expired sponsor at index `k` with `ac <= k`
  have expired : ∀ k : Int, ac ≤ k →
      F32.IsNonneg (F32.sub (F32.ofInt k) (F32.ofInt ac)) ∧
      F32.le (.fin w) (F32.ofInt k) = true := by
    intro k hk
    have qk : (ac : ℚ) ≤ (k : ℚ) := by exact_mod_cast hk
    have l1 : F32.le (F32.ofInt ac) (F32.ofInt k) = true := F32.le_round qac qk
    rw [hw2] at l1 ⊢
    exact ⟨F32.sub_fin_isNonneg (F32.round_isNonneg (le_trans qac qk)) l1, l1⟩
  by_cases hia : i < ac
  · by_cases hja : j < ac
    · rw [if_pos hia, if_pos hja]
      exact F32.mul_fin_mono ni nj lij hδ
    · rw [if_pos hia, if_neg hja]
      have qia : (i : ℚ) ≤ (ac : ℚ) := by exact_mod_cast (le_of_lt hia)
      have l1 : F32.le (F32.mul (F32.ofInt i) (.fin δ)) (F32.mul (F32.ofInt ac) (.fin δ)) = true :=
        F32.mul_fin_mono ni nac (F32.le_round qi qia) hδ
      have sj := (expired j (by omega)).1
      have np := F32.mul_fin_isNonneg sj hδ
      cases m with
      | none => exact F32.le_trans_of_le l1 (F32.le_add_self np nC)
      | left => exact F32.le_trans_of_le l1 (F32.le_fma_self sj nC hδ)
      | right => exact F32.le_trans_of_le l1 (F32.mul_le_fma nac np hδ)
  · have hja : ¬ j < ac := by omega
    rw [if_neg hia, if_neg hja]
    obtain ⟨si, li⟩ := expired i (by omega)
    obtain ⟨sj, _⟩ := expired j (by omega)
    have l2 : F32.le (F32.sub (F32.ofInt i) (F32.ofInt ac))
        (F32.sub (F32.ofInt j) (F32.ofInt ac)) = true := by
      rw [hw2]
      exact F32.sub_fin_mono ni nj li lij
    have l3 := F32.mul_fin_mono si sj l2 hδ
    cases m with
    | none =>
      exact F32.add_mono_left (F32.mul_fin_isNonneg si hδ) (F32.mul_fin_isNonneg sj hδ) nC l3
    | left => exact F32.fma_mono_left si sj nC l2 hδ
    | right =>
      exact F32.fma_mono_right nac (F32.mul_fin_isNonneg si hδ) (F32.mul_fin_isNonneg sj hδ)
        l3 hδ

/-! ## One worked rounding: index 19 behind six active sponsors, unit one tenth -/

/-- One tenth, rounded, is a `float32`. -/
theorem round_tenth : F32.round tenth = .fin tenth := by
  unfold tenth
  exact F32.round_eval (-4) 13421773 (1 / 134217728) (by norm_num) (by norm_num)
    (Or.inr (by norm_num [abs_of_pos])) (by norm_num [abs_of_pos]) (by norm_num)
    (by norm_num [abs_of_pos]) (by norm_num) (by norm_num [abs_of_pos])

theorem ofInt_nineteen : F32.ofInt 19 = .fin 19 := by
  unfold F32.ofInt
  exact F32.round_eval 4 9961472 (1 / 524288) (by norm_num) (by norm_num)
    (Or.inr (by norm_num [abs_of_pos])) (by norm_num [abs_of_pos]) (by norm_num)
    (by norm_num [abs_of_pos]) (by norm_num) (by norm_num [abs_of_pos])

theorem ofInt_six : F32.ofInt 6 = .fin 6 := by
  unfold F32.ofInt
  exact F32.round_eval 2 12582912 (1 / 2097152) (by norm_num) (by norm_num)
    (Or.inr (by norm_num [abs_of_pos])) (by norm_num [abs_of_pos]) (by norm_num)
    (by norm_num [abs_of_pos]) (by norm_num) (by norm_num [abs_of_pos])

theorem sub_nineteen_six : F32.sub (.fin 19) (.fin 6) = .fin 13 := by
  show F32.round (19 + -6) = _
  exact F32.round_eval 3 13631488 (1 / 1048576) (by norm_num) (by norm_num)
    (Or.inr (by norm_num [abs_of_pos])) (by norm_num [abs_of_pos]) (by norm_num)
    (by norm_num [abs_of_pos]) (by norm_num) (by norm_num [abs_of_pos])

/-- The product `13 * 0.1` is rounded up, to `10905191 / 2^23`. -/
theorem mul_thirteen_tenth :
    F32.mul (.fin 13) (.fin tenth) = .fin (10905191 / 8388608) := by
  show F32.round (13 * tenth) = _
  unfold tenth
  exact F32.round_eval 0 10905191 (1 / 8388608) (by norm_num) (by norm_num)
    (Or.inr (by norm_num [abs_of_pos])) (by norm_num [abs_of_pos]) (by norm_num)
    (by norm_num [abs_of_pos]) (by norm_num) (by norm_num [abs_of_pos])

/-- The product `6 * 0.1` is rounded up, to `10066330 / 2^24`. -/
theorem mul_six_tenth :
    F32.mul (.fin 6) (.fin tenth) = .fin (10066330 / 16777216) := by
  show F32.round (6 * tenth) = _
  unfold tenth
  exact F32.round_eval (-1) 10066330 (1 / 16777216) (by norm_num) (by norm_num)
    (Or.inr (by norm_num [abs_of_pos])) (by norm_num [abs_of_pos]) (by norm_num)
    (by norm_num [abs_of_pos]) (by norm_num) (by norm_num [abs_of_pos])

/-- The sum of the two rounded products is exact: `15938356 / 2^23`. -/
theorem add_two_parts :
    F32.add (.fin (10905191 / 8388608)) (.fin (10066330 / 16777216)) =
      .fin (15938356 / 8388608) := by
  show F32.round (10905191 / 8388608 + 10066330 / 16777216) = _
  exact F32.round_eval 0 15938356 (1 / 8388608) (by norm_num) (by norm_num)
    (Or.inr (by norm_num [abs_of_pos])) (by norm_num [abs_of_pos]) (by norm_num)
    (by norm_num [abs_of_pos]) (by norm_num) (by norm_num [abs_of_pos])

/-- The product `19 * 0.1` is rounded down, to `15938355 / 2^23`. -/
theorem mul_nineteen_tenth :
    F32.mul (.fin 19) (.fin tenth) = .fin (15938355 / 8388608) := by
  show F32.round (19 * tenth) = _
  unfold tenth
  exact F32.round_eval 0 15938355 (1 / 8388608) (by norm_num) (by norm_num)
    (Or.inr (by norm_num [abs_of_pos])) (by norm_num [abs_of_pos]) (by norm_num)
    (by norm_num [abs_of_pos]) (by norm_num) (by norm_num [abs_of_pos])

/-- With the left product fused, `13 * 0.1 + round (6 * 0.1)` rounds up as well. -/
theorem fma_left_parts :
    F32.fma (.fin 13) (.fin tenth) (.fin (10066330 / 16777216)) =
      .fin (15938356 / 8388608) := by
  show F32.round (13 * tenth + 10066330 / 16777216) = _
  unfold tenth
  exact F32.round_eval 0 15938356 (1 / 8388608) (by norm_num) (by norm_num)
    (Or.inr (by norm_num [abs_of_pos])) (by norm_num [abs_of_pos]) (by norm_num)
    (by norm_num [abs_of_pos]) (by norm_num) (by norm_num [abs_of_pos])

/-- With the right product fused, `6 * 0.1 + round (13 * 0.1)` rounds up as well. -/
theorem fma_right_parts :
    F32.fma (.fin 6) (.fin tenth) (.fin (10905191 / 8388608)) =
      .fin (15938356 / 8388608) := by
  show F32.round (6 * tenth + 10905191 / 8388608) = _
  unfold tenth
  exact F32.round_eval 0 15938356 (1 / 8388608) (by norm_num) (by norm_num)
    (Or.inr (by norm_num [abs_of_pos])) (by norm_num [abs_of_pos]) (by norm_num)
    (by norm_num [abs_of_pos]) (by norm_num) (by norm_num [abs_of_pos])

/-- The two-part delay of index 19 behind six active sponsors, in every build. -/
theorem mulAdd_nineteen (m : Fusion) :
    F32.mulAdd m (.fin 13) (.fin tenth) (.fin 6) (.fin tenth) =
      .fin (15938356 / 8388608) := by
  cases m with
  | none =>
    show F32.add (F32.mul (.fin 13) (.fin tenth)) (F32.mul (.fin 6) (.fin tenth)) = _
    rw [mul_thirteen_tenth, mul_six_tenth, add_two_parts]
  | left =>
    show F32.fma (.fin 13) (.fin tenth) (F32.mul (.fin 6) (.fin tenth)) = _
    rw [mul_six_tenth, fma_left_parts]
  | right =>
    show F32.fma (.fin 6) (.fin tenth) (F32.mul (.fin 13) (.fin tenth)) = _
    rw [mul_thirteen_tenth, fma_right_parts]

/-- Every fetch of the sample client succeeds. -/
theorem sampleClient_fetches {F : Type} (l : List (Sponsor F)) :
    ∀ log : List String, fetchesSucceed sampleClient log l = true := by
  induction l with
  | nil => intro log; rfl
  | cons s rest ih =>
    intro log
    simp only [fetchesSucceed, Bool.and_eq_true]
    exact ⟨rfl, ih _⟩

/-! ## A run without rounding: index 2 behind one active sponsor, unit one half -/

theorem ofInt_two : F32.ofInt 2 = .fin ((2 : Int) : ℚ) := by
  unfold F32.ofInt
  exact F32.round_eval 1 8388608 (1 / 4194304) (by norm_num) (by norm_num)
    (Or.inr (by norm_num [abs_of_pos])) (by norm_num [abs_of_pos]) (by norm_num)
    (by norm_num [abs_of_pos]) (by norm_num) (by norm_num [abs_of_pos])

theorem ofInt_one : F32.ofInt 1 = .fin ((1 : Int) : ℚ) := by
  unfold F32.ofInt
  exact F32.round_eval 0 8388608 (1 / 8388608) (by norm_num) (by norm_num)
    (Or.inr (by norm_num [abs_of_pos])) (by norm_num [abs_of_pos]) (by norm_num)
    (by norm_num [abs_of_pos]) (by norm_num) (by norm_num [abs_of_pos])

theorem sub_two_one :
    F32.sub (.fin ((2 : Int) : ℚ)) (.fin ((1 : Int) : ℚ)) =
      .fin (((2 : Int) : ℚ) - ((1 : Int) : ℚ)) := by
  show F32.round (((2 : Int) : ℚ) + -((1 : Int) : ℚ)) = _
  exact F32.round_eval 0 8388608 (1 / 8388608) (by norm_num) (by norm_num)
    (Or.inr (by norm_num [abs_of_pos])) (by norm_num [abs_of_pos]) (by norm_num)
    (by norm_num [abs_of_pos]) (by norm_num) (by norm_num [abs_of_pos])

theorem mul_diff_half :
    F32.mul (.fin (((2 : Int) : ℚ) - ((1 : Int) : ℚ))) (.fin (1 / 2)) =
      .fin ((((2 : Int) : ℚ) - ((1 : Int) : ℚ)) * (1 / 2)) := by
  show F32.round ((((2 : Int) : ℚ) - ((1 : Int) : ℚ)) * (1 / 2)) = _
  exact F32.round_eval (-1) 8388608 (1 / 16777216) (by norm_num) (by norm_num)
    (Or.inr (by norm_num [abs_of_pos])) (by norm_num [abs_of_pos]) (by norm_num)
    (by norm_num [abs_of_pos]) (by norm_num) (by norm_num [abs_of_pos])

theorem mul_one_half :
    F32.mul (.fin ((1 : Int) : ℚ)) (.fin (1 / 2)) = .fin (((1 : Int) : ℚ) * (1 / 2)) := by
  show F32.round (((1 : Int) : ℚ) * (1 / 2)) = _
  exact F32.round_eval (-1) 8388608 (1 / 16777216) (by norm_num) (by norm_num)
    (Or.inr (by norm_num [abs_of_pos])) (by norm_num [abs_of_pos]) (by norm_num)
    (by norm_num [abs_of_pos]) (by norm_num) (by norm_num [abs_of_pos])

/-! ## One list laid out as the active group, or as the expired group -/

/-- An empty group has no row, for a column count of at least one. -/
theorem rows_zero {p : Int} (hp : 1 ≤ p) (hr : p ≤ 9223372036854775807) :
    wrap (Int.tdiv (isub (iadd 0 p) 1) p) = 0 := by
  rw [@rows_exact 0 p (le_refl 0) hp (by omega)]
  exact Int.ediv_eq_zero_of_lt (by omega) (by omega)

theorem imul_zero_left (x : Int) : imul 0 x = 0 := by
  unfold imul
  rw [Int.zero_mul]
  rfl

/-- The canvas does not depend on which of the two groups holds the sponsors. -/
theorem localsOf_swap {F : Type} (cfg : Config F) (n : Int) (hp : 1 ≤ cfg.AvatarsPerRow)
    (hr : cfg.AvatarsPerRow ≤ 9223372036854775807) :
    (Generate.localsOf cfg 0 n).height = (Generate.localsOf cfg n 0).height ∧
    (Generate.localsOf cfg 0 n).svgCenterY = (Generate.localsOf cfg n 0).svgCenterY := by
  have hh : (Generate.localsOf cfg 0 n).height = (Generate.localsOf cfg n 0).height := by
    simp only [Generate.localsOf, rows_zero hp hr, imul_zero_left]
    have e1 : ¬ ((0 : Int) > 0 ∧ n > 0) := by omega
    have e2 : ¬ (n > 0 ∧ (0 : Int) > 0) := by omega
    rw [if_neg e1, if_neg e2]
    unfold iadd wrap
    omega
  refine ⟨hh, ?_⟩
  show wrap (Int.tdiv (Generate.localsOf cfg 0 n).height 2) =
    wrap (Int.tdiv (Generate.localsOf cfg n 0).height 2)
  rw [hh]

/-- The padding is a Go `int`. -/
theorem paddingY_inInt64 {F : Type} (cfg : Config F) (na ne : Int) :
    InInt64 (Generate.localsOf cfg na ne).paddingY := by
  show InInt64 (if cfg.PaddingYScale > 0 then wrap (Int.tdiv cfg.AvatarSize cfg.PaddingYScale)
    else 0)
  split_ifs
  · exact wrap_inInt64 _
  · decide

/-- The centre of a sponsor does not depend on which of the two groups holds the list. -/
theorem finalOf_swap {F : Type} (cfg : Config F) (n : Int) (radius : Int) (j : Nat)
    (hp : 1 ≤ cfg.AvatarsPerRow) (hr : cfg.AvatarsPerRow ≤ 9223372036854775807)
    (hj : (j : Int) ≤ 9223372036854775807) :
    processSponsor.finalOf cfg (Generate.localsOf cfg 0 n) radius (j : Int) false 0 =
      processSponsor.finalOf cfg (Generate.localsOf cfg n 0) radius (j : Int) true n := by
  have hsub : isub (j : Int) 0 = (j : Int) := by unfold isub wrap; omega
  have hcell : processSponsor.cellOf cfg (j : Int) false 0 =
      processSponsor.cellOf cfg (j : Int) true n := by
    simp [processSponsor.cellOf, hsub]
  have hpY := paddingY_inInt64 cfg n 0
  have hbase : processSponsor.baseY cfg (Generate.localsOf cfg 0 n) false 0 =
      processSponsor.baseY cfg (Generate.localsOf cfg n 0) true n := by
    have e : (Generate.localsOf cfg 0 n).paddingY = (Generate.localsOf cfg n 0).paddingY := rfl
    simp only [processSponsor.baseY, rows_zero hp hr, imul_zero_left, e]
    simp only [gt_iff_lt, lt_self_iff_false, if_false, Bool.false_eq_true, if_true]
    unfold InInt64 at hpY
    unfold iadd wrap
    omega
  unfold processSponsor.finalOf
  rw [hcell, hbase]
  rfl

/-- Laid out as the expired group, a sponsor differs from the same sponsor laid out as the
active group in `IsActive`, in the way the delay is computed, and in the opacity. -/
theorem placed_swap {F : Type} (X : Externals F) (cfg : Config F) (n : Int) (j : Nat)
    (s : Sponsor F) (img : Bytes) (hp : 1 ≤ cfg.AvatarsPerRow)
    (hr : cfg.AvatarsPerRow ≤ 9223372036854775807) (hj : (j : Int) < n)
    (hn : n ≤ 9223372036854775807) :
    Generate.placed X cfg (Generate.localsOf cfg 0 n) 0 j s img =
      { Generate.placed X cfg (Generate.localsOf cfg n 0) n j s img with
        IsActive := false
        AnimationDelay :=
          X.fmuladd (X.fsub (X.ofInt (j : Int)) (X.ofInt 0)) cfg.AnimationDelay
            (X.ofInt 0) cfg.AnimationDelay
        Opacity :=
          if cfg.UseActiveOpacityWhenNoActive = true then cfg.ActiveSponsorOpacity
          else cfg.ExpiredSponsorOpacity } := by
  have hf := finalOf_swap cfg n (wrap (Int.tdiv cfg.AvatarSize 2)) j hp hr (by omega)
  have hc := (localsOf_swap cfg n hp hr).2
  have d0 : decide ((j : Int) < 0) = false := by simp
  have dn : decide ((j : Int) < n) = true := by simp [hj]
  have hs : processSponsor.shape X (Generate.localsOf cfg 0 n) s =
      processSponsor.shape X (Generate.localsOf cfg n 0) s := rfl
  simp only [Generate.placed, processSponsor.placeOf, d0, dn, hf, hc, hs]
  cases cfg.UseActiveOpacityWhenNoActive <;> simp <;> exact ⟨rfl, rfl⟩

/-- Whether a run delivers template data, and with which requests, does not depend on how
the sequence of sponsors is split into the two groups. -/
theorem data_of_other_split {F : Type} (X : Externals F) (client : Client)
    (a ex a2 ex2 : List (Sponsor F)) (cfg : Config F) (hl : a2 ++ ex2 = a ++ ex)
    {log : List String} {d : TemplateData F}
    (hd : Generate.data X client a ex cfg = (log, .ok d)) :
    ∃ out, Generate.data X client a2 ex2 cfg =
      (log, .ok (Generate.dataOf (Generate.localsOf cfg (len a2) (len ex2)) a2 ex2 out)) := by
  obtain ⟨L, hL, hloop, _⟩ := data_inv hd
  obtain ⟨h1, h2, h3, _⟩ := locals_inv hL
  obtain ⟨hlog, _, hf, _⟩ := loop_inv X client cfg L (len a) (a ++ ex) 0 [] log d.Sponsors hloop
  have hL2 := locals_ok cfg (len a2) (len ex2) h1 h2 h3
  obtain ⟨out, hout⟩ := data_ok X client a2 ex2 cfg hL2 (by rw [hl]; exact hf)
  refine ⟨out, ?_⟩
  rw [hout, hl, hlog]
  simp

/-! ## The decimal printer -/

theorem digitChar_value (n : Nat) (h : n < 10) : (Nat.digitChar n).toNat - 48 = n := by
  interval_cases n <;> decide

theorem digitChar_ne_lt (n : Nat) (h : n < 10) : Nat.digitChar n ≠ '<' := by
  interval_cases n <;> decide

theorem digitChar_ne_minus (n : Nat) (h : n < 10) : Nat.digitChar n ≠ '-' := by
  interval_cases n <;> decide

/-- A character that is no decimal digit is not printed. -/
theorem toDigitsCore_not_mem (c : Char) (hc : ∀ k, k < 10 → Nat.digitChar k ≠ c) :
    ∀ (fuel n : Nat) (acc : List Char), c ∉ acc → c ∉ Nat.toDigitsCore 10 fuel n acc
  | 0, _, acc, h => by simpa [Nat.toDigitsCore] using h
  | fuel + 1, n, acc, h => by
    have hd : c ∉ Nat.digitChar (n % 10) :: acc := by
      intro hm
      rcases List.mem_cons.mp hm with e | e
      · exact hc _ (Nat.mod_lt _ (by decide)) e.symm
      · exact h e
    simp only [Nat.toDigitsCore]
    split_ifs
    · exact hd
    · exact toDigitsCore_not_mem c hc fuel (n / 10) _ hd

/-- Reading the digits back: with enough fuel, folding the decimal value over the printed
digits of `n` and the digits already produced continues from `n`. -/
theorem toDigitsCore_value : ∀ (fuel n : Nat) (acc : List Char), n < fuel →
    (Nat.toDigitsCore 10 fuel n acc).foldl (fun v c => 10 * v + (c.toNat - 48)) 0 =
      acc.foldl (fun v c => 10 * v + (c.toNat - 48)) n
  | 0, _, _, h => absurd h (Nat.not_lt_zero _)
  | fuel + 1, n, acc, h => by
    have hv := digitChar_value (n % 10) (Nat.mod_lt n (by decide))
    simp only [Nat.toDigitsCore]
    split_ifs with h0
    · have hn : n % 10 = n := by omega
      show List.foldl _ (10 * 0 + ((Nat.digitChar (n % 10)).toNat - 48)) acc = _
      rw [hv, hn, Nat.mul_zero, Nat.zero_add]
    · rw [toDigitsCore_value fuel (n / 10) _ (by omega)]
      simp only [List.foldl_cons, hv]
      congr 1
      omega

theorem repr_value (n : Nat) :
    (Nat.repr n).data.foldl (fun v c => 10 * v + (c.toNat - 48)) 0 = n :=
  toDigitsCore_value (n + 1) n [] (Nat.lt_succ_self n)

theorem repr_plain (n : Nat) : '<' ∉ (Nat.repr n).data :=
  toDigitsCore_not_mem '<' digitChar_ne_lt (n + 1) n [] (by simp)

theorem repr_no_minus (n : Nat) : '-' ∉ (Nat.repr n).data :=
  toDigitsCore_not_mem '-' digitChar_ne_minus (n + 1) n [] (by simp)

/-- The template prints an `int` without a `<`. -/
theorem int_plain (i : Int) : '<' ∉ (svgTPL.int i).data := by
  cases i with
  | ofNat m => exact repr_plain m
  | negSucc m =>
    show '<' ∉ ("-" ++ Nat.repr (m + 1)).data
    rw [String.data_append]
    intro hm
    rcases List.mem_append.mp hm with e | e
    · revert e; decide
    · exact repr_plain _ e

/-- The digits the template prints for an `int` read back as its absolute value. -/
theorem int_value (i : Int) :
    (svgTPL.int i).data.foldl (fun v c => 10 * v + (c.toNat - 48)) 0 = i.natAbs := by
  cases i with
  | ofNat m => exact repr_value m
  | negSucc m =>
    show ("-" ++ Nat.repr (m + 1)).data.foldl _ 0 = _
    rw [String.data_append]
    have : ("-" : String).data = ['-'] := rfl
    rw [this, List.singleton_append, List.foldl_cons]
    exact repr_value (m + 1)

/-- The template prints a minus sign exactly for a negative `int`. -/
theorem int_minus (i : Int) : '-' ∈ (svgTPL.int i).data ↔ i < 0 := by
  cases i with
  | ofNat m =>
    constructor
    · intro h; exact absurd h (repr_no_minus m)
    · intro h; exact absurd h (by simp)
  | negSucc m =>
    constructor
    · intro _; exact Int.negSucc_lt_zero m
    · intro _
      show '-' ∈ ("-" ++ Nat.repr (m + 1)).data
      rw [String.data_append]
      exact List.mem_append_left _ (by decide)

/-- The template prints different `int`s differently. -/
theorem int_injective : Function.Injective svgTPL.int := by
  intro i j h
  have hv : i.natAbs = j.natAbs := by rw [← int_value i, ← int_value j, h]
  have hs : i < 0 ↔ j < 0 := by rw [← int_minus i, ← int_minus j, h]
  omega

/-! ## Where a `<line` can start in the document -/

theorem infix_left {α : Type} {l x : List α} (y : List α) (h : l <:+: x) : l <:+: x ++ y :=
  h.trans (List.prefix_append x y).isInfix

theorem infix_right {α : Type} {l y : List α} (x : List α) (h : l <:+: y) : l <:+: x ++ y :=
  h.trans (List.suffix_append x y).isInfix

theorem noLineStart_tail {c : Char} {l : List Char}
    (h : svgTPL.noLineStart (c :: l) = true) : svgTPL.noLineStart l = true := by
  cases l with
  | nil => rfl
  | cons d rest =>
    simp only [svgTPL.noLineStart, Bool.and_eq_true] at h
    exact h.2

theorem noLineStart_append : ∀ (x y : List Char), svgTPL.noLineStart x = true →
    svgTPL.noLineStart y = true → svgTPL.noLineStart (x ++ y) = true
  | [], _, _, hy => hy
  | [c], y, hx, hy => by
    cases y with
    | nil => exact hx
    | cons d rest =>
      show svgTPL.noLineStart (c :: d :: rest) = true
      simp only [svgTPL.noLineStart, Bool.and_eq_true]
      refine ⟨?_, hy⟩
      simp only [svgTPL.noLineStart, bne_iff_ne, ne_eq] at hx
      simp [hx]
  | c :: d :: rest, y, hx, hy => by
    simp only [svgTPL.noLineStart, Bool.and_eq_true] at hx
    show svgTPL.noLineStart (c :: d :: (rest ++ y)) = true
    simp only [svgTPL.noLineStart, Bool.and_eq_true]
    exact ⟨hx.1, noLineStart_append (d :: rest) y hx.2 hy⟩

theorem noLineStart_of_plain : ∀ (l : List Char), '<' ∉ l → svgTPL.noLineStart l = true
  | [], _ => rfl
  | [c], h => by
    simp only [svgTPL.noLineStart, bne_iff_ne, ne_eq]
    intro hc
    exact h (by simp [hc])
  | c :: d :: rest, h => by
    simp only [svgTPL.noLineStart, Bool.and_eq_true]
    have hc : c ≠ '<' := fun hc => h (by simp [hc])
    exact ⟨by simp [hc], noLineStart_of_plain (d :: rest) (fun hm => h (List.mem_cons_of_mem _ hm))⟩

theorem not_infix_of_noLineStart {l : List Char} (h : svgTPL.noLineStart l = true)
    (p : List Char) : ¬ ('<' :: 'l' :: p) <:+: l := by
  rintro ⟨s, t, hst⟩
  subst hst
  induction s with
  | nil => simp [svgTPL.noLineStart] at h
  | cons c s ih => exact ih (noLineStart_tail h)

theorem noLineStart_flatten : ∀ (L : List (List Char)),
    (∀ x ∈ L, svgTPL.noLineStart x = true) → svgTPL.noLineStart L.flatten = true
  | [], _ => rfl
  | x :: rest, h => by
    rw [List.flatten_cons]
    exact noLineStart_append _ _ (h x (List.mem_cons_self _ _))
      (noLineStart_flatten rest (fun y hy => h y (List.mem_cons_of_mem _ hy)))

theorem clip_clean {F : Type} (s : Sponsor F) :
    svgTPL.noLineStart (svgTPL.clip s).data = true := by
  simp only [svgTPL.clip, String.data_append]
  repeat' (first
    | apply noLineStart_append
    | exact noLineStart_of_plain _ (int_plain _)
    | decide)

theorem group_clean {F : Type} (X : Externals F) (fontSize : Int) (s : Sponsor F)
    (h : Sponsor.Plain X s) : svgTPL.noLineStart (svgTPL.group X fontSize s).data = true := by
  obtain ⟨h1, h2, h3, h4, h5, h6⟩ := h
  have hc : svgTPL.noLineStart
      (if s.IsActive = true then "active-text" else "expired-text").data = true := by
    cases s.IsActive <;> decide
  simp only [svgTPL.group, String.data_append]
  repeat' (first
    | apply noLineStart_append
    | exact hc
    | exact noLineStart_of_plain _ (int_plain _)
    | exact noLineStart_of_plain _ h1
    | exact noLineStart_of_plain _ h2
    | exact noLineStart_of_plain _ h3
    | exact noLineStart_of_plain _ h4
    | exact noLineStart_of_plain _ h5
    | exact noLineStart_of_plain _ h6
    | decide)

set_option maxRecDepth 100000 in
theorem head_clean : svgTPL.noLineStart svgTPL.head.data = true := by decide

set_option maxRecDepth 100000 in
theorem style_clean : svgTPL.noLineStart svgTPL.style.data = true := by decide

theorem body_clean {F : Type} (X : Externals F) (d : TemplateData F)
    (h : ∀ s ∈ d.Sponsors, Sponsor.Plain X s) :
    svgTPL.noLineStart (svgTPL.body X d).data = true := by
  have hclips : svgTPL.noLineStart (String.join (d.Sponsors.map svgTPL.clip)).data = true := by
    rw [String.data_join]
    apply noLineStart_flatten
    intro x hx
    simp only [List.mem_map] at hx
    obtain ⟨t, ⟨s, _, rfl⟩, rfl⟩ := hx
    exact clip_clean s
  have hgroups : svgTPL.noLineStart
      (String.join (d.Sponsors.map (svgTPL.group X d.FontSize))).data = true := by
    rw [String.data_join]
    apply noLineStart_flatten
    intro x hx
    simp only [List.mem_map] at hx
    obtain ⟨t, ⟨s, hs, rfl⟩, rfl⟩ := hx
    exact group_clean X d.FontSize s (h s hs)
  have hi : ∀ i : Int, svgTPL.noLineStart (svgTPL.int i).data = true :=
    fun i => noLineStart_of_plain _ (int_plain i)
  simp only [svgTPL.body, String.data_append]
  exact noLineStart_append _ _ (noLineStart_append _ _ (noLineStart_append _ _
    (noLineStart_append _ _ (noLineStart_append _ _ (noLineStart_append _ _
      (noLineStart_append _ _ (noLineStart_append _ _ head_clean (hi _)) (by decide))
      (hi _)) style_clean) hclips) (by decide)) hgroups) (by decide)

/-- Without the separator line no `<l` occurs in the document, when the text that comes
from the input and from the collaborators has no `<`. -/
theorem no_line_without_both {F : Type} (X : Externals F) (d : TemplateData F)
    (h : ∀ s ∈ d.Sponsors, Sponsor.Plain X s)
    (hb : ¬ (d.ActiveSponsors.length ≠ 0 ∧ d.ExpiredSponsors.length ≠ 0)) (p : List Char) :
    ¬ ('<' :: 'l' :: p) <:+: (svgTPL.execute X d).data := by
  have heq : svgTPL.execute X d = svgTPL.body X d ++ "" ++ "\n</svg>" := by
    simp only [svgTPL.execute, svgTPL.body, if_neg hb]
  rw [heq, String.data_append, String.data_append]
  exact not_infix_of_noLineStart
    (noLineStart_append _ _ (noLineStart_append _ _ (body_clean X d h) (by decide))
      (by decide)) p

/-- The title of every rendered sponsor stands verbatim in its group. -/
theorem title_in_group {F : Type} (X : Externals F) (fontSize : Int) (s : Sponsor F) :
    s.OriginalName.data <:+: (svgTPL.group X fontSize s).data := by
  simp only [svgTPL.group, String.data_append]
  repeat (first | exact infix_right _ (List.infix_refl _) | apply infix_left)

/-- The group of every rendered sponsor stands in the document. -/
theorem group_in_document {F : Type} (X : Externals F) (d : TemplateData F) (s : Sponsor F)
    (hs : s ∈ d.Sponsors) :
    (svgTPL.group X d.FontSize s).data <:+: (svgTPL.execute X d).data := by
  have h1 : (svgTPL.group X d.FontSize s).data <:+:
      (String.join (d.Sponsors.map (svgTPL.group X d.FontSize))).data := by
    rw [String.data_join]
    apply List.infix_of_mem_flatten
    simp only [List.mem_map]
    exact ⟨_, ⟨s, hs, rfl⟩, rfl⟩
  refine h1.trans ?_
  simp only [svgTPL.execute, String.data_append]
  repeat (first | exact infix_right _ (List.infix_refl _) | apply infix_left)

/-- The separator line element stands in the document when both groups are non-empty. -/
theorem line_in_document {F : Type} (X : Externals F) (d : TemplateData F)
    (hb : d.ActiveSponsors.length ≠ 0 ∧ d.ExpiredSponsors.length ≠ 0) :
    ("<line class=\"separator\" x1=\"" ++ svgTPL.int d.LineX1 ++ "\" y1=\"" ++
      svgTPL.int d.LineY ++ "\" x2=\"" ++ svgTPL.int d.LineX2 ++ "\" y2=\"" ++
      svgTPL.int d.LineY ++ "\" stroke-width=\"1\"/>").data <:+:
      (svgTPL.execute X d).data := by
  have e1 : "\n<line class=\"separator\" x1=\"" = "\n" ++ "<line class=\"separator\" x1=\"" := by
    decide
  have e2 : "\" stroke-width=\"1\"/>\n" = "\" stroke-width=\"1\"/>" ++ "\n" := by decide
  have hdoc : svgTPL.execute X d = svgTPL.body X d ++ svgTPL.line d ++ "\n</svg>" := by
    simp only [svgTPL.execute, svgTPL.body, if_pos hb]
  have hline : svgTPL.line d = "\n" ++
      (("<line class=\"separator\" x1=\"" ++ svgTPL.int d.LineX1 ++ "\" y1=\"" ++
        svgTPL.int d.LineY ++ "\" x2=\"" ++ svgTPL.int d.LineX2 ++ "\" y2=\"" ++
        svgTPL.int d.LineY ++ "\" stroke-width=\"1\"/>") ++ "\n") := by
    simp only [svgTPL.line, e1, e2, String.append_assoc]
  rw [hdoc, hline]
  simp only [String.data_append _ "\n</svg>", String.data_append (svgTPL.body X d),
    String.data_append "\n", String.data_append _ "\n"]
  exact infix_left _ (infix_right _ (infix_right _ (infix_left _ (List.infix_refl _))))


/-! ## C1: the empty input -/

/-- C1: for every configuration and every client, `Generate` on two empty lists returns
exactly the placeholder document and a nil error; it issues no request, and no
configuration (not even one whose divisors are all zero) makes it panic. -/
theorem C1_empty_input_returns_placeholder {F : Type} (X : Externals F) (client : Client)
    (cfg : Config F) :
    Generate X client [] [] cfg =
      { requests := [],
        outcome := .ret "<svg width=\"1135\" height=\"100\" xmlns=\"http://www.w3.org/2000/svg\" style=\"background-color:transparent;\"></svg>" none } := by
  simp [Generate, len, emptySVG]

/-! ## C5: indices -/

/-- C5: when the locals are computed and every fetch delivers, the rendered sequence has
`len(active) + len(expired)` elements; its `j`-th element has `Index = j`, is active
exactly when `j < len(active)`, and comes from `active[j]` resp.
`expired[j - len(active)]` (same avatar, the input name kept as `OriginalName`). -/
theorem C5_index_follows_concatenation {F : Type} (X : Externals F) (client : Client)
    (a ex : List (Sponsor F)) (cfg : Config F) (L : Locals)
    (hL : Generate.locals cfg (len a) (len ex) = .ok L)
    (hf : fetchesSucceed client [] (a ++ ex) = true) :
    ∃ d, Generate.data X client a ex cfg = ((a ++ ex).map (·.Avatar), .ok d) ∧
      d.Sponsors.length = a.length + ex.length ∧
      ∀ j, j < a.length + ex.length →
        ∃ s, d.Sponsors[j]? = some s ∧ s.Index = (j : Int) ∧
          s.IsActive = decide (j < a.length) ∧
          (∀ src, a[j]? = some src → s.Avatar = src.Avatar ∧ s.OriginalName = src.Name) ∧
          (∀ src, a.length ≤ j → ex[j - a.length]? = some src →
            s.Avatar = src.Avatar ∧ s.OriginalName = src.Name) := by
  obtain ⟨out, hout⟩ := data_ok X client a ex cfg hL hf
  obtain ⟨_, _, hlen, hall⟩ := data_sponsors hout hL
  refine ⟨_, hout, hlen, ?_⟩
  intro j hj
  have hj2 : j < (a ++ ex).length := by simpa using hj
  obtain ⟨img, _, hs⟩ := hall j (a ++ ex)[j] (List.getElem?_eq_getElem hj2)
  refine ⟨_, hs, by simp, by simp [len], ?_, ?_⟩
  · intro src hsrc
    have hja : j < a.length := (List.getElem?_eq_some_iff.mp hsrc).1
    have : (a ++ ex)[j] = src := by
      rw [List.getElem_append_left hja]
      exact (List.getElem?_eq_some_iff.mp hsrc).2
    simp [this]
  · intro src hja hsrc
    have : (a ++ ex)[j] = src := by
      rw [List.getElem_append_right hja]
      exact (List.getElem?_eq_some_iff.mp hsrc).2
    simp [this]

/-- C5 at two active sponsors and one expired sponsor. -/
theorem C5_index_follows_concatenation_witness :
    Generate.locals sampleConfig (len [sampleSponsor "a", sampleSponsor "b"])
        (len [sampleSponsor "c"]) = .ok (Generate.localsOf sampleConfig 2 1) ∧
    fetchesSucceed sampleClient []
        ([sampleSponsor "a", sampleSponsor "b"] ++ [sampleSponsor "c"]) = true ∧
    ∃ d, Generate.data sampleExternals sampleClient [sampleSponsor "a", sampleSponsor "b"]
        [sampleSponsor "c"] sampleConfig =
          (([sampleSponsor "a", sampleSponsor "b"] ++ [sampleSponsor "c"]).map (·.Avatar),
            .ok d) ∧
      d.Sponsors.length = [sampleSponsor "a", sampleSponsor "b"].length +
        [sampleSponsor "c"].length ∧
      ∀ j, j < [sampleSponsor "a", sampleSponsor "b"].length + [sampleSponsor "c"].length →
        ∃ s, d.Sponsors[j]? = some s ∧ s.Index = (j : Int) ∧
          s.IsActive = decide (j < [sampleSponsor "a", sampleSponsor "b"].length) ∧
          (∀ src, [sampleSponsor "a", sampleSponsor "b"][j]? = some src →
            s.Avatar = src.Avatar ∧ s.OriginalName = src.Name) ∧
          (∀ src, [sampleSponsor "a", sampleSponsor "b"].length ≤ j →
            [sampleSponsor "c"][j - [sampleSponsor "a", sampleSponsor "b"].length]? = some src →
            s.Avatar = src.Avatar ∧ s.OriginalName = src.Name) :=
  ⟨rfl, rfl, C5_index_follows_concatenation sampleExternals sampleClient
    [sampleSponsor "a", sampleSponsor "b"] [sampleSponsor "c"] sampleConfig
    (Generate.localsOf sampleConfig 2 1) rfl rfl⟩

/-! ## C6: a failed fetch -/

/-- C6: whenever a fetch that `Generate` issued failed -- `client.Get` returned an error
or reading the body did -- `Generate` returns the placeholder `emptySVG` together with
that error, never a rendered document. -/
theorem C6_failed_fetch_returns_placeholder_and_error {F : Type} (X : Externals F)
    (client : Client) (a ex : List (Sponsor F)) (cfg : Config F) (k : Nat) (url : String)
    (e : GoError)
    (hu : (Generate X client a ex cfg).requests[k]? = some url)
    (he : fetchError (client ((Generate X client a ex cfg).requests.take k) url) = some e) :
    (Generate X client a ex cfg).outcome = .ret emptySVG (some e) := by
  by_cases hempty : len a = 0 ∧ len ex = 0
  · simp [Generate, hempty] at hu
  · rw [generate_nonempty X client a ex cfg hempty] at hu he ⊢
    simp only at hu he ⊢
    rcases hL : Generate.locals cfg (len a) (len ex) with f | L
    · rw [data_of_panic X client a ex cfg hL] at hu
      simp at hu
    · rw [data_of_locals X client a ex cfg hL] at hu he ⊢
      simp only at hu he ⊢
      rw [loop_fail X client cfg L (len a) (a ++ ex) 0 [] k url e (Nat.zero_le _) hu he]
      rfl

/-- C6 at an input whose second fetch fails in transport. -/
theorem C6_failed_fetch_returns_placeholder_and_error_witness :
    (Generate sampleExternals failingClient [sampleSponsor "a", sampleSponsor "b"]
        [sampleSponsor "c"] sampleConfig).requests[1]? = some "b" ∧
    fetchError (failingClient ((Generate sampleExternals failingClient
        [sampleSponsor "a", sampleSponsor "b"] [sampleSponsor "c"]
        sampleConfig).requests.take 1) "b") = some "connection reset" ∧
    (Generate sampleExternals failingClient [sampleSponsor "a", sampleSponsor "b"]
        [sampleSponsor "c"] sampleConfig).outcome = .ret emptySVG (some "connection reset") :=
  ⟨rfl, rfl, C6_failed_fetch_returns_placeholder_and_error sampleExternals failingClient
    [sampleSponsor "a", sampleSponsor "b"] [sampleSponsor "c"] sampleConfig 1 "b"
    "connection reset" rfl rfl⟩

/-! ## C7: the status code -/

/-- C7, as stated, fails: a fetch answered with status 404 and a readable body is not an
error. `Generate` returns the rendered document with a nil error, and the body of the
404 response is what the image embeds. -/
theorem C7_non2xx_response_is_rendered :
    notFoundClient [] "a" = .ok { StatusCode := 404, Body := .ok [52, 48, 52] } ∧
    (∀ e, (Generate sampleExternals notFoundClient [sampleSponsor "a"] [] sampleConfig).outcome ≠
      .ret emptySVG (some e)) ∧
    ∃ d, Generate sampleExternals notFoundClient [sampleSponsor "a"] [] sampleConfig =
        { requests := ["a"], outcome := .ret (svgTPL.execute sampleExternals d) none } ∧
      d.Sponsors.map (·.ImgB64) = ["404"] := by
  have hrun : Generate sampleExternals notFoundClient [sampleSponsor "a"] [] sampleConfig =
      { requests := ["a"],
        outcome := .ret (svgTPL.execute sampleExternals
          (Generate.dataOf (Generate.localsOf sampleConfig 1 0) [sampleSponsor "a"] []
            [Generate.placed sampleExternals sampleConfig (Generate.localsOf sampleConfig 1 0)
              1 0 (sampleSponsor "a") [52, 48, 52]])) none } := rfl
  refine ⟨rfl, ?_, _, hrun, rfl⟩
  intro e
  rw [hrun]
  simp

/-- C7, amended: the status code is never inspected. When the locals are computed and
every fetch yields a response whose body can be read -- whatever its status code --
`Generate` on a non-empty input returns the rendered document with a nil error, and
every sponsor embeds the body of its response (base64 text and sniffed media type). -/
theorem C7_status_code_is_ignored {F : Type} (X : Externals F) (client : Client)
    (a ex : List (Sponsor F)) (cfg : Config F) (L : Locals)
    (hne : a ++ ex ≠ [])
    (hL : Generate.locals cfg (len a) (len ex) = .ok L)
    (hf : fetchesSucceed client [] (a ++ ex) = true) :
    ∃ d, Generate X client a ex cfg =
        { requests := (a ++ ex).map (·.Avatar), outcome := .ret (svgTPL.execute X d) none } ∧
      ∀ (j : Nat) (s : Sponsor F) (resp : Response), (a ++ ex)[j]? = some s →
        client (((a ++ ex).take j).map (·.Avatar)) s.Avatar = .ok resp →
        ∃ img t, resp.Body = .ok img ∧ d.Sponsors[j]? = some t ∧
          t.ImgB64 = X.EncodeToString img ∧ t.ImgMime = X.DetectContentType img := by
  obtain ⟨out, hout⟩ := data_ok X client a ex cfg hL hf
  obtain ⟨_, _, _, hall⟩ := data_sponsors hout hL
  have hempty : ¬ (len a = 0 ∧ len ex = 0) := by
    rw [len_eq_zero, len_eq_zero]
    rintro ⟨rfl, rfl⟩
    exact hne rfl
  refine ⟨Generate.dataOf L a ex out, ?_, ?_⟩
  · rw [generate_nonempty X client a ex cfg hempty, hout]
    rfl
  · intro j s resp hs hresp
    obtain ⟨img, hi1, hi2⟩ := hall j s hs
    rw [hresp] at hi1
    exact ⟨img, _, fetchBytes_ok.mp hi1, hi2, by simp, by simp⟩

/-- C7, amended, at an input whose only fetch is answered with status 404. -/
theorem C7_status_code_is_ignored_witness :
    [sampleSponsor "a"] ++ ([] : List (Sponsor Nat)) ≠ [] ∧
    Generate.locals sampleConfig (len [sampleSponsor "a"]) (len ([] : List (Sponsor Nat))) =
      .ok (Generate.localsOf sampleConfig 1 0) ∧
    fetchesSucceed notFoundClient [] ([sampleSponsor "a"] ++ ([] : List (Sponsor Nat))) = true ∧
    ∃ d, Generate sampleExternals notFoundClient [sampleSponsor "a"] [] sampleConfig =
        { requests := ([sampleSponsor "a"] ++ ([] : List (Sponsor Nat))).map (·.Avatar),
          outcome := .ret (svgTPL.execute sampleExternals d) none } ∧
      ∀ (j : Nat) (s : Sponsor Nat) (resp : Response),
        ([sampleSponsor "a"] ++ ([] : List (Sponsor Nat)))[j]? = some s →
        notFoundClient ((([sampleSponsor "a"] ++ ([] : List (Sponsor Nat))).take j).map (·.Avatar)) s.Avatar =
          .ok resp →
        ∃ img t, resp.Body = .ok img ∧ d.Sponsors[j]? = some t ∧
          t.ImgB64 = sampleExternals.EncodeToString img ∧
          t.ImgMime = sampleExternals.DetectContentType img :=
  ⟨by simp, rfl, rfl, C7_status_code_is_ignored sampleExternals notFoundClient
    [sampleSponsor "a"] [] sampleConfig (Generate.localsOf sampleConfig 1 0) (by simp) rfl rfl⟩

/-! ## C3, C4: the canvas -/

/-- C3: whenever `Generate` computes its locals (any input, any configuration), the
width is `AvatarsPerRow*(AvatarSize+Margin) - Margin + 2*paddingX` and is the same for
all sponsor counts, and the height is
`paddingY + rows(active)*rowHeight + separatorHeight + rows(expired)*rowHeight`, with
`rowHeight = AvatarSize + Margin + AvatarSize/FontSizeScale + 10`, `separatorHeight` 40
when both groups are non-empty and 0 otherwise, and each padding `AvatarSize/scale` when
the scale is positive and 0 otherwise. Arithmetic is that of Go `int`; `rows(group)` is
the count `(len(group) + AvatarsPerRow - 1) / AvatarsPerRow` of lines 86 and 94. These
are the width and height handed to the template. -/
theorem C3_canvas_width_and_height {F : Type} (X : Externals F) (client : Client)
    (a ex : List (Sponsor F)) (cfg : Config F) (L : Locals)
    (hL : Generate.locals cfg (len a) (len ex) = .ok L) :
    ∃ fontSize paddingX paddingY rowsActive rowsExpired,
      idiv cfg.AvatarSize cfg.FontSizeScale = .ok fontSize ∧
      (if cfg.PaddingXScale > 0 then idiv cfg.AvatarSize cfg.PaddingXScale else .ok 0) =
        .ok paddingX ∧
      (if cfg.PaddingYScale > 0 then idiv cfg.AvatarSize cfg.PaddingYScale else .ok 0) =
        .ok paddingY ∧
      idiv (isub (iadd (len a) cfg.AvatarsPerRow) 1) cfg.AvatarsPerRow = .ok rowsActive ∧
      idiv (isub (iadd (len ex) cfg.AvatarsPerRow) 1) cfg.AvatarsPerRow = .ok rowsExpired ∧
      L.width = iadd (isub (imul cfg.AvatarsPerRow (iadd cfg.AvatarSize cfg.Margin)) cfg.Margin)
        (imul 2 paddingX) ∧
      L.height = iadd (iadd (iadd paddingY
          (imul rowsActive (iadd (iadd (iadd cfg.AvatarSize cfg.Margin) fontSize) 10)))
          (if 0 < a.length ∧ 0 < ex.length then 40 else 0))
          (imul rowsExpired (iadd (iadd (iadd cfg.AvatarSize cfg.Margin) fontSize) 10)) ∧
      (∀ (a1 ex1 : List (Sponsor F)) (L1 : Locals),
        Generate.locals cfg (len a1) (len ex1) = .ok L1 → L1.width = L.width) ∧
      (∀ log d, Generate.data X client a ex cfg = (log, .ok d) →
        d.Width = L.width ∧ d.Height = L.height) := by
  obtain ⟨h1, h2, h3, rfl⟩ := locals_inv hL
  refine ⟨_, _, _, _, _, idiv_ok h1, padding_eq _ _, padding_eq _ _, idiv_ok h3, idiv_ok h3,
    ?_, ?_, ?_, ?_⟩
  · simp only [Generate.localsOf, imul, mul_comm]
  · simp only [Generate.localsOf, len, Nat.cast_pos, gt_iff_lt]
  · intro a1 ex1 L1 hL1
    obtain ⟨_, _, _, rfl⟩ := locals_inv hL1
    rfl
  · intro log d hd
    obtain ⟨hdd, _⟩ := data_sponsors hd hL
    rw [hdd]
    exact ⟨rfl, rfl⟩

/-- C3 at the sample configuration with two active sponsors and one expired sponsor. -/
theorem C3_canvas_width_and_height_witness :
    Generate.locals sampleConfig (len [sampleSponsor "a", sampleSponsor "b"])
        (len [sampleSponsor "c"]) = .ok (Generate.localsOf sampleConfig 2 1) ∧
    ∃ fontSize paddingX paddingY rowsActive rowsExpired,
      idiv sampleConfig.AvatarSize sampleConfig.FontSizeScale = .ok fontSize ∧
      (if sampleConfig.PaddingXScale > 0 then
          idiv sampleConfig.AvatarSize sampleConfig.PaddingXScale else .ok 0) = .ok paddingX ∧
      (if sampleConfig.PaddingYScale > 0 then
          idiv sampleConfig.AvatarSize sampleConfig.PaddingYScale else .ok 0) = .ok paddingY ∧
      idiv (isub (iadd (len [sampleSponsor "a", sampleSponsor "b"]) sampleConfig.AvatarsPerRow) 1)
        sampleConfig.AvatarsPerRow = .ok rowsActive ∧
      idiv (isub (iadd (len [sampleSponsor "c"]) sampleConfig.AvatarsPerRow) 1)
        sampleConfig.AvatarsPerRow = .ok rowsExpired ∧
      (Generate.localsOf sampleConfig 2 1).width =
        iadd (isub (imul sampleConfig.AvatarsPerRow
          (iadd sampleConfig.AvatarSize sampleConfig.Margin)) sampleConfig.Margin)
          (imul 2 paddingX) ∧
      (Generate.localsOf sampleConfig 2 1).height = iadd (iadd (iadd paddingY
          (imul rowsActive
            (iadd (iadd (iadd sampleConfig.AvatarSize sampleConfig.Margin) fontSize) 10)))
          (if 0 < [sampleSponsor "a", sampleSponsor "b"].length ∧ 0 < [sampleSponsor "c"].length
            then 40 else 0))
          (imul rowsExpired
            (iadd (iadd (iadd sampleConfig.AvatarSize sampleConfig.Margin) fontSize) 10)) ∧
      (∀ (a1 ex1 : List (Sponsor Nat)) (L1 : Locals),
        Generate.locals sampleConfig (len a1) (len ex1) = .ok L1 →
          L1.width = (Generate.localsOf sampleConfig 2 1).width) ∧
      (∀ log d, Generate.data sampleExternals sampleClient [sampleSponsor "a", sampleSponsor "b"]
          [sampleSponsor "c"] sampleConfig = (log, .ok d) →
        d.Width = (Generate.localsOf sampleConfig 2 1).width ∧
        d.Height = (Generate.localsOf sampleConfig 2 1).height) :=
  ⟨rfl, C3_canvas_width_and_height sampleExternals sampleClient
    [sampleSponsor "a", sampleSponsor "b"] [sampleSponsor "c"] sampleConfig
    (Generate.localsOf sampleConfig 2 1) rfl⟩

/-- C4: for the configuration of the worked example (any values of the three
floating-point fields, so in particular 0.1, 1 and 0.5), six active sponsors, no expired
sponsor and fetches that deliver, `Generate` computes `fontSize = 12`, `nameLimit = 10`,
`paddingX = paddingY = 6`, `rowHeight = 92`, two active rows, `activeHeight = 184`,
`separatorHeight = 0`, `width = 352`, `height = 190`, and the sponsor with `Index` 5
gets `CenterX = 36` and `CenterY = 128`. -/
theorem C4_worked_example {F : Type} (X : Externals F) (client : Client)
    (a : List (Sponsor F)) (delay opActive opExpired : F)
    (hlen : a.length = 6)
    (hf : fetchesSucceed client [] (a ++ []) = true) :
    ∃ L d s,
      Generate.locals
        ({ AvatarSize := 60, FontSizeScale := 5, PaddingXScale := 10, PaddingYScale := 10,
           Margin := 10, AvatarsPerRow := 5, AnimationDelay := delay,
           ActiveSponsorOpacity := opActive, ExpiredSponsorOpacity := opExpired,
           UseActiveOpacityWhenNoActive := false } : Config F) (len a) (len ([] : List (Sponsor F))) =
        .ok L ∧
      L.fontSize = 12 ∧ L.nameLimit = 10 ∧ L.paddingX = 6 ∧ L.paddingY = 6 ∧
      L.rowHeight = 92 ∧ L.numActiveRows = 2 ∧ L.activeHeight = 184 ∧
      L.separatorHeight = 0 ∧ L.width = 352 ∧ L.height = 190 ∧
      Generate.data X client a []
        { AvatarSize := 60, FontSizeScale := 5, PaddingXScale := 10, PaddingYScale := 10,
          Margin := 10, AvatarsPerRow := 5, AnimationDelay := delay,
          ActiveSponsorOpacity := opActive, ExpiredSponsorOpacity := opExpired,
          UseActiveOpacityWhenNoActive := false } =
        ((a ++ ([] : List (Sponsor F))).map (·.Avatar), .ok d) ∧
      d.Width = 352 ∧ d.Height = 190 ∧ d.FontSize = 12 ∧
      d.Sponsors[5]? = some s ∧ s.Index = 5 ∧ s.CenterX = 36 ∧ s.CenterY = 128 := by
  have hla : len a = 6 := by simp [len, hlen]
  have hL : Generate.locals
      ({ AvatarSize := 60, FontSizeScale := 5, PaddingXScale := 10, PaddingYScale := 10,
         Margin := 10, AvatarsPerRow := 5, AnimationDelay := delay,
         ActiveSponsorOpacity := opActive, ExpiredSponsorOpacity := opExpired,
         UseActiveOpacityWhenNoActive := false } : Config F) (len a)
        (len ([] : List (Sponsor F))) =
      .ok (Generate.localsOf
        ({ AvatarSize := 60, FontSizeScale := 5, PaddingXScale := 10, PaddingYScale := 10,
           Margin := 10, AvatarsPerRow := 5, AnimationDelay := delay,
           ActiveSponsorOpacity := opActive, ExpiredSponsorOpacity := opExpired,
           UseActiveOpacityWhenNoActive := false } : Config F) 6 0) := by
    rw [hla]; rfl
  obtain ⟨out, hout⟩ := data_ok X client a [] _ hL hf
  obtain ⟨_, _, _, hall⟩ := data_sponsors hout hL
  have h5 : 5 < (a ++ []).length := by simp [hlen]
  obtain ⟨img, _, hs⟩ := hall 5 (a ++ [])[5] (List.getElem?_eq_getElem h5)
  rw [hla] at hs
  exact ⟨_, _, _, hL, rfl, rfl, rfl, rfl, rfl, rfl, rfl, rfl, rfl, rfl, hout, rfl, rfl, rfl,
    hs, rfl, rfl, rfl⟩

/-- C4 at six concrete sponsors. -/
theorem C4_worked_example_witness :
    [sampleSponsor "a", sampleSponsor "b", sampleSponsor "c", sampleSponsor "d",
      sampleSponsor "e", sampleSponsor "f"].length = 6 ∧
    fetchesSucceed sampleClient [] ([sampleSponsor "a", sampleSponsor "b", sampleSponsor "c",
      sampleSponsor "d", sampleSponsor "e", sampleSponsor "f"] ++ []) = true ∧
    ∃ L d s,
      Generate.locals sampleConfig (len [sampleSponsor "a", sampleSponsor "b",
        sampleSponsor "c", sampleSponsor "d", sampleSponsor "e", sampleSponsor "f"])
        (len ([] : List (Sponsor Nat))) = .ok L ∧
      L.fontSize = 12 ∧ L.nameLimit = 10 ∧ L.paddingX = 6 ∧ L.paddingY = 6 ∧
      L.rowHeight = 92 ∧ L.numActiveRows = 2 ∧ L.activeHeight = 184 ∧
      L.separatorHeight = 0 ∧ L.width = 352 ∧ L.height = 190 ∧
      Generate.data sampleExternals sampleClient [sampleSponsor "a", sampleSponsor "b",
        sampleSponsor "c", sampleSponsor "d", sampleSponsor "e", sampleSponsor "f"] []
        sampleConfig =
          (([sampleSponsor "a", sampleSponsor "b", sampleSponsor "c", sampleSponsor "d",
            sampleSponsor "e", sampleSponsor "f"] ++ ([] : List (Sponsor Nat))).map (·.Avatar),
            .ok d) ∧
      d.Width = 352 ∧ d.Height = 190 ∧ d.FontSize = 12 ∧
      d.Sponsors[5]? = some s ∧ s.Index = 5 ∧ s.CenterX = 36 ∧ s.CenterY = 128 :=
  ⟨rfl, rfl, C4_worked_example sampleExternals sampleClient
    [sampleSponsor "a", sampleSponsor "b", sampleSponsor "c", sampleSponsor "d",
      sampleSponsor "e", sampleSponsor "f"] 1 10 5 rfl rfl⟩

/-! ## C8: the row count -/

/-- C8, as stated, fails: with `AvatarsPerRow = 2^63 - 1` and two active sponsors the sum
`2 + AvatarsPerRow - 1` overflows, the computed row count is `-1`, while
`ceil(2 / AvatarsPerRow) = 1`. -/
theorem C8_row_count_overflow :
    hugeRowConfig.InRange ∧ 1 ≤ hugeRowConfig.AvatarsPerRow ∧
    0 ≤ len [sampleSponsor "a", sampleSponsor "b"] ∧
    ∃ L, Generate.locals hugeRowConfig (len [sampleSponsor "a", sampleSponsor "b"])
        (len ([] : List (Sponsor Nat))) = .ok L ∧
      L.numActiveRows = -1 ∧
      ⌈((len [sampleSponsor "a", sampleSponsor "b"] : Int) : ℚ) /
        ((hugeRowConfig.AvatarsPerRow : Int) : ℚ)⌉ = 1 ∧
      ¬ (len [sampleSponsor "a", sampleSponsor "b"] ≤
        L.numActiveRows * hugeRowConfig.AvatarsPerRow) := by
  refine ⟨by decide, by decide, by decide, Generate.localsOf hugeRowConfig 2 0, rfl, rfl, ?_,
    by decide⟩
  rw [Int.ceil_eq_iff]
  simp only [len, hugeRowConfig, sampleConfig]
  norm_num

/-- C8, amended: for counts `>= 0` and `AvatarsPerRow >= 1` such that
`count + AvatarsPerRow - 1` fits a 64-bit `int`, the row count computed for each group
equals `ceil(count / AvatarsPerRow)`, i.e. it is the least `r` with
`r * AvatarsPerRow >= count`; and the group height is that row count times `rowHeight`
(a Go `int` product). -/
theorem C8_row_count_is_ceiling {F : Type} (cfg : Config F) (na ne : Int) (L : Locals)
    (hna : 0 ≤ na) (hne : 0 ≤ ne) (hp : 1 ≤ cfg.AvatarsPerRow)
    (hoa : na + cfg.AvatarsPerRow - 1 ≤ 9223372036854775807)
    (hoe : ne + cfg.AvatarsPerRow - 1 ≤ 9223372036854775807)
    (hL : Generate.locals cfg na ne = .ok L) :
    (L.numActiveRows = ⌈(na : ℚ) / (cfg.AvatarsPerRow : ℚ)⌉ ∧
      na ≤ L.numActiveRows * cfg.AvatarsPerRow ∧
      ∀ r : Int, na ≤ r * cfg.AvatarsPerRow → L.numActiveRows ≤ r) ∧
    (L.numExpiredRows = ⌈(ne : ℚ) / (cfg.AvatarsPerRow : ℚ)⌉ ∧
      ne ≤ L.numExpiredRows * cfg.AvatarsPerRow ∧
      ∀ r : Int, ne ≤ r * cfg.AvatarsPerRow → L.numExpiredRows ≤ r) ∧
    L.activeHeight = imul L.numActiveRows L.rowHeight ∧
    L.expiredHeight = imul L.numExpiredRows L.rowHeight := by
  obtain ⟨_, _, _, rfl⟩ := locals_inv hL
  have ha : (Generate.localsOf cfg na ne).numActiveRows =
      (na + cfg.AvatarsPerRow - 1) / cfg.AvatarsPerRow := rows_exact hna hp hoa
  have he : (Generate.localsOf cfg na ne).numExpiredRows =
      (ne + cfg.AvatarsPerRow - 1) / cfg.AvatarsPerRow := rows_exact hne hp hoe
  refine ⟨⟨?_, ?_, ?_⟩, ⟨?_, ?_, ?_⟩, rfl, rfl⟩
  · rw [ha]; exact ceilDiv_eq_ceil na hp
  · rw [ha]; exact (ceilDiv_spec na hp).1
  · intro r hr; rw [ha]; exact ceilDiv_least hp hr
  · rw [he]; exact ceilDiv_eq_ceil ne hp
  · rw [he]; exact (ceilDiv_spec ne hp).1
  · intro r hr; rw [he]; exact ceilDiv_least hp hr

/-- C8, amended, at the sample configuration with six active sponsors. -/
theorem C8_row_count_is_ceiling_witness :
    (0 : Int) ≤ 6 ∧ (0 : Int) ≤ 0 ∧ 1 ≤ sampleConfig.AvatarsPerRow ∧
    6 + sampleConfig.AvatarsPerRow - 1 ≤ 9223372036854775807 ∧
    0 + sampleConfig.AvatarsPerRow - 1 ≤ 9223372036854775807 ∧
    Generate.locals sampleConfig 6 0 = .ok (Generate.localsOf sampleConfig 6 0) ∧
    ((Generate.localsOf sampleConfig 6 0).numActiveRows =
        ⌈((6 : Int) : ℚ) / (sampleConfig.AvatarsPerRow : ℚ)⌉ ∧
      6 ≤ (Generate.localsOf sampleConfig 6 0).numActiveRows * sampleConfig.AvatarsPerRow ∧
      ∀ r : Int, 6 ≤ r * sampleConfig.AvatarsPerRow →
        (Generate.localsOf sampleConfig 6 0).numActiveRows ≤ r) ∧
    ((Generate.localsOf sampleConfig 6 0).numExpiredRows =
        ⌈((0 : Int) : ℚ) / (sampleConfig.AvatarsPerRow : ℚ)⌉ ∧
      0 ≤ (Generate.localsOf sampleConfig 6 0).numExpiredRows * sampleConfig.AvatarsPerRow ∧
      ∀ r : Int, 0 ≤ r * sampleConfig.AvatarsPerRow →
        (Generate.localsOf sampleConfig 6 0).numExpiredRows ≤ r) ∧
    (Generate.localsOf sampleConfig 6 0).activeHeight =
      imul (Generate.localsOf sampleConfig 6 0).numActiveRows
        (Generate.localsOf sampleConfig 6 0).rowHeight ∧
    (Generate.localsOf sampleConfig 6 0).expiredHeight =
      imul (Generate.localsOf sampleConfig 6 0).numExpiredRows
        (Generate.localsOf sampleConfig 6 0).rowHeight :=
  ⟨by decide, by decide, by decide, by decide, by decide, rfl,
    C8_row_count_is_ceiling sampleConfig 6 0 (Generate.localsOf sampleConfig 6 0)
      (by decide) (by decide) (by decide) (by decide) (by decide) rfl⟩

/-! ## C2: the centre of each sponsor -/

/-- C2, as stated, fails: with `AvatarsPerRow = 2^63 - 1`, two active sponsors and one
expired sponsor, the expired sponsor gets `CenterY = -16`; the stated formula, with
`ceil(2 / AvatarsPerRow) = 1`, gives `6 + 1*92 + 40 + 0*92 + 30 = 168`. -/
theorem C2_expired_centre_overflow :
    1 ≤ hugeRowConfig.AvatarsPerRow ∧
    ∃ L d s,
      Generate.locals hugeRowConfig (len [sampleSponsor "a", sampleSponsor "b"])
        (len [sampleSponsor "c"]) = .ok L ∧
      Generate.data sampleExternals sampleClient [sampleSponsor "a", sampleSponsor "b"]
        [sampleSponsor "c"] hugeRowConfig = (["a", "b", "c"], .ok d) ∧
      d.Sponsors[2]? = some s ∧ s.IsActive = false ∧ s.CenterY = -16 ∧
      iadd (iadd (iadd (iadd L.paddingY
        (imul ⌈((len [sampleSponsor "a", sampleSponsor "b"] : Int) : ℚ) /
          ((hugeRowConfig.AvatarsPerRow : Int) : ℚ)⌉ L.rowHeight)) 40)
        (imul (((2 - 2 : Nat) : Int) / hugeRowConfig.AvatarsPerRow) L.rowHeight))
        (wrap (Int.tdiv hugeRowConfig.AvatarSize 2)) = 168 := by
  have hceil : ⌈((len [sampleSponsor "a", sampleSponsor "b"] : Int) : ℚ) /
      ((hugeRowConfig.AvatarsPerRow : Int) : ℚ)⌉ = 1 := by
    rw [Int.ceil_eq_iff]
    simp only [len, hugeRowConfig, sampleConfig]
    norm_num
  refine ⟨by decide, Generate.localsOf hugeRowConfig 2 1,
    Generate.dataOf (Generate.localsOf hugeRowConfig 2 1) [sampleSponsor "a", sampleSponsor "b"]
      [sampleSponsor "c"]
      [Generate.placed sampleExternals hugeRowConfig (Generate.localsOf hugeRowConfig 2 1) 2 0
        (sampleSponsor "a") [65, 66],
       Generate.placed sampleExternals hugeRowConfig (Generate.localsOf hugeRowConfig 2 1) 2 1
        (sampleSponsor "b") [65, 66],
       Generate.placed sampleExternals hugeRowConfig (Generate.localsOf hugeRowConfig 2 1) 2 2
        (sampleSponsor "c") [65, 66]],
    _, rfl, rfl, rfl, rfl, rfl, ?_⟩
  rw [hceil]
  rfl

/-- C2, amended: for `AvatarsPerRow >= 1` such that `len(active) + AvatarsPerRow - 1` fits
a 64-bit `int` (and a total sponsor count that fits an `int`, as every Go slice length
does), the rendered sponsor at global index `j` has, if active,
`CenterX = paddingX + (j % AvatarsPerRow)*(AvatarSize+Margin) + AvatarSize/2` and
`CenterY = paddingY + (j / AvatarsPerRow)*rowHeight + AvatarSize/2`, and if expired, with
`k = j - len(active)`,
`CenterX = paddingX + (k % AvatarsPerRow)*(AvatarSize+Margin) + AvatarSize/2` and
`CenterY = paddingY + ceil(len(active)/AvatarsPerRow)*rowHeight + (40 if len(active) > 0
else 0) + (k / AvatarsPerRow)*rowHeight + AvatarSize/2`; sums and products are Go `int`
operations. -/
theorem C2_centre_formulas {F : Type} (X : Externals F) (client : Client)
    (a ex : List (Sponsor F)) (cfg : Config F) (L : Locals) (log : List String)
    (d : TemplateData F) (j : Nat) (s : Sponsor F)
    (hp : 1 ≤ cfg.AvatarsPerRow)
    (hov : len a + cfg.AvatarsPerRow - 1 ≤ 9223372036854775807)
    (hlen : len a + len ex ≤ 9223372036854775807)
    (hL : Generate.locals cfg (len a) (len ex) = .ok L)
    (hd : Generate.data X client a ex cfg = (log, .ok d))
    (hs : d.Sponsors[j]? = some s) :
    (j < a.length →
      s.IsActive = true ∧
      s.CenterX = iadd (iadd L.paddingX
        (imul ((j : Int) % cfg.AvatarsPerRow) (iadd cfg.AvatarSize cfg.Margin)))
        (wrap (Int.tdiv cfg.AvatarSize 2)) ∧
      s.CenterY = iadd (iadd L.paddingY (imul ((j : Int) / cfg.AvatarsPerRow) L.rowHeight))
        (wrap (Int.tdiv cfg.AvatarSize 2))) ∧
    (a.length ≤ j →
      s.IsActive = false ∧
      s.CenterX = iadd (iadd L.paddingX
        (imul (((j - a.length : Nat) : Int) % cfg.AvatarsPerRow)
          (iadd cfg.AvatarSize cfg.Margin)))
        (wrap (Int.tdiv cfg.AvatarSize 2)) ∧
      s.CenterY = iadd (iadd (iadd (iadd L.paddingY
        (imul ⌈((len a : Int) : ℚ) / (cfg.AvatarsPerRow : ℚ)⌉ L.rowHeight))
        (if 0 < a.length then 40 else 0))
        (imul (((j - a.length : Nat) : Int) / cfg.AvatarsPerRow) L.rowHeight))
        (wrap (Int.tdiv cfg.AvatarSize 2))) := by
  obtain ⟨hj, src, img, _, rfl⟩ := data_sponsor_at hd hL hs
  obtain ⟨_, _, _, hLeq⟩ := locals_inv hL
  have hla : len a = (a.length : Int) := rfl
  have hle : len ex = (ex.length : Int) := rfl
  constructor
  · intro hja
    have hlt : (j : Int) < len a := by rw [hla]; exact_mod_cast hja
    obtain ⟨hx, hy⟩ := placed_centre_active X cfg L (len a) j src img hlt
    rw [@tmod_exact (j : Int) cfg.AvatarsPerRow (by omega) (by omega) (by omega)] at hx
    rw [@tdiv_exact (j : Int) cfg.AvatarsPerRow (by omega) (by omega) (by omega)] at hy
    exact ⟨by simp [hlt], hx, hy⟩
  · intro hja
    have hlt : ¬ (j : Int) < len a := by rw [hla]; omega
    obtain ⟨hx, hy⟩ := placed_centre_expired X cfg L (len a) j src img hlt
    have hk : isub (j : Int) (len a) = ((j - a.length : Nat) : Int) := by
      unfold isub wrap; omega
    have hla0 : 0 ≤ len a := by rw [hla]; omega
    rw [hk, @tmod_exact ((j - a.length : Nat) : Int) cfg.AvatarsPerRow (by omega) (by omega)
      (by omega)] at hx
    rw [hk, @tdiv_exact ((j - a.length : Nat) : Int) cfg.AvatarsPerRow (by omega) (by omega)
      (by omega), rows_exact hla0 hp hov, ceilDiv_eq_ceil (len a) hp] at hy
    have hsep : (if len a > 0 then L.separatorHeight else 0) =
        (if 0 < a.length then (40 : Int) else 0) := by
      rw [hLeq]
      simp only [Generate.localsOf, hla, hle]
      by_cases h0 : 0 < a.length
      · have : 0 < ex.length := by omega
        simp [h0, this]
      · simp [h0]
    rw [hsep] at hy
    exact ⟨by simp [hlt], hx, hy⟩

/-- C2, amended, at the sample configuration: the expired sponsor behind two active ones. -/
theorem C2_centre_formulas_witness :
    1 ≤ sampleConfig.AvatarsPerRow ∧
    len [sampleSponsor "a", sampleSponsor "b"] + sampleConfig.AvatarsPerRow - 1 ≤
      9223372036854775807 ∧
    len [sampleSponsor "a", sampleSponsor "b"] + len [sampleSponsor "c"] ≤
      9223372036854775807 ∧
    Generate.locals sampleConfig (len [sampleSponsor "a", sampleSponsor "b"])
      (len [sampleSponsor "c"]) = .ok (Generate.localsOf sampleConfig 2 1) ∧
    Generate.data sampleExternals sampleClient [sampleSponsor "a", sampleSponsor "b"]
      [sampleSponsor "c"] sampleConfig =
        (["a", "b", "c"], .ok (Generate.dataOf (Generate.localsOf sampleConfig 2 1)
          [sampleSponsor "a", sampleSponsor "b"] [sampleSponsor "c"]
          [Generate.placed sampleExternals sampleConfig (Generate.localsOf sampleConfig 2 1) 2 0
            (sampleSponsor "a") [65, 66],
           Generate.placed sampleExternals sampleConfig (Generate.localsOf sampleConfig 2 1) 2 1
            (sampleSponsor "b") [65, 66],
           Generate.placed sampleExternals sampleConfig (Generate.localsOf sampleConfig 2 1) 2 2
            (sampleSponsor "c") [65, 66]])) ∧
    (2 < [sampleSponsor "a", sampleSponsor "b"].length →
      (Generate.placed sampleExternals sampleConfig (Generate.localsOf sampleConfig 2 1) 2 2
        (sampleSponsor "c") [65, 66]).IsActive = true ∧
      (Generate.placed sampleExternals sampleConfig (Generate.localsOf sampleConfig 2 1) 2 2
        (sampleSponsor "c") [65, 66]).CenterX =
        iadd (iadd (Generate.localsOf sampleConfig 2 1).paddingX
          (imul (((2 : Nat) : Int) % sampleConfig.AvatarsPerRow)
            (iadd sampleConfig.AvatarSize sampleConfig.Margin)))
          (wrap (Int.tdiv sampleConfig.AvatarSize 2)) ∧
      (Generate.placed sampleExternals sampleConfig (Generate.localsOf sampleConfig 2 1) 2 2
        (sampleSponsor "c") [65, 66]).CenterY =
        iadd (iadd (Generate.localsOf sampleConfig 2 1).paddingY
          (imul (((2 : Nat) : Int) / sampleConfig.AvatarsPerRow)
            (Generate.localsOf sampleConfig 2 1).rowHeight))
          (wrap (Int.tdiv sampleConfig.AvatarSize 2))) ∧
    ([sampleSponsor "a", sampleSponsor "b"].length ≤ 2 →
      (Generate.placed sampleExternals sampleConfig (Generate.localsOf sampleConfig 2 1) 2 2
        (sampleSponsor "c") [65, 66]).IsActive = false ∧
      (Generate.placed sampleExternals sampleConfig (Generate.localsOf sampleConfig 2 1) 2 2
        (sampleSponsor "c") [65, 66]).CenterX =
        iadd (iadd (Generate.localsOf sampleConfig 2 1).paddingX
          (imul (((2 - [sampleSponsor "a", sampleSponsor "b"].length : Nat) : Int) %
            sampleConfig.AvatarsPerRow) (iadd sampleConfig.AvatarSize sampleConfig.Margin)))
          (wrap (Int.tdiv sampleConfig.AvatarSize 2)) ∧
      (Generate.placed sampleExternals sampleConfig (Generate.localsOf sampleConfig 2 1) 2 2
        (sampleSponsor "c") [65, 66]).CenterY =
        iadd (iadd (iadd (iadd (Generate.localsOf sampleConfig 2 1).paddingY
          (imul ⌈((len [sampleSponsor "a", sampleSponsor "b"] : Int) : ℚ) /
            (sampleConfig.AvatarsPerRow : ℚ)⌉ (Generate.localsOf sampleConfig 2 1).rowHeight))
          (if 0 < [sampleSponsor "a", sampleSponsor "b"].length then 40 else 0))
          (imul (((2 - [sampleSponsor "a", sampleSponsor "b"].length : Nat) : Int) /
            sampleConfig.AvatarsPerRow) (Generate.localsOf sampleConfig 2 1).rowHeight))
          (wrap (Int.tdiv sampleConfig.AvatarSize 2))) :=
  ⟨by decide, by decide, by decide, rfl, rfl,
    C2_centre_formulas sampleExternals sampleClient [sampleSponsor "a", sampleSponsor "b"]
      [sampleSponsor "c"] sampleConfig (Generate.localsOf sampleConfig 2 1) ["a", "b", "c"] _ 2
      _ (by decide) (by decide) (by decide) rfl rfl rfl⟩

/-! ## C9: one sponsor per cell -/

/-- C9, as stated, fails in its second part: with `AvatarSize + Margin = 2^62`
(positive), a positive `rowHeight` and five columns, the active sponsors 0 and 4 occupy
the different cells `(0, 0)` and `(0, 4)` but get the same centre, because
`4 * 2^62` wraps to 0. -/
theorem C9_centres_collide :
    wideCellConfig.InRange ∧ 1 ≤ wideCellConfig.AvatarsPerRow ∧
    0 < iadd wideCellConfig.AvatarSize wideCellConfig.Margin ∧
    ∃ L d s0 s4,
      Generate.locals wideCellConfig (len fiveSponsors) (len ([] : List (Sponsor Nat))) =
        .ok L ∧
      0 < L.rowHeight ∧
      Generate.data sampleExternals sampleClient fiveSponsors [] wideCellConfig =
        (["a", "b", "c", "d", "e"], .ok d) ∧
      d.Sponsors[0]? = some s0 ∧ d.Sponsors[4]? = some s4 ∧
      s0.IsActive = true ∧ s4.IsActive = true ∧ s0.Index = 0 ∧ s4.Index = 4 ∧
      processSponsor.cellOf wideCellConfig 0 true 5 = (0, 0) ∧
      processSponsor.cellOf wideCellConfig 4 true 5 = (0, 4) ∧
      (s0.CenterX, s0.CenterY) = (s4.CenterX, s4.CenterY) := by
  refine ⟨by decide, by decide, by decide, Generate.localsOf wideCellConfig 5 0,
    Generate.dataOf (Generate.localsOf wideCellConfig 5 0) fiveSponsors []
      [Generate.placed sampleExternals wideCellConfig (Generate.localsOf wideCellConfig 5 0) 5 0
        (sampleSponsor "a") [65, 66],
       Generate.placed sampleExternals wideCellConfig (Generate.localsOf wideCellConfig 5 0) 5 1
        (sampleSponsor "b") [65, 66],
       Generate.placed sampleExternals wideCellConfig (Generate.localsOf wideCellConfig 5 0) 5 2
        (sampleSponsor "c") [65, 66],
       Generate.placed sampleExternals wideCellConfig (Generate.localsOf wideCellConfig 5 0) 5 3
        (sampleSponsor "d") [65, 66],
       Generate.placed sampleExternals wideCellConfig (Generate.localsOf wideCellConfig 5 0) 5 4
        (sampleSponsor "e") [65, 66]],
    _, _, rfl, by decide, rfl, rfl, rfl, rfl, rfl, rfl, rfl, rfl, rfl, rfl⟩

/-- C9, amended: for a configuration of Go `int`s with `AvatarsPerRow >= 1`, two distinct
sponsors of the same group occupy different grid cells
`(k / AvatarsPerRow, k % AvatarsPerRow)`, `k` the group-relative index. Their centres
differ as well when `AvatarSize + Margin > 0`, `rowHeight > 0` and nothing overflows:
`AvatarsPerRow*(AvatarSize+Margin)`, `count + AvatarsPerRow - 1` and
`rows(group)*rowHeight` are at most `2^63 - 1` for both groups. -/
theorem C9_distinct_cells_and_centres {F : Type} (X : Externals F) (client : Client)
    (a ex : List (Sponsor F)) (cfg : Config F) (L : Locals) (log : List String)
    (d : TemplateData F) (j1 j2 : Nat) (s1 s2 : Sponsor F)
    (hr : cfg.InRange) (hp : 1 ≤ cfg.AvatarsPerRow)
    (hlen : len a + len ex ≤ 9223372036854775807)
    (hL : Generate.locals cfg (len a) (len ex) = .ok L)
    (hd : Generate.data X client a ex cfg = (log, .ok d))
    (h1 : d.Sponsors[j1]? = some s1) (h2 : d.Sponsors[j2]? = some s2)
    (hne : j1 ≠ j2) (hg : s1.IsActive = s2.IsActive) :
    processSponsor.cellOf cfg (j1 : Int) s1.IsActive (len a) =
      (groupIndex (j1 : Int) (len a) / cfg.AvatarsPerRow,
       groupIndex (j1 : Int) (len a) % cfg.AvatarsPerRow) ∧
    processSponsor.cellOf cfg (j2 : Int) s2.IsActive (len a) =
      (groupIndex (j2 : Int) (len a) / cfg.AvatarsPerRow,
       groupIndex (j2 : Int) (len a) % cfg.AvatarsPerRow) ∧
    processSponsor.cellOf cfg (j1 : Int) s1.IsActive (len a) ≠
      processSponsor.cellOf cfg (j2 : Int) s2.IsActive (len a) ∧
    (0 < cfg.AvatarSize + cfg.Margin →
      0 < cfg.AvatarSize + cfg.Margin + L.fontSize + 10 →
      cfg.AvatarsPerRow * (cfg.AvatarSize + cfg.Margin) ≤ 9223372036854775807 →
      len a + cfg.AvatarsPerRow - 1 ≤ 9223372036854775807 →
      len ex + cfg.AvatarsPerRow - 1 ≤ 9223372036854775807 →
      L.numActiveRows * (cfg.AvatarSize + cfg.Margin + L.fontSize + 10) ≤
        9223372036854775807 →
      L.numExpiredRows * (cfg.AvatarSize + cfg.Margin + L.fontSize + 10) ≤
        9223372036854775807 →
      (s1.CenterX, s1.CenterY) ≠ (s2.CenterX, s2.CenterY)) := by
  obtain ⟨hj1, src1, img1, _, rfl⟩ := data_sponsor_at hd hL h1
  obtain ⟨hj2, src2, img2, _, rfl⟩ := data_sponsor_at hd hL h2
  obtain ⟨_, _, _, hLeq⟩ := locals_inv hL
  simp only [placed_IsActive] at hg ⊢
  have hla : len a = (a.length : Int) := rfl
  have hle : len ex = (ex.length : Int) := rfl
  have hg2 : ((j1 : Int) < len a ↔ (j2 : Int) < len a) := by simpa using hg
  have hb : cfg.AvatarsPerRow ≤ 9223372036854775808 := by
    have := hr.2.2.2.2.2
    unfold InInt64 at this
    omega
  have hc1 := cellOf_exact cfg j1 (len a) hp hb (by omega) (by omega)
  have hc2 := cellOf_exact cfg j2 (len a) hp hb (by omega) (by omega)
  have hk : groupIndex (j1 : Int) (len a) ≠ groupIndex (j2 : Int) (len a) := by
    unfold groupIndex
    split_ifs <;> omega
  have hcell : (groupIndex (j1 : Int) (len a) / cfg.AvatarsPerRow,
      groupIndex (j1 : Int) (len a) % cfg.AvatarsPerRow) ≠
      (groupIndex (j2 : Int) (len a) / cfg.AvatarsPerRow,
       groupIndex (j2 : Int) (len a) % cfg.AvatarsPerRow) :=
    fun h => hk (cell_injective h)
  refine ⟨hc1, hc2, by rw [hc1, hc2]; exact hcell, ?_⟩
  intro hS hE hW hoa hoe hHa hHe hcen
  obtain ⟨hx1, hy1⟩ := placed_centre X cfg L (len a) j1 src1 img1
  obtain ⟨hx2, hy2⟩ := placed_centre X cfg L (len a) j2 src2 img2
  simp only [Prod.mk.injEq] at hcen
  obtain ⟨hcx, hcy⟩ := hcen
  rw [hx1, hx2, hc1, hc2] at hcx
  rw [hy1, hy2, hc1, hc2, hg] at hcy
  simp only at hcx hcy
  obtain ⟨hk1a, hk1b⟩ := @groupIndex_bounds (j1 : Int) (len a) (len ex) (by omega) (by omega)
  obtain ⟨hk2a, hk2b⟩ := @groupIndex_bounds (j2 : Int) (len a) (len ex) (by omega) (by omega)
  have hp0 : (0 : Int) < cfg.AvatarsPerRow := by omega
  -- the cell width is exact
  have hSle : cfg.AvatarSize + cfg.Margin ≤
      cfg.AvatarsPerRow * (cfg.AvatarSize + cfg.Margin) := by
    have := Int.mul_le_mul_of_nonneg_right hp (Int.le_of_lt hS)
    simpa using this
  have hSe : iadd cfg.AvatarSize cfg.Margin = cfg.AvatarSize + cfg.Margin :=
    wrap_eq_self (by unfold InInt64; omega)
  -- columns
  have hcol : ∀ k : Int, 0 ≤ k →
      0 ≤ k % cfg.AvatarsPerRow * (cfg.AvatarSize + cfg.Margin) ∧
      k % cfg.AvatarsPerRow * (cfg.AvatarSize + cfg.Margin) ≤ 9223372036854775807 := by
    intro k _
    have h0 : 0 ≤ k % cfg.AvatarsPerRow := Int.emod_nonneg k (by omega)
    have h1 : k % cfg.AvatarsPerRow ≤ cfg.AvatarsPerRow :=
      Int.le_of_lt (Int.emod_lt_of_pos k hp0)
    have h2 := Int.mul_le_mul_of_nonneg_right h1 (Int.le_of_lt hS)
    exact ⟨Int.mul_nonneg h0 (Int.le_of_lt hS), by omega⟩
  rw [hSe] at hcx
  have hcols := Int.eq_of_mul_eq_mul_right (Int.ne_of_gt hS)
    (iadd_imul_cancel (hcol _ hk1a).1 (hcol _ hk1a).2 (hcol _ hk2a).1 (hcol _ hk2a).2 hcx)
  -- rows
  have hrA : L.numActiveRows = (len a + cfg.AvatarsPerRow - 1) / cfg.AvatarsPerRow := by
    rw [hLeq]; exact rows_exact (by omega) hp hoa
  have hrE : L.numExpiredRows = (len ex + cfg.AvatarsPerRow - 1) / cfg.AvatarsPerRow := by
    rw [hLeq]; exact rows_exact (by omega) hp hoe
  have hrow : ∀ j : Int, 0 ≤ groupIndex j (len a) →
      groupIndex j (len a) < (if j < len a then len a else len ex) →
      ((j1 : Int) < len a ↔ j < len a) →
      0 ≤ groupIndex j (len a) / cfg.AvatarsPerRow *
        (cfg.AvatarSize + cfg.Margin + L.fontSize + 10) ∧
      groupIndex j (len a) / cfg.AvatarsPerRow *
        (cfg.AvatarSize + cfg.Margin + L.fontSize + 10) ≤ 9223372036854775807 := by
    intro j h0 hlt _
    have hq0 : 0 ≤ groupIndex j (len a) / cfg.AvatarsPerRow :=
      Int.ediv_nonneg h0 (by omega)
    refine ⟨Int.mul_nonneg hq0 (Int.le_of_lt hE), ?_⟩
    by_cases hact : j < len a
    · rw [if_pos hact] at hlt
      have hq : groupIndex j (len a) / cfg.AvatarsPerRow ≤ L.numActiveRows := by
        rw [hrA]; exact Int.ediv_le_ediv hp0 (by omega)
      have := Int.mul_le_mul_of_nonneg_right hq (Int.le_of_lt hE)
      omega
    · rw [if_neg hact] at hlt
      have hq : groupIndex j (len a) / cfg.AvatarsPerRow ≤ L.numExpiredRows := by
        rw [hrE]; exact Int.ediv_le_ediv hp0 (by omega)
      have := Int.mul_le_mul_of_nonneg_right hq (Int.le_of_lt hE)
      omega
  obtain ⟨hr1a, hr1b⟩ := hrow (j1 : Int) hk1a hk1b Iff.rfl
  obtain ⟨hr2a, hr2b⟩ := hrow (j2 : Int) hk2a hk2b hg2
  have hEle : cfg.AvatarSize + cfg.Margin + L.fontSize + 10 ≤ 9223372036854775807 := by
    by_cases hact : (j1 : Int) < len a
    · rw [if_pos hact] at hk1b
      have hq : 1 ≤ L.numActiveRows := by
        rw [hrA]; exact Int.le_ediv_of_mul_le hp0 (by omega)
      have := Int.mul_le_mul_of_nonneg_right hq (Int.le_of_lt hE)
      omega
    · rw [if_neg hact] at hk1b
      have hq : 1 ≤ L.numExpiredRows := by
        rw [hrE]; exact Int.le_ediv_of_mul_le hp0 (by omega)
      have := Int.mul_le_mul_of_nonneg_right hq (Int.le_of_lt hE)
      omega
  have hEe : L.rowHeight = cfg.AvatarSize + cfg.Margin + L.fontSize + 10 := by
    rw [hLeq]
    rw [hLeq] at hE hEle
    exact rowHeight_exact (by
      unfold InInt64
      simp only [Generate.localsOf] at hE hEle ⊢
      omega)
  rw [hEe] at hcy
  have hrows := Int.eq_of_mul_eq_mul_right (Int.ne_of_gt hE)
    (iadd_imul_cancel hr1a hr1b hr2a hr2b hcy)
  exact hcell (Prod.ext hrows hcols)

/-- C9, amended, at the sample input: the two active sponsors. -/
theorem C9_distinct_cells_and_centres_witness :
    sampleConfig.InRange ∧ 1 ≤ sampleConfig.AvatarsPerRow ∧
    len sampleActive + len sampleExpired ≤ 9223372036854775807 ∧
    Generate.locals sampleConfig (len sampleActive) (len sampleExpired) = .ok sampleLocals ∧
    Generate.data sampleExternals sampleClient sampleActive sampleExpired sampleConfig =
      (["a", "b", "c"], .ok sampleData) ∧
    sampleData.Sponsors[0]? = some (samplePlaced 0 "a") ∧
    sampleData.Sponsors[1]? = some (samplePlaced 1 "b") ∧
    (0 : Nat) ≠ 1 ∧ (samplePlaced 0 "a").IsActive = (samplePlaced 1 "b").IsActive ∧
    processSponsor.cellOf sampleConfig ((0 : Nat) : Int) (samplePlaced 0 "a").IsActive
        (len sampleActive) ≠
      processSponsor.cellOf sampleConfig ((1 : Nat) : Int) (samplePlaced 1 "b").IsActive
        (len sampleActive) ∧
    ((samplePlaced 0 "a").CenterX, (samplePlaced 0 "a").CenterY) ≠
      ((samplePlaced 1 "b").CenterX, (samplePlaced 1 "b").CenterY) :=
  ⟨by decide, by decide, by decide, rfl, rfl, rfl, rfl, by decide, rfl,
    (C9_distinct_cells_and_centres sampleExternals sampleClient sampleActive sampleExpired
      sampleConfig sampleLocals ["a", "b", "c"] sampleData 0 1 (samplePlaced 0 "a")
      (samplePlaced 1 "b") (by decide) (by decide) (by decide) rfl rfl rfl rfl (by decide)
      rfl).2.2.1,
    (C9_distinct_cells_and_centres sampleExternals sampleClient sampleActive sampleExpired
      sampleConfig sampleLocals ["a", "b", "c"] sampleData 0 1 (samplePlaced 0 "a")
      (samplePlaced 1 "b") (by decide) (by decide) (by decide) rfl rfl rfl rfl (by decide)
      rfl).2.2.2 (by decide) (by decide) (by decide) (by decide) (by decide) (by decide)
      (by decide)⟩

/-! ## C10: placements lie inside the canvas -/

/-- C10, as stated, fails: with `AvatarSize = 2^62`, `FontSizeScale = 1` (so
`fontSize = 2^62 >= 1`), `Margin = 0`, one column and no padding, the row height
`2^63 + 10` wraps to a negative number; the single sponsor has `CenterY = 2^61` while
the canvas height is `-2^63 + 10`. -/
theorem C10_centre_outside_canvas :
    tallRowConfig.InRange ∧ 1 ≤ tallRowConfig.AvatarSize ∧ 0 ≤ tallRowConfig.Margin ∧
    1 ≤ tallRowConfig.AvatarsPerRow ∧ 0 ≤ tallRowConfig.PaddingXScale ∧
    0 ≤ tallRowConfig.PaddingYScale ∧
    ∃ L d s,
      Generate.locals tallRowConfig (len [sampleSponsor "a"])
        (len ([] : List (Sponsor Nat))) = .ok L ∧
      1 ≤ L.fontSize ∧
      Generate.data sampleExternals sampleClient [sampleSponsor "a"] [] tallRowConfig =
        (["a"], .ok d) ∧
      d.Sponsors[0]? = some s ∧
      s.CenterY = 2305843009213693952 ∧ d.Height = -9223372036854775798 ∧
      ¬ (s.CenterY < d.Height) := by
  refine ⟨by decide, by decide, by decide, by decide, by decide, by decide,
    Generate.localsOf tallRowConfig 1 0,
    Generate.dataOf (Generate.localsOf tallRowConfig 1 0) [sampleSponsor "a"] []
      [Generate.placed sampleExternals tallRowConfig (Generate.localsOf tallRowConfig 1 0) 1 0
        (sampleSponsor "a") [65, 66]],
    _, rfl, by decide, rfl, rfl, rfl, rfl, by decide⟩

/-- C10, amended: for a configuration of Go `int`s with `AvatarSize >= 1`,
`fontSize >= 1`, `Margin >= 0` and `AvatarsPerRow >= 1`, and provided none of the canvas
computations overflows (`Generate.NoOverflow`; the total sponsor count fits an `int`, as
every Go slice length does), every sponsor placed by `Generate` lies
inside the canvas, `0 <= CenterX < width` and `0 <= CenterY < height`, and its row index
is smaller than the row count of its group. -/
theorem C10_placement_inside_canvas {F : Type} (X : Externals F) (client : Client)
    (a ex : List (Sponsor F)) (cfg : Config F) (L : Locals) (log : List String)
    (d : TemplateData F) (j : Nat) (s : Sponsor F)
    (hr : cfg.InRange) (hA : 1 ≤ cfg.AvatarSize) (hf : 1 ≤ L.fontSize)
    (hM : 0 ≤ cfg.Margin) (hp : 1 ≤ cfg.AvatarsPerRow)
    (hlen : len a + len ex ≤ 9223372036854775807)
    (hov : Generate.NoOverflow cfg L (len a) (len ex))
    (hL : Generate.locals cfg (len a) (len ex) = .ok L)
    (hd : Generate.data X client a ex cfg = (log, .ok d))
    (hs : d.Sponsors[j]? = some s) :
    0 ≤ s.CenterX ∧ s.CenterX < d.Width ∧ 0 ≤ s.CenterY ∧ s.CenterY < d.Height ∧
    (processSponsor.cellOf cfg (j : Int) s.IsActive (len a)).1 <
      (if s.IsActive then L.numActiveRows else L.numExpiredRows) := by
  obtain ⟨hj, src, img, _, rfl⟩ := data_sponsor_at hd hL hs
  have hdd := (data_sponsors hd hL).1
  have hla : len a = (a.length : Int) := rfl
  have hle : len ex = (ex.length : Int) := rfl
  obtain ⟨hpx0, hpy0, hSe, hRe, hEe, hra, hre, hah, heh, hah0, heh0, hsep, hh, hhle, hw, hwle⟩ :=
    locals_exact hL hr hA hf hM hp (by omega) (by omega) (by omega) hov
  obtain ⟨hoa, hoe, hoW, hoH⟩ := hov
  have hsepdef := (locals_fields hL).2.2.2.2.2.2.2.2.1
  have hb : cfg.AvatarsPerRow ≤ 9223372036854775808 := by omega
  have hp0 : (0 : Int) < cfg.AvatarsPerRow := by omega
  have hc := cellOf_exact cfg j (len a) hp hb (by omega) (by omega)
  obtain ⟨hk0, hk1⟩ := @groupIndex_bounds (j : Int) (len a) (len ex) (by omega) (by omega)
  obtain ⟨hx, hy⟩ := placed_centre X cfg L (len a) j src img
  have hW : d.Width = L.width := by rw [hdd]; rfl
  have hH : d.Height = L.height := by rw [hdd]; rfl
  have hah2 : L.activeHeight =
      L.numActiveRows * (cfg.AvatarSize + cfg.Margin + L.fontSize + 10) := by rw [hah, hEe]
  have heh2 : L.expiredHeight =
      L.numExpiredRows * (cfg.AvatarSize + cfg.Margin + L.fontSize + 10) := by rw [heh, hEe]
  -- the radius
  have hR0 : 0 ≤ cfg.AvatarSize / 2 := Int.ediv_nonneg (by omega) (by decide)
  have hR1 : cfg.AvatarSize / 2 < cfg.AvatarSize := by omega
  -- the column
  have hc0 : 0 ≤ groupIndex (j : Int) (len a) % cfg.AvatarsPerRow :=
    Int.emod_nonneg _ (by omega)
  have hc1 : groupIndex (j : Int) (len a) % cfg.AvatarsPerRow + 1 ≤ cfg.AvatarsPerRow :=
    Int.emod_lt_of_pos _ hp0
  have hS0 : 0 ≤ cfg.AvatarSize + cfg.Margin := by omega
  have hP0 : 0 ≤ groupIndex (j : Int) (len a) % cfg.AvatarsPerRow *
      (cfg.AvatarSize + cfg.Margin) := Int.mul_nonneg hc0 hS0
  have hP1 : groupIndex (j : Int) (len a) % cfg.AvatarsPerRow *
      (cfg.AvatarSize + cfg.Margin) + (cfg.AvatarSize + cfg.Margin) ≤
      cfg.AvatarsPerRow * (cfg.AvatarSize + cfg.Margin) := by
    have := Int.mul_le_mul_of_nonneg_right hc1 hS0
    have e : (groupIndex (j : Int) (len a) % cfg.AvatarsPerRow + 1) *
        (cfg.AvatarSize + cfg.Margin) =
        groupIndex (j : Int) (len a) % cfg.AvatarsPerRow * (cfg.AvatarSize + cfg.Margin) +
          (cfg.AvatarSize + cfg.Margin) := by ring
    omega
  -- the row
  have hE0 : 0 ≤ cfg.AvatarSize + cfg.Margin + L.fontSize + 10 := by omega
  have hq0 : 0 ≤ groupIndex (j : Int) (len a) / cfg.AvatarsPerRow :=
    Int.ediv_nonneg hk0 (by omega)
  have hrowlt : ∀ n : Int, groupIndex (j : Int) (len a) < n →
      groupIndex (j : Int) (len a) / cfg.AvatarsPerRow + 1 ≤
        (n + cfg.AvatarsPerRow - 1) / cfg.AvatarsPerRow := by
    intro n hn
    have e : (n + cfg.AvatarsPerRow - 1) / cfg.AvatarsPerRow =
        (n - 1) / cfg.AvatarsPerRow + 1 := by
      have := Int.add_mul_ediv_right (n - 1) 1 (Int.ne_of_gt hp0)
      rw [one_mul] at this
      rw [← this]
      congr 1
      ring
    rw [e]
    have := Int.ediv_le_ediv hp0 (show groupIndex (j : Int) (len a) ≤ n - 1 by omega)
    omega
  have hT0 : 0 ≤ groupIndex (j : Int) (len a) / cfg.AvatarsPerRow *
      (cfg.AvatarSize + cfg.Margin + L.fontSize + 10) := Int.mul_nonneg hq0 hE0
  have hTstep : ∀ rows : Int,
      groupIndex (j : Int) (len a) / cfg.AvatarsPerRow + 1 ≤ rows →
      groupIndex (j : Int) (len a) / cfg.AvatarsPerRow *
        (cfg.AvatarSize + cfg.Margin + L.fontSize + 10) +
        (cfg.AvatarSize + cfg.Margin + L.fontSize + 10) ≤
      rows * (cfg.AvatarSize + cfg.Margin + L.fontSize + 10) := by
    intro rows hrows
    have := Int.mul_le_mul_of_nonneg_right hrows hE0
    have e : (groupIndex (j : Int) (len a) / cfg.AvatarsPerRow + 1) *
        (cfg.AvatarSize + cfg.Margin + L.fontSize + 10) =
        groupIndex (j : Int) (len a) / cfg.AvatarsPerRow *
          (cfg.AvatarSize + cfg.Margin + L.fontSize + 10) +
          (cfg.AvatarSize + cfg.Margin + L.fontSize + 10) := by ring
    omega
  have hdist : (L.numActiveRows + L.numExpiredRows) *
      (cfg.AvatarSize + cfg.Margin + L.fontSize + 10) =
      L.numActiveRows * (cfg.AvatarSize + cfg.Margin + L.fontSize + 10) +
      L.numExpiredRows * (cfg.AvatarSize + cfg.Margin + L.fontSize + 10) := by ring
  rw [hah2] at hah0
  rw [heh2] at heh0
  rw [hdist] at hoH
  -- the base of the group
  have hbase : processSponsor.baseY cfg L (decide ((j : Int) < len a)) (len a) =
      (if (j : Int) < len a then L.paddingY
       else L.paddingY +
          L.numActiveRows * (cfg.AvatarSize + cfg.Margin + L.fontSize + 10) +
          L.separatorHeight) := by
    by_cases hact : (j : Int) < len a
    · simp only [processSponsor.baseY, hact, decide_True, if_true]
    · simp only [processSponsor.baseY, hact, decide_False, if_false, Bool.false_eq_true]
      rw [rows_exact (by omega) hp hoa, ← hra, hEe]
      have hs2 : (if len a > 0 then L.separatorHeight else 0) = L.separatorHeight := by
        by_cases h0 : len a > 0
        · rw [if_pos h0]
        · rw [if_neg h0, hsepdef]
          simp [h0]
      rw [hs2]
      clear hx hy hc hW hH hdd hsepdef hs2 hTstep hrowlt hL hd hs
      unfold iadd imul wrap
      omega
  have hrow : groupIndex (j : Int) (len a) / cfg.AvatarsPerRow + 1 ≤
      (if (j : Int) < len a then L.numActiveRows else L.numExpiredRows) := by
    by_cases hact : (j : Int) < len a
    · rw [if_pos hact] at hk1 ⊢
      rw [hra]; exact hrowlt (len a) hk1
    · rw [if_neg hact] at hk1 ⊢
      rw [hre]; exact hrowlt (len ex) hk1
  have hT1 := hTstep _ hrow
  simp only [placed_IsActive, decide_eq_true_eq]
  rw [hx, hy, hc, hW, hH, hSe, hRe, hEe, hbase, hh, hw, hah2, heh2]
  simp only
  clear hx hy hc hW hH hdd hsepdef hTstep hrowlt hL hd hs hbase hh hw hah2 heh2 hah heh hra hre
  by_cases hact : (j : Int) < len a
  · simp only [if_pos hact] at hrow hT1 ⊢
    refine ⟨?_, ?_, ?_, ?_, by omega⟩
    all_goals (unfold iadd imul wrap; omega)
  · simp only [if_neg hact] at hrow hT1 ⊢
    refine ⟨?_, ?_, ?_, ?_, by omega⟩
    all_goals (unfold iadd imul wrap; omega)

/-- C10, amended, at the sample input: the expired sponsor. -/
theorem C10_placement_inside_canvas_witness :
    sampleConfig.InRange ∧ 1 ≤ sampleConfig.AvatarSize ∧ 1 ≤ sampleLocals.fontSize ∧
    0 ≤ sampleConfig.Margin ∧ 1 ≤ sampleConfig.AvatarsPerRow ∧
    len sampleActive + len sampleExpired ≤ 9223372036854775807 ∧
    Generate.NoOverflow sampleConfig sampleLocals (len sampleActive) (len sampleExpired) ∧
    Generate.locals sampleConfig (len sampleActive) (len sampleExpired) = .ok sampleLocals ∧
    Generate.data sampleExternals sampleClient sampleActive sampleExpired sampleConfig =
      (["a", "b", "c"], .ok sampleData) ∧
    sampleData.Sponsors[2]? = some (samplePlaced 2 "c") ∧
    0 ≤ (samplePlaced 2 "c").CenterX ∧ (samplePlaced 2 "c").CenterX < sampleData.Width ∧
    0 ≤ (samplePlaced 2 "c").CenterY ∧ (samplePlaced 2 "c").CenterY < sampleData.Height ∧
    (processSponsor.cellOf sampleConfig ((2 : Nat) : Int) (samplePlaced 2 "c").IsActive
        (len sampleActive)).1 <
      (if (samplePlaced 2 "c").IsActive then sampleLocals.numActiveRows
        else sampleLocals.numExpiredRows) :=
  ⟨by decide, by decide, by decide, by decide, by decide, by decide, by decide, rfl, rfl, rfl,
    C10_placement_inside_canvas sampleExternals sampleClient sampleActive sampleExpired
      sampleConfig sampleLocals ["a", "b", "c"] sampleData 2 (samplePlaced 2 "c") (by decide)
      (by decide) (by decide) (by decide) (by decide) (by decide) (by decide) rfl rfl rfl⟩

/-! ## C13: opacity -/

/-- C13: in every rendered sequence an active sponsor gets `ActiveSponsorOpacity`; an
expired sponsor gets `ActiveSponsorOpacity` when `UseActiveOpacityWhenNoActive` is set and
the active list is empty, and `ExpiredSponsorOpacity` in every other case. In particular,
for an expired-only input with the flag set every sponsor gets `ActiveSponsorOpacity`. -/
theorem C13_opacity_policy {F : Type} (X : Externals F) (client : Client)
    (a ex : List (Sponsor F)) (cfg : Config F) (log : List String) (d : TemplateData F)
    (j : Nat) (s : Sponsor F)
    (hd : Generate.data X client a ex cfg = (log, .ok d))
    (hs : d.Sponsors[j]? = some s) :
    (j < a.length → s.IsActive = true ∧ s.Opacity = cfg.ActiveSponsorOpacity) ∧
    (a.length ≤ j → s.IsActive = false ∧
      s.Opacity = (if cfg.UseActiveOpacityWhenNoActive = true ∧ a.length = 0 then
        cfg.ActiveSponsorOpacity else cfg.ExpiredSponsorOpacity)) ∧
    (a.length = 0 → cfg.UseActiveOpacityWhenNoActive = true →
      s.Opacity = cfg.ActiveSponsorOpacity) := by
  obtain ⟨L, src, img, _, _, _, _, rfl⟩ := data_sponsor_of hd hs
  have hla : len a = (a.length : Int) := rfl
  have h0 : len a = 0 ↔ a.length = 0 := by rw [hla]; omega
  refine ⟨?_, ?_, ?_⟩
  · intro hj
    have : (j : Int) < len a := by rw [hla]; exact_mod_cast hj
    simp [this]
  · intro hj
    have : ¬ (j : Int) < len a := by rw [hla]; omega
    refine ⟨by simp [this], ?_⟩
    rw [placed_Opacity]
    by_cases hz : a.length = 0
    · have h2 : len a = 0 := h0.mpr hz
      cases hu : cfg.UseActiveOpacityWhenNoActive <;> simp [this, h2, hz]
    · have h2 : ¬ len a = 0 := fun h => hz (h0.mp h)
      cases hu : cfg.UseActiveOpacityWhenNoActive <;> simp [this, h2, hz]
  · intro ha hu
    have h1 : ¬ (j : Int) < len a := by rw [hla, ha]; simp
    have h2 : len a = 0 := h0.mpr ha
    simp [h1, h2, hu]

/-- C13 at the sample input: the expired sponsor behind two active ones. -/
theorem C13_opacity_policy_witness :
    Generate.data sampleExternals sampleClient sampleActive sampleExpired sampleConfig =
      (["a", "b", "c"], .ok sampleData) ∧
    sampleData.Sponsors[2]? = some (samplePlaced 2 "c") ∧
    (2 < sampleActive.length →
      (samplePlaced 2 "c").IsActive = true ∧
      (samplePlaced 2 "c").Opacity = sampleConfig.ActiveSponsorOpacity) ∧
    (sampleActive.length ≤ 2 → (samplePlaced 2 "c").IsActive = false ∧
      (samplePlaced 2 "c").Opacity =
        (if sampleConfig.UseActiveOpacityWhenNoActive = true ∧ sampleActive.length = 0 then
          sampleConfig.ActiveSponsorOpacity else sampleConfig.ExpiredSponsorOpacity)) ∧
    (sampleActive.length = 0 → sampleConfig.UseActiveOpacityWhenNoActive = true →
      (samplePlaced 2 "c").Opacity = sampleConfig.ActiveSponsorOpacity) :=
  ⟨rfl, rfl, C13_opacity_policy sampleExternals sampleClient sampleActive sampleExpired
    sampleConfig ["a", "b", "c"] sampleData 2 (samplePlaced 2 "c") rfl rfl⟩

/-! ## C15: the vector to the canvas centre -/

/-- C15: for every rendered sponsor `TranslateX = svgCenterX - CenterX` and
`TranslateY = svgCenterY - CenterY`, where `svgCenterX = width/2` and
`svgCenterY = height/2` by integer division of the width and height handed to the
template; equivalently `CenterX + TranslateX = width/2` and
`CenterY + TranslateY = height/2`. Sums and differences are those of Go `int`. -/
theorem C15_translate_to_centre {F : Type} (X : Externals F) (client : Client)
    (a ex : List (Sponsor F)) (cfg : Config F) (L : Locals) (log : List String)
    (d : TemplateData F) (j : Nat) (s : Sponsor F)
    (hL : Generate.locals cfg (len a) (len ex) = .ok L)
    (hd : Generate.data X client a ex cfg = (log, .ok d))
    (hs : d.Sponsors[j]? = some s) :
    idiv d.Width 2 = .ok L.svgCenterX ∧ idiv d.Height 2 = .ok L.svgCenterY ∧
    s.TranslateX = isub L.svgCenterX s.CenterX ∧
    s.TranslateY = isub L.svgCenterY s.CenterY ∧
    iadd s.CenterX s.TranslateX = L.svgCenterX ∧
    iadd s.CenterY s.TranslateY = L.svgCenterY := by
  obtain ⟨_, src, img, _, rfl⟩ := data_sponsor_at hd hL hs
  have hdd := (data_sponsors hd hL).1
  obtain ⟨_, _, _, _, _, _, _, _, _, _, _, hcx, hcy, _⟩ := locals_fields hL
  obtain ⟨htx, hty⟩ := placed_Translate X cfg L (len a) j src img
  have hW : d.Width = L.width := by rw [hdd]; rfl
  have hH : d.Height = L.height := by rw [hdd]; rfl
  have hrx : InInt64 L.svgCenterX := by rw [hcx]; exact wrap_inInt64 _
  have hry : InInt64 L.svgCenterY := by rw [hcy]; exact wrap_inInt64 _
  refine ⟨by rw [hW, idiv_two, hcx], by rw [hH, idiv_two, hcy], htx, hty, ?_, ?_⟩
  · rw [htx]
    unfold InInt64 at hrx
    unfold iadd isub wrap
    omega
  · rw [hty]
    unfold InInt64 at hry
    unfold iadd isub wrap
    omega

/-- C15 at the sample input: the expired sponsor. -/
theorem C15_translate_to_centre_witness :
    Generate.locals sampleConfig (len sampleActive) (len sampleExpired) = .ok sampleLocals ∧
    Generate.data sampleExternals sampleClient sampleActive sampleExpired sampleConfig =
      (["a", "b", "c"], .ok sampleData) ∧
    sampleData.Sponsors[2]? = some (samplePlaced 2 "c") ∧
    idiv sampleData.Width 2 = .ok sampleLocals.svgCenterX ∧
    idiv sampleData.Height 2 = .ok sampleLocals.svgCenterY ∧
    (samplePlaced 2 "c").TranslateX = isub sampleLocals.svgCenterX (samplePlaced 2 "c").CenterX ∧
    (samplePlaced 2 "c").TranslateY = isub sampleLocals.svgCenterY (samplePlaced 2 "c").CenterY ∧
    iadd (samplePlaced 2 "c").CenterX (samplePlaced 2 "c").TranslateX =
      sampleLocals.svgCenterX ∧
    iadd (samplePlaced 2 "c").CenterY (samplePlaced 2 "c").TranslateY =
      sampleLocals.svgCenterY :=
  ⟨rfl, rfl, rfl, C15_translate_to_centre sampleExternals sampleClient sampleActive
    sampleExpired sampleConfig sampleLocals ["a", "b", "c"] sampleData 2 (samplePlaced 2 "c")
    rfl rfl rfl⟩

/-! ## C14: names -/

/-- C14: for the rendered sponsor that comes from an input sponsor with name `n`,
`OriginalName = n`, and `Name = TruncateStringByWidth(n, nameLimit)` if
`StringWidth(n) > nameLimit` and `Name = n` otherwise, where
`nameLimit = max(5, AvatarSize*2 / fontSize)` in Go `int` arithmetic; so a name of
measured width at most 5 is never truncated, and the `<title>` element of the sponsor's
group carries the un-truncated name. -/
theorem C14_name_is_truncated_title_is_not {F : Type} (X : Externals F) (client : Client)
    (a ex : List (Sponsor F)) (cfg : Config F) (L : Locals) (log : List String)
    (d : TemplateData F) (j : Nat) (s src : Sponsor F)
    (hL : Generate.locals cfg (len a) (len ex) = .ok L)
    (hd : Generate.data X client a ex cfg = (log, .ok d))
    (hs : d.Sponsors[j]? = some s)
    (hsrc : (a ++ ex)[j]? = some src) :
    (∃ q, idiv (imul cfg.AvatarSize 2) L.fontSize = .ok q ∧ L.nameLimit = max 5 q) ∧
    s.OriginalName = src.Name ∧
    s.Name = (if X.StringWidth src.Name > L.nameLimit then
      X.TruncateStringByWidth src.Name L.nameLimit else src.Name) ∧
    (X.StringWidth src.Name ≤ 5 → s.Name = src.Name) ∧
    (∃ pre post, svgTPL.group X d.FontSize s =
      pre ++ ("<title>" ++ (src.Name ++ ("</title>" ++ post)))) := by
  obtain ⟨_, src1, img, hsrc1, rfl⟩ := data_sponsor_at hd hL hs
  rw [hsrc] at hsrc1
  cases hsrc1
  obtain ⟨_, h2, _, hLeq⟩ := locals_inv hL
  have hfs : L.fontSize = wrap (Int.tdiv cfg.AvatarSize cfg.FontSizeScale) := by
    rw [hLeq]; rfl
  have hnl : L.nameLimit =
      (if wrap (Int.tdiv (imul cfg.AvatarSize 2) L.fontSize) < 5 then 5
       else wrap (Int.tdiv (imul cfg.AvatarSize 2) L.fontSize)) := by
    rw [hLeq]; rfl
  have hf0 : L.fontSize ≠ 0 := by rw [hfs]; exact h2
  have hmax : L.nameLimit = max 5 (wrap (Int.tdiv (imul cfg.AvatarSize 2) L.fontSize)) := by
    rw [hnl, max_def]
    split_ifs <;> omega
  have h5 : 5 ≤ L.nameLimit := by rw [hmax]; exact le_max_left _ _
  refine ⟨⟨_, idiv_ok hf0, hmax⟩, by simp, by simp, ?_, ?_⟩
  · intro hw
    have : ¬ X.StringWidth src.Name > L.nameLimit := by omega
    simp [this]
  · have e1 : ")\">\n                <title>" = ")\">\n                " ++ "<title>" := by
      decide
    have e2 : "</title>\n                <image x=\"-" =
        "</title>" ++ "\n                <image x=\"-" := by decide
    have h : ∃ post pre, svgTPL.group X d.FontSize (Generate.placed X cfg L (len a) j src img) =
        pre ++ ("<title>" ++ (src.Name ++ ("</title>" ++ post))) := by
      simp only [svgTPL.group, placed_OriginalName, e1, e2, String.append_assoc]
      apply Exists.intro
      iterate 15 apply prefix_step
      exact ⟨"", by rw [String.empty_append]⟩
    obtain ⟨post, pre, h⟩ := h
    exact ⟨pre, post, h⟩

/-- C14 at the sample input: the first active sponsor. -/
theorem C14_name_is_truncated_title_is_not_witness :
    Generate.locals sampleConfig (len sampleActive) (len sampleExpired) = .ok sampleLocals ∧
    Generate.data sampleExternals sampleClient sampleActive sampleExpired sampleConfig =
      (["a", "b", "c"], .ok sampleData) ∧
    sampleData.Sponsors[0]? = some (samplePlaced 0 "a") ∧
    (sampleActive ++ sampleExpired)[0]? = some (sampleSponsor "a") ∧
    (∃ q, idiv (imul sampleConfig.AvatarSize 2) sampleLocals.fontSize = .ok q ∧
      sampleLocals.nameLimit = max 5 q) ∧
    (samplePlaced 0 "a").OriginalName = (sampleSponsor "a").Name ∧
    (samplePlaced 0 "a").Name =
      (if sampleExternals.StringWidth (sampleSponsor "a").Name > sampleLocals.nameLimit then
        sampleExternals.TruncateStringByWidth (sampleSponsor "a").Name sampleLocals.nameLimit
       else (sampleSponsor "a").Name) ∧
    (sampleExternals.StringWidth (sampleSponsor "a").Name ≤ 5 →
      (samplePlaced 0 "a").Name = (sampleSponsor "a").Name) ∧
    (∃ pre post, svgTPL.group sampleExternals sampleData.FontSize (samplePlaced 0 "a") =
      pre ++ ("<title>" ++ ((sampleSponsor "a").Name ++ ("</title>" ++ post)))) :=
  ⟨rfl, rfl, rfl, rfl, C14_name_is_truncated_title_is_not sampleExternals sampleClient
    sampleActive sampleExpired sampleConfig sampleLocals ["a", "b", "c"] sampleData 0
    (samplePlaced 0 "a") (sampleSponsor "a") rfl rfl rfl rfl⟩
/-! ## C16: the separator line -/

/-- C16, as stated, fails in its "only if": `text/template` writes a name as it is, so with
one active sponsor, no expired one, and a name that is a separator line element, the
document contains that element inside the sponsor's `<title>`. -/
theorem C16_line_element_from_a_name :
    ([] : List (Sponsor Nat)).length = 0 ∧
    ∃ doc, Generate sampleExternals sampleClient [sampleSponsor lineName] [] sampleConfig =
        { requests := [lineName], outcome := .ret doc none } ∧
      lineName.data <:+: doc.data ∧ "<line class=\"separator\"".data <:+: doc.data := by
  have hin : lineName.data <:+:
      (svgTPL.execute sampleExternals
        (Generate.dataOf (Generate.localsOf sampleConfig 1 0) [sampleSponsor lineName] []
          [Generate.placed sampleExternals sampleConfig (Generate.localsOf sampleConfig 1 0)
            1 0 (sampleSponsor lineName) [65, 66]])).data :=
    (title_in_group sampleExternals (Generate.localsOf sampleConfig 1 0).fontSize
      (Generate.placed sampleExternals sampleConfig (Generate.localsOf sampleConfig 1 0)
        1 0 (sampleSponsor lineName) [65, 66])).trans
      (group_in_document sampleExternals
        (Generate.dataOf (Generate.localsOf sampleConfig 1 0) [sampleSponsor lineName] []
          [Generate.placed sampleExternals sampleConfig (Generate.localsOf sampleConfig 1 0)
            1 0 (sampleSponsor lineName) [65, 66]])
        (Generate.placed sampleExternals sampleConfig (Generate.localsOf sampleConfig 1 0)
          1 0 (sampleSponsor lineName) [65, 66]) (List.mem_singleton.mpr rfl))
  have hpre : "<line class=\"separator\"".data <:+: lineName.data := by
    have e : lineName = "<line class=\"separator\"" ++
        " x1=\"6\" y1=\"26\" x2=\"346\" y2=\"26\" stroke-width=\"1\"/>" := by decide
    rw [e, String.data_append]
    exact infix_left _ (List.infix_refl _)
  exact ⟨rfl, _, rfl, hin, hpre.trans hin⟩

/-- C16, amended: for a non-empty input whose locals are computed and whose fetches deliver,
the rendered document is what the template renders before the separator condition,
followed by the separator `<line>` element exactly when both lists are non-empty, followed
by the closing tag. When emitted, the element has `x1 = paddingX`, `x2 = width - paddingX`
and `y1 = y2 = paddingY + activeHeight + separatorHeight/2 = paddingY + activeHeight + 20`
(Go `int` arithmetic), printed in decimal by a printer that prints different values
differently, and the document contains it. If no name has a `<` and no collaborator
produces one, the document contains a `<line` if and only if both lists are non-empty;
without that condition the "only if" fails, since names are written as they are. -/
theorem C16_separator_line {F : Type} (X : Externals F) (client : Client)
    (a ex : List (Sponsor F)) (cfg : Config F) (L : Locals)
    (hne : a ++ ex ≠ [])
    (hL : Generate.locals cfg (len a) (len ex) = .ok L)
    (hf : fetchesSucceed client [] (a ++ ex) = true) :
    ∃ d, Generate X client a ex cfg =
        { requests := (a ++ ex).map (·.Avatar), outcome := .ret (svgTPL.execute X d) none } ∧
      svgTPL.execute X d = svgTPL.body X d ++
        (if a.length ≠ 0 ∧ ex.length ≠ 0 then
          "\n<line class=\"separator\" x1=\"" ++ svgTPL.int L.paddingX ++ "\" y1=\"" ++
          svgTPL.int (iadd (iadd L.paddingY L.activeHeight) 20) ++ "\" x2=\"" ++
          svgTPL.int (isub L.width L.paddingX) ++ "\" y2=\"" ++
          svgTPL.int (iadd (iadd L.paddingY L.activeHeight) 20) ++ "\" stroke-width=\"1\"/>\n"
         else "") ++ "\n</svg>" ∧
      idiv L.separatorHeight 2 = .ok (if a.length ≠ 0 ∧ ex.length ≠ 0 then 20 else 0) ∧
      d.LineX1 = L.paddingX ∧ d.LineX2 = isub L.width L.paddingX ∧
      d.LineY = iadd (iadd L.paddingY L.activeHeight)
        (if a.length ≠ 0 ∧ ex.length ≠ 0 then 20 else 0) ∧
      Function.Injective svgTPL.int ∧
      (a.length ≠ 0 ∧ ex.length ≠ 0 →
        ("<line class=\"separator\" x1=\"" ++ svgTPL.int L.paddingX ++ "\" y1=\"" ++
          svgTPL.int (iadd (iadd L.paddingY L.activeHeight) 20) ++ "\" x2=\"" ++
          svgTPL.int (isub L.width L.paddingX) ++ "\" y2=\"" ++
          svgTPL.int (iadd (iadd L.paddingY L.activeHeight) 20) ++
          "\" stroke-width=\"1\"/>").data <:+: (svgTPL.execute X d).data) ∧
      ((∀ s ∈ a ++ ex, '<' ∉ s.Name.data) →
        (∀ (t : String) (n : Int), '<' ∉ t.data → '<' ∉ (X.TruncateStringByWidth t n).data) →
        (∀ b : Bytes, '<' ∉ (X.DetectContentType b).data) →
        (∀ b : Bytes, '<' ∉ (X.EncodeToString b).data) →
        (∀ x : F, '<' ∉ (X.formatFloat x).data) →
        ("<line".data <:+: (svgTPL.execute X d).data ↔ a.length ≠ 0 ∧ ex.length ≠ 0)) := by
  obtain ⟨out, hout⟩ := data_ok X client a ex cfg hL hf
  have hempty : ¬ (len a = 0 ∧ len ex = 0) := by
    rw [len_eq_zero, len_eq_zero]
    rintro ⟨rfl, rfl⟩
    exact hne rfl
  have hsep := (locals_fields hL).2.2.2.2.2.2.2.2.1
  have hla : len a = (a.length : Int) := rfl
  have hle : len ex = (ex.length : Int) := rfl
  have hhalf : wrap (Int.tdiv L.separatorHeight 2) =
      (if a.length ≠ 0 ∧ ex.length ≠ 0 then 20 else 0) := by
    rw [hsep, hla, hle]
    by_cases hb : a.length ≠ 0 ∧ ex.length ≠ 0
    · have : (a.length : Int) > 0 ∧ (ex.length : Int) > 0 := by omega
      rw [if_pos this, if_pos hb]
      decide
    · have : ¬ ((a.length : Int) > 0 ∧ (ex.length : Int) > 0) := by omega
      rw [if_neg this, if_neg hb]
      decide
  -- the element is in the document when both lists are non-empty
  have hcontains : a.length ≠ 0 ∧ ex.length ≠ 0 →
      ("<line class=\"separator\" x1=\"" ++ svgTPL.int L.paddingX ++ "\" y1=\"" ++
        svgTPL.int (iadd (iadd L.paddingY L.activeHeight) 20) ++ "\" x2=\"" ++
        svgTPL.int (isub L.width L.paddingX) ++ "\" y2=\"" ++
        svgTPL.int (iadd (iadd L.paddingY L.activeHeight) 20) ++
        "\" stroke-width=\"1\"/>").data <:+:
        (svgTPL.execute X (Generate.dataOf L a ex out)).data := by
    intro hb
    have h20 : wrap (Int.tdiv L.separatorHeight 2) = 20 := by rw [hhalf, if_pos hb]
    have hc := line_in_document X (Generate.dataOf L a ex out) hb
    have e1 : (Generate.dataOf L a ex out).LineX1 = L.paddingX := rfl
    have e2 : (Generate.dataOf L a ex out).LineX2 = isub L.width L.paddingX := rfl
    have e3 : (Generate.dataOf L a ex out).LineY =
        iadd (iadd L.paddingY L.activeHeight) 20 := by
      show iadd (iadd L.paddingY L.activeHeight) (wrap (Int.tdiv L.separatorHeight 2)) = _
      rw [h20]
    rw [e1, e2, e3] at hc
    exact hc
  refine ⟨Generate.dataOf L a ex out, ?_, ?_, ?_, rfl, rfl, ?_, int_injective, hcontains, ?_⟩
  · rw [generate_nonempty X client a ex cfg hempty, hout]
    rfl
  · by_cases hb : a.length ≠ 0 ∧ ex.length ≠ 0
    · have h20 : wrap (Int.tdiv L.separatorHeight 2) = 20 := by rw [hhalf, if_pos hb]
      simp only [svgTPL.execute, svgTPL.body, svgTPL.line, Generate.dataOf, if_pos hb, h20]
    · simp only [svgTPL.execute, svgTPL.body, Generate.dataOf, if_neg hb]
  · rw [idiv_two, hhalf]
  · simp only [Generate.dataOf, hhalf]
  · intro hname htrunc hmime hb64 hfloat
    constructor
    · intro hin
      by_contra hb
      have hplain : ∀ s ∈ (Generate.dataOf L a ex out).Sponsors, Sponsor.Plain X s := by
        intro s hs
        obtain ⟨j, hj⟩ := List.mem_iff_getElem?.mp hs
        obtain ⟨_, src, img, hsrc, rfl⟩ := data_sponsor_at hout hL hj
        have hmem : src ∈ a ++ ex := List.mem_iff_getElem?.mpr ⟨j, hsrc⟩
        have hn := hname src hmem
        refine ⟨?_, ?_, ?_, ?_, hfloat _, hfloat _⟩
        · rw [placed_OriginalName]; exact hn
        · rw [placed_Name]
          split_ifs
          · exact htrunc _ _ hn
          · exact hn
        · rw [placed_ImgMime]; exact hmime _
        · rw [placed_ImgB64]; exact hb64 _
      exact no_line_without_both X (Generate.dataOf L a ex out) hplain hb ['i', 'n', 'e'] hin
    · intro hb
      have hpre : "<line".data <:+:
          ("<line class=\"separator\" x1=\"" ++ svgTPL.int L.paddingX ++ "\" y1=\"" ++
            svgTPL.int (iadd (iadd L.paddingY L.activeHeight) 20) ++ "\" x2=\"" ++
            svgTPL.int (isub L.width L.paddingX) ++ "\" y2=\"" ++
            svgTPL.int (iadd (iadd L.paddingY L.activeHeight) 20) ++
            "\" stroke-width=\"1\"/>").data := by
        have e : "<line class=\"separator\" x1=\"" = "<line" ++ " class=\"separator\" x1=\"" := by
          decide
        simp only [e, String.data_append]
        repeat (first | exact infix_left _ (List.infix_refl _) | apply infix_left)
      exact hpre.trans (hcontains hb)

/-- C16 at the sample input, where both groups are non-empty: the document contains the
element with `x1 = 6`, `y1 = y2 = 118`, `x2 = 346`. -/
theorem C16_separator_line_witness :
    sampleActive ++ sampleExpired ≠ [] ∧
    Generate.locals sampleConfig (len sampleActive) (len sampleExpired) = .ok sampleLocals ∧
    fetchesSucceed sampleClient [] (sampleActive ++ sampleExpired) = true ∧
    ∃ d, Generate sampleExternals sampleClient sampleActive sampleExpired sampleConfig =
        { requests := ["a", "b", "c"],
          outcome := .ret (svgTPL.execute sampleExternals d) none } ∧
      d.LineX1 = 6 ∧ d.LineX2 = 346 ∧ d.LineY = 118 ∧
      "<line class=\"separator\" x1=\"6\" y1=\"118\" x2=\"346\" y2=\"118\" stroke-width=\"1\"/>".data
        <:+: (svgTPL.execute sampleExternals d).data := by
  obtain ⟨d, h1, _, _, h4, h5, h6, _, h8, _⟩ :=
    C16_separator_line sampleExternals sampleClient sampleActive sampleExpired sampleConfig
      sampleLocals (by simp [sampleActive, sampleExpired]) rfl rfl
  have e : "<line class=\"separator\" x1=\"" ++ svgTPL.int sampleLocals.paddingX ++
      "\" y1=\"" ++ svgTPL.int (iadd (iadd sampleLocals.paddingY sampleLocals.activeHeight) 20) ++
      "\" x2=\"" ++ svgTPL.int (isub sampleLocals.width sampleLocals.paddingX) ++ "\" y2=\"" ++
      svgTPL.int (iadd (iadd sampleLocals.paddingY sampleLocals.activeHeight) 20) ++
      "\" stroke-width=\"1\"/>" =
      "<line class=\"separator\" x1=\"6\" y1=\"118\" x2=\"346\" y2=\"118\" stroke-width=\"1\"/>" := by
    decide
  have h8b := h8 (by decide)
  rw [e] at h8b
  exact ⟨by simp [sampleActive, sampleExpired], rfl, rfl, d, h1, h4.trans rfl, h5.trans rfl,
    h6.trans rfl, h8b⟩

/-! ## C17: zero divisors -/

/-- C17: for a non-empty input, when `FontSizeScale`, the font size
`AvatarSize/FontSizeScale` and `AvatarsPerRow` are all different from zero, no division
or modulo of `Generate` meets a zero divisor: the locals are computed and the run does
not panic, whatever the client answers. Conversely, when `0 < AvatarSize < FontSizeScale`
the font size is 0, the quotient `AvatarSize*2 / fontSize` divides by zero, and the run
panics before any request is issued. -/
theorem C17_zero_divisors {F : Type} (X : Externals F) (client : Client)
    (a ex : List (Sponsor F)) (cfg : Config F)
    (hne : a ++ ex ≠ []) :
    (cfg.FontSizeScale ≠ 0 → wrap (Int.tdiv cfg.AvatarSize cfg.FontSizeScale) ≠ 0 →
      cfg.AvatarsPerRow ≠ 0 →
      (∃ L, Generate.locals cfg (len a) (len ex) = .ok L) ∧
      (Generate.data X client a ex cfg).2 ≠ .error .panic ∧
      (Generate X client a ex cfg).outcome ≠ .panic) ∧
    (0 < cfg.AvatarSize → cfg.AvatarSize < cfg.FontSizeScale →
      idiv cfg.AvatarSize cfg.FontSizeScale = .ok 0 ∧
      idiv (imul cfg.AvatarSize 2) 0 = .error .panic ∧
      Generate.locals cfg (len a) (len ex) = .error .panic ∧
      Generate X client a ex cfg = { requests := [], outcome := .panic }) := by
  have hempty : ¬ (len a = 0 ∧ len ex = 0) := by
    rw [len_eq_zero, len_eq_zero]
    rintro ⟨rfl, rfl⟩
    exact hne rfl
  constructor
  · intro h1 h2 h3
    have hL := locals_ok cfg (len a) (len ex) h1 h2 h3
    have hnp := loop_no_panic X client cfg (Generate.localsOf cfg (len a) (len ex)) (len a) h3
      (a ++ ex) 0 []
    have hdata : (Generate.data X client a ex cfg).2 ≠ .error .panic := by
      rw [data_of_locals X client a ex cfg hL]
      simp only
      rcases hr : (Generate.loop X client cfg (Generate.localsOf cfg (len a) (len ex)) (len a)
        0 [] (a ++ ex)).2 with f | out
      · rw [hr] at hnp
        simp only [Except.map]
        intro hc
        cases hc
        exact hnp rfl
      · simp [Except.map]
    refine ⟨⟨_, hL⟩, hdata, ?_⟩
    rw [generate_nonempty X client a ex cfg hempty]
    simp only
    rcases hr : (Generate.data X client a ex cfg).2 with (_ | e) | d
    · exact absurd hr hdata
    · simp [Generate.outcomeOf]
    · simp [Generate.outcomeOf]
  · intro hA hlt
    have hFS : cfg.FontSizeScale ≠ 0 := by omega
    have hq : Int.tdiv cfg.AvatarSize cfg.FontSizeScale = 0 := by
      rw [Int.tdiv_eq_ediv (by omega) (by omega)]
      exact Int.ediv_eq_zero_of_lt (by omega) hlt
    have hw : wrap (Int.tdiv cfg.AvatarSize cfg.FontSizeScale) = 0 := by
      rw [hq]; decide
    have hL := locals_panic cfg (len a) (len ex) (Or.inr (Or.inl hw))
    refine ⟨by rw [idiv_ok hFS, hw], idiv_zero _, hL, ?_⟩
    rw [generate_nonempty X client a ex cfg hempty, data_of_panic X client a ex cfg hL]
    rfl

/-- C17 at the sample configuration, and at the same configuration with
`FontSizeScale = 61 > AvatarSize = 60`. -/
theorem C17_zero_divisors_witness :
    sampleActive ++ sampleExpired ≠ [] ∧
    ((∃ L, Generate.locals sampleConfig (len sampleActive) (len sampleExpired) = .ok L) ∧
      (Generate.data sampleExternals sampleClient sampleActive sampleExpired sampleConfig).2 ≠
        .error .panic ∧
      (Generate sampleExternals sampleClient sampleActive sampleExpired sampleConfig).outcome ≠
        .panic) ∧
    (idiv smallFontConfig.AvatarSize smallFontConfig.FontSizeScale = .ok 0 ∧
      idiv (imul smallFontConfig.AvatarSize 2) 0 = .error .panic ∧
      Generate.locals smallFontConfig (len sampleActive) (len sampleExpired) = .error .panic ∧
      Generate sampleExternals sampleClient sampleActive sampleExpired smallFontConfig =
        { requests := [], outcome := .panic }) :=
  ⟨by simp [sampleActive, sampleExpired],
    (C17_zero_divisors sampleExternals sampleClient sampleActive sampleExpired sampleConfig
      (by simp [sampleActive, sampleExpired])).1 (by decide) (by decide) (by decide),
    (C17_zero_divisors sampleExternals sampleClient sampleActive sampleExpired smallFontConfig
      (by simp [sampleActive, sampleExpired])).2 (by decide) (by decide)⟩

/-! ## C18: the two blocks and the separator -/

/-- C18, as stated, fails: with `AvatarSize = 2^62`, `FontSizeScale = 1`, `Margin = 0`
and one column, one active and one expired sponsor, the row height wraps to
`-2^63 + 10`, so `paddingY + activeHeight = -2^63 + 10` while the active sponsor has
`CenterY + Radius = 2^62`. -/
theorem C18_active_block_exceeds_its_height :
    tallRowConfig.InRange ∧ 0 ≤ tallRowConfig.AvatarSize ∧ 0 ≤ tallRowConfig.Margin ∧
    1 ≤ tallRowConfig.AvatarsPerRow ∧
    ∃ L d sa,
      Generate.locals tallRowConfig (len [sampleSponsor "a"]) (len [sampleSponsor "c"]) =
        .ok L ∧
      0 ≤ L.fontSize ∧
      Generate.data sampleExternals sampleClient [sampleSponsor "a"] [sampleSponsor "c"]
        tallRowConfig = (["a", "c"], .ok d) ∧
      d.Sponsors[0]? = some sa ∧ sa.IsActive = true ∧
      sa.CenterY + sa.Radius = 4611686018427387904 ∧
      L.paddingY + L.activeHeight = -9223372036854775798 ∧
      ¬ (sa.CenterY + sa.Radius ≤ L.paddingY + L.activeHeight) := by
  refine ⟨by decide, by decide, by decide, by decide,
    Generate.localsOf tallRowConfig 1 1,
    Generate.dataOf (Generate.localsOf tallRowConfig 1 1) [sampleSponsor "a"]
      [sampleSponsor "c"]
      [Generate.placed sampleExternals tallRowConfig (Generate.localsOf tallRowConfig 1 1) 1 0
        (sampleSponsor "a") [65, 66],
       Generate.placed sampleExternals tallRowConfig (Generate.localsOf tallRowConfig 1 1) 1 1
        (sampleSponsor "c") [65, 66]],
    _, rfl, by decide, rfl, rfl, rfl, rfl, rfl, by decide⟩

/-- C18, amended: for a configuration of Go `int`s with `AvatarSize >= 0`, `Margin >= 0`,
`fontSize >= 0` and `AvatarsPerRow >= 1`, both groups non-empty, and provided none of
the canvas computations overflows (`Generate.NoOverflow`; the total sponsor count fits
an `int`), every active sponsor `sa` and every expired sponsor `se` satisfy
`CenterY(sa) + Radius <= paddingY + activeHeight < LineY = paddingY + activeHeight + 20
< paddingY + activeHeight + 40 <= CenterY(se) - Radius`. -/
theorem C18_blocks_do_not_overlap {F : Type} (X : Externals F) (client : Client)
    (a ex : List (Sponsor F)) (cfg : Config F) (L : Locals) (log : List String)
    (d : TemplateData F) (ja je : Nat) (sa se : Sponsor F)
    (hr : cfg.InRange) (hA : 0 ≤ cfg.AvatarSize) (hf : 0 ≤ L.fontSize)
    (hM : 0 ≤ cfg.Margin) (hp : 1 ≤ cfg.AvatarsPerRow)
    (hlen : len a + len ex ≤ 9223372036854775807)
    (hov : Generate.NoOverflow cfg L (len a) (len ex))
    (hL : Generate.locals cfg (len a) (len ex) = .ok L)
    (hd : Generate.data X client a ex cfg = (log, .ok d))
    (hsa : d.Sponsors[ja]? = some sa) (hja : ja < a.length)
    (hse : d.Sponsors[je]? = some se) (hje : a.length ≤ je) :
    sa.CenterY + sa.Radius ≤ L.paddingY + L.activeHeight ∧
    L.paddingY + L.activeHeight < d.LineY ∧
    d.LineY = L.paddingY + L.activeHeight + 20 ∧
    d.LineY < L.paddingY + L.activeHeight + 40 ∧
    L.paddingY + L.activeHeight + 40 ≤ se.CenterY - se.Radius := by
  obtain ⟨hja2, srca, imga, _, rfl⟩ := data_sponsor_at hd hL hsa
  obtain ⟨hje2, srce, imge, _, rfl⟩ := data_sponsor_at hd hL hse
  have hdd := (data_sponsors hd hL).1
  have hla : len a = (a.length : Int) := rfl
  have hle : len ex = (ex.length : Int) := rfl
  obtain ⟨_, h2, _, _⟩ := locals_inv hL
  have hfs := (locals_fields hL).1
  have hsepdef := (locals_fields hL).2.2.2.2.2.2.2.2.1
  have hf1 : 1 ≤ L.fontSize := by
    have : L.fontSize ≠ 0 := by rw [hfs]; exact h2
    omega
  have hA1 : 1 ≤ cfg.AvatarSize := by
    by_contra hc
    have h0 : cfg.AvatarSize = 0 := by omega
    rw [h0] at h2
    simp [wrap] at h2
  obtain ⟨hpx0, hpy0, hSe, hRe, hEe, hra, hre, hah, heh, hah0, heh0, hsep, hh, hhle, hw, hwle⟩ :=
    locals_exact hL hr hA1 hf1 hM hp (by omega) (by omega) (by omega) hov
  obtain ⟨_, hya, hTa0, hTa1, _, _⟩ := placed_centre_exact X hL hr hA1 hf1 hM hp
    (by omega) (by omega) hlen hov ja (by omega) srca imga
  obtain ⟨_, hye, hTe0, hTe1, _, _⟩ := placed_centre_exact X hL hr hA1 hf1 hM hp
    (by omega) (by omega) hlen hov je (by omega) srce imge
  have hacta : (ja : Int) < len a := by omega
  have hacte : ¬ (je : Int) < len a := by omega
  rw [if_pos hacta] at hya hTa1
  rw [if_neg hacte] at hye hTe1
  have hsep40 : L.separatorHeight = 40 := by
    rw [hsepdef]
    have : len a > 0 ∧ len ex > 0 := by omega
    rw [if_pos this]
  have hLine : d.LineY = L.paddingY + L.activeHeight + 20 := by
    rw [hdd]
    simp only [Generate.dataOf, hsep40]
    have h20 : wrap (Int.tdiv 40 2) = 20 := by decide
    rw [h20]
    unfold iadd wrap
    omega
  have hR0 : 0 ≤ cfg.AvatarSize / 2 := Int.ediv_nonneg (by omega) (by decide)
  simp only [placed_Radius]
  rw [hya, hye, hRe, hLine]
  refine ⟨?_, ?_, rfl, ?_, ?_⟩ <;> omega

/-- C18, amended, at the sample input: the second active and the expired sponsor. -/
theorem C18_blocks_do_not_overlap_witness :
    sampleConfig.InRange ∧ 0 ≤ sampleConfig.AvatarSize ∧ 0 ≤ sampleLocals.fontSize ∧
    0 ≤ sampleConfig.Margin ∧ 1 ≤ sampleConfig.AvatarsPerRow ∧
    len sampleActive + len sampleExpired ≤ 9223372036854775807 ∧
    Generate.NoOverflow sampleConfig sampleLocals (len sampleActive) (len sampleExpired) ∧
    Generate.locals sampleConfig (len sampleActive) (len sampleExpired) = .ok sampleLocals ∧
    Generate.data sampleExternals sampleClient sampleActive sampleExpired sampleConfig =
      (["a", "b", "c"], .ok sampleData) ∧
    sampleData.Sponsors[1]? = some (samplePlaced 1 "b") ∧ 1 < sampleActive.length ∧
    sampleData.Sponsors[2]? = some (samplePlaced 2 "c") ∧ sampleActive.length ≤ 2 ∧
    (samplePlaced 1 "b").CenterY + (samplePlaced 1 "b").Radius ≤
      sampleLocals.paddingY + sampleLocals.activeHeight ∧
    sampleLocals.paddingY + sampleLocals.activeHeight < sampleData.LineY ∧
    sampleData.LineY = sampleLocals.paddingY + sampleLocals.activeHeight + 20 ∧
    sampleData.LineY < sampleLocals.paddingY + sampleLocals.activeHeight + 40 ∧
    sampleLocals.paddingY + sampleLocals.activeHeight + 40 ≤
      (samplePlaced 2 "c").CenterY - (samplePlaced 2 "c").Radius :=
  ⟨by decide, by decide, by decide, by decide, by decide, by decide, by decide, rfl, rfl, rfl,
    by decide, rfl, by decide,
    C18_blocks_do_not_overlap sampleExternals sampleClient sampleActive sampleExpired
      sampleConfig sampleLocals ["a", "b", "c"] sampleData 1 2 (samplePlaced 1 "b")
      (samplePlaced 2 "c") (by decide) (by decide) (by decide) (by decide) (by decide)
      (by decide) (by decide) rfl rfl rfl (by decide) rfl (by decide)⟩
/-! ## C11: the animation delay along the sequence -/

/-- C11, as stated, fails, in every build: the delay unit `+Inf` is greater than zero,
and with two active sponsors the first one gets `float32(0) * +Inf`, a NaN, which is not
`<=` the delay `+Inf` of the second one. -/
theorem C11_infinite_unit_breaks_order :
    F32.le (.fin 0) (.inf false) = true ∧ F32.le (.inf false) (.fin 0) = false ∧
    ∀ m : Fusion, ∃ log d s0 s1,
      Generate.data (ieeeExternals m) sampleClient [ieeeSponsor "a", ieeeSponsor "b"] []
        (ieeeConfig (.inf false)) = (log, .ok d) ∧
      d.Sponsors[0]? = some s0 ∧ d.Sponsors[1]? = some s1 ∧
      s0.Index = 0 ∧ s1.Index = 1 ∧
      s0.AnimationDelay = .nan ∧ s1.AnimationDelay = .inf false ∧
      F32.le s0.AnimationDelay s1.AnimationDelay = false := by
  refine ⟨rfl, rfl, ?_⟩
  intro m
  have hX : (ieeeExternals m).IEEE := ⟨rfl, rfl, rfl, m, rfl⟩
  have h0 : (Generate.placed (ieeeExternals m) (ieeeConfig (.inf false))
      (Generate.localsOf (ieeeConfig (.inf false)) 2 0) 2 0 (ieeeSponsor "a")
      [65, 66]).AnimationDelay = .nan := by
    rw [placed_delay_ieee hX]
    simp [ieeeConfig, F32.ofInt, F32.round_zero, F32.mul]
  have h1 : (Generate.placed (ieeeExternals m) (ieeeConfig (.inf false))
      (Generate.localsOf (ieeeConfig (.inf false)) 2 0) 2 1 (ieeeSponsor "b")
      [65, 66]).AnimationDelay = .inf false := by
    rw [placed_delay_ieee hX]
    simp [ieeeConfig, F32.ofInt, F32.round_one, F32.mul]
  refine ⟨["a", "b"],
    Generate.dataOf (Generate.localsOf (ieeeConfig (.inf false)) 2 0)
      [ieeeSponsor "a", ieeeSponsor "b"] []
      [Generate.placed (ieeeExternals m) (ieeeConfig (.inf false))
        (Generate.localsOf (ieeeConfig (.inf false)) 2 0) 2 0 (ieeeSponsor "a") [65, 66],
       Generate.placed (ieeeExternals m) (ieeeConfig (.inf false))
        (Generate.localsOf (ieeeConfig (.inf false)) 2 0) 2 1 (ieeeSponsor "b") [65, 66]],
    Generate.placed (ieeeExternals m) (ieeeConfig (.inf false))
      (Generate.localsOf (ieeeConfig (.inf false)) 2 0) 2 0 (ieeeSponsor "a") [65, 66],
    Generate.placed (ieeeExternals m) (ieeeConfig (.inf false))
      (Generate.localsOf (ieeeConfig (.inf false)) 2 0) 2 1 (ieeeSponsor "b") [65, 66],
    rfl, rfl, rfl, rfl, rfl, h0, h1, ?_⟩
  rw [h0]
  rfl

/-- C11, amended: in the binary32 model, for every finite delay unit greater than zero
(and an active count that fits an `int`), whenever a rendered sponsor has a smaller `Index`
than another one, its `AnimationDelay` is `<=` that of the other, across the boundary
between the active and the expired group too. This holds for every build: whether each
operation of line 166 is rounded on its own or one of the two products is fused into the
addition. -/
theorem C11_delay_non_decreasing (X : Externals F32) (client : Client)
    (a ex : List (Sponsor F32)) (cfg : Config F32) (log : List String)
    (d : TemplateData F32) (δ : ℚ) (i j : Nat) (si sj : Sponsor F32)
    (hX : X.IEEE) (hδ : cfg.AnimationDelay = .fin δ) (hpos : 0 < δ)
    (hlen : len a ≤ 9223372036854775807)
    (hd : Generate.data X client a ex cfg = (log, .ok d))
    (hi : d.Sponsors[i]? = some si) (hj : d.Sponsors[j]? = some sj)
    (hij : si.Index < sj.Index) :
    F32.le si.AnimationDelay sj.AnimationDelay = true := by
  obtain ⟨L, _, _, _, _, _, _, rfl⟩ := data_sponsor_of hd hi
  obtain ⟨L2, _, _, _, _, _, _, rfl⟩ := data_sponsor_of hd hj
  rw [placed_Index, placed_Index] at hij
  rw [placed_delay_ieee hX, placed_delay_ieee hX, hδ]
  obtain ⟨m, hm⟩ := hX.2.2.2
  rw [hm]
  have h0 : (0 : Int) ≤ len a := by unfold len; omega
  exact delay_mono m hpos h0 hlen (by omega) (le_of_lt hij)

/-- C11 at two active sponsors and one expired one, with the unit one tenth, in a build
that fuses the left product: the delay of the last active sponsor against that of the
expired one. -/
theorem C11_delay_non_decreasing_witness :
    (ieeeConfig (.fin tenth)).AnimationDelay = .fin tenth ∧ 0 < tenth ∧
    F32.le
      (Generate.placed (ieeeExternals .left) (ieeeConfig (.fin tenth))
        (Generate.localsOf (ieeeConfig (.fin tenth)) 2 1) 2 1 (ieeeSponsor "b")
        [65, 66]).AnimationDelay
      (Generate.placed (ieeeExternals .left) (ieeeConfig (.fin tenth))
        (Generate.localsOf (ieeeConfig (.fin tenth)) 2 1) 2 2 (ieeeSponsor "c")
        [65, 66]).AnimationDelay = true :=
  ⟨rfl, by unfold tenth; norm_num,
    C11_delay_non_decreasing (ieeeExternals .left) sampleClient
      [ieeeSponsor "a", ieeeSponsor "b"] [ieeeSponsor "c"] (ieeeConfig (.fin tenth))
      ["a", "b", "c"]
      (Generate.dataOf (Generate.localsOf (ieeeConfig (.fin tenth)) 2 1)
        [ieeeSponsor "a", ieeeSponsor "b"] [ieeeSponsor "c"]
        [Generate.placed (ieeeExternals .left) (ieeeConfig (.fin tenth))
          (Generate.localsOf (ieeeConfig (.fin tenth)) 2 1) 2 0 (ieeeSponsor "a") [65, 66],
         Generate.placed (ieeeExternals .left) (ieeeConfig (.fin tenth))
          (Generate.localsOf (ieeeConfig (.fin tenth)) 2 1) 2 1 (ieeeSponsor "b") [65, 66],
         Generate.placed (ieeeExternals .left) (ieeeConfig (.fin tenth))
          (Generate.localsOf (ieeeConfig (.fin tenth)) 2 1) 2 2 (ieeeSponsor "c") [65, 66]])
      tenth 1 2 _ _ ⟨rfl, rfl, rfl, .left, rfl⟩ rfl (by unfold tenth; norm_num) (by decide) rfl
      rfl rfl (by decide)⟩
/-! ## C12: the two-part delay of an expired sponsor -/

/-- C12, as stated, fails, in every build: with six active sponsors, fourteen expired ones
and the delay unit `0.1` (the `float32` `13421773 / 2^27`), the sponsor at index 19 gets
`(19 - 6) * 0.1 + 6 * 0.1`, which rounds to `15938356 / 2^23` (printed `1.9000001`)
whether or not a product is fused into the addition, while `19 * 0.1` rounds to
`15938355 / 2^23` (printed `1.9`). -/
theorem C12_two_part_delay_differs :
    F32.round tenth = .fin tenth ∧
    ∀ m : Fusion, ∃ log d s,
      Generate.data (ieeeExternals m) sampleClient (List.replicate 6 (ieeeSponsor "a"))
        (List.replicate 14 (ieeeSponsor "b")) (ieeeConfig (.fin tenth)) = (log, .ok d) ∧
      d.Sponsors[19]? = some s ∧ s.Index = 19 ∧ s.IsActive = false ∧
      s.AnimationDelay = .fin (15938356 / 8388608) ∧
      F32.mul (F32.ofInt s.Index) (ieeeConfig (.fin tenth)).AnimationDelay =
        .fin (15938355 / 8388608) ∧
      s.AnimationDelay ≠
        F32.mul (F32.ofInt s.Index) (ieeeConfig (.fin tenth)).AnimationDelay := by
  refine ⟨round_tenth, ?_⟩
  intro m
  have hX : (ieeeExternals m).IEEE := ⟨rfl, rfl, rfl, m, rfl⟩
  have hL := locals_ok (ieeeConfig (.fin tenth)) (len (List.replicate 6 (ieeeSponsor "a")))
    (len (List.replicate 14 (ieeeSponsor "b"))) (by decide) (by decide) (by decide)
  obtain ⟨out, hout⟩ := data_ok (ieeeExternals m) sampleClient (List.replicate 6 (ieeeSponsor "a"))
    (List.replicate 14 (ieeeSponsor "b")) (ieeeConfig (.fin tenth)) hL
    (sampleClient_fetches _ _)
  obtain ⟨_, _, _, hall⟩ := data_sponsors hout hL
  obtain ⟨img, _, hs⟩ := hall 19 (ieeeSponsor "b") rfl
  have hlen : len (List.replicate 6 (ieeeSponsor "a")) = 6 := rfl
  have hc : (ieeeConfig (.fin tenth)).AnimationDelay = .fin tenth := rfl
  have two : (Generate.placed (ieeeExternals m) (ieeeConfig (.fin tenth))
      (Generate.localsOf (ieeeConfig (.fin tenth)) (len (List.replicate 6 (ieeeSponsor "a")))
        (len (List.replicate 14 (ieeeSponsor "b"))))
      (len (List.replicate 6 (ieeeSponsor "a"))) 19 (ieeeSponsor "b") img).AnimationDelay =
      .fin (15938356 / 8388608) := by
    rw [placed_delay_ieee hX, hlen, if_neg (by decide), hc]
    simp only [Nat.cast_ofNat]
    rw [ofInt_nineteen, ofInt_six, sub_nineteen_six]
    exact mulAdd_nineteen m
  have one : F32.mul (F32.ofInt 19) (ieeeConfig (.fin tenth)).AnimationDelay =
      .fin (15938355 / 8388608) := by
    rw [hc, ofInt_nineteen, mul_nineteen_tenth]
  refine ⟨_, _, _, hout, hs, rfl, ?_, two, one, ?_⟩
  · rw [placed_IsActive, hlen]
    decide
  · rw [two]
    show _ ≠ F32.mul (F32.ofInt 19) (ieeeConfig (.fin tenth)).AnimationDelay
    rw [one]
    intro h
    injection h with h
    norm_num at h

/-- C12, amended: in the binary32 model, for every finite delay unit and every build
(each operation rounded on its own, or one product fused into the addition), the two-part
delay `(float32(i) - float32(activeCount)) * d + float32(activeCount) * d` that the code
writes for an expired sponsor equals `float32(i) * d` when there is no active sponsor,
for the first expired sponsor (`i = activeCount`, a count that fits an `int`), and
whenever the two conversions, the difference and the two partial products are exact;
elsewhere the two can differ. -/
theorem C12_two_part_delay_of_expired (X : Externals F32) (client : Client)
    (a ex : List (Sponsor F32)) (cfg : Config F32) (log : List String)
    (d : TemplateData F32) (δ : ℚ) (j : Nat) (s : Sponsor F32)
    (hX : X.IEEE) (hδ : cfg.AnimationDelay = .fin δ)
    (hlen : len a ≤ 9223372036854775807)
    (hd : Generate.data X client a ex cfg = (log, .ok d))
    (hs : d.Sponsors[j]? = some s) (hj : a.length ≤ j)
    (hcase : a.length = 0 ∨ j = a.length ∨
      (F32.ofInt (j : Int) = .fin ((j : Int) : ℚ) ∧
       F32.ofInt (len a) = .fin ((len a : Int) : ℚ) ∧
       F32.sub (.fin ((j : Int) : ℚ)) (.fin ((len a : Int) : ℚ)) =
         .fin (((j : Int) : ℚ) - ((len a : Int) : ℚ)) ∧
       F32.mul (.fin (((j : Int) : ℚ) - ((len a : Int) : ℚ))) (.fin δ) =
         .fin ((((j : Int) : ℚ) - ((len a : Int) : ℚ)) * δ) ∧
       F32.mul (.fin ((len a : Int) : ℚ)) (.fin δ) = .fin (((len a : Int) : ℚ) * δ))) :
    s.AnimationDelay =
      X.fmuladd (F32.sub (F32.ofInt s.Index) (F32.ofInt (len a))) cfg.AnimationDelay
        (F32.ofInt (len a)) cfg.AnimationDelay ∧
    s.AnimationDelay = F32.mul (F32.ofInt s.Index) cfg.AnimationDelay := by
  obtain ⟨L, _, _, _, _, _, _, rfl⟩ := data_sponsor_of hd hs
  have hla : len a = (a.length : Int) := rfl
  have hnot : ¬ (j : Int) < len a := by rw [hla]; omega
  have h1 := placed_delay_ieee hX cfg L (len a) j ‹Sponsor F32› ‹Bytes›
  rw [if_neg hnot] at h1
  refine ⟨by rw [placed_Index]; exact h1, ?_⟩
  obtain ⟨m, hm⟩ := hX.2.2.2
  rw [h1, placed_Index, hδ, hm]
  rcases hcase with h0 | h0 | ⟨e1, e2, e3, e4, e5⟩
  · have : len a = 0 := by rw [hla, h0]; rfl
    rw [this]
    exact F32.mulAdd_expired_only m _ _
  · have hja : (j : Int) = len a := by rw [hla, h0]
    rw [hja]
    obtain ⟨v, hv⟩ := F32.round_int_fin (show (0 : Int) ≤ len a by rw [hla]; omega) hlen
    exact F32.mulAdd_first_expired m hv δ
  · rw [e1, e2, e3]
    exact F32.mulAdd_exact m e4 e5

/-- C12 at one active and two expired sponsors with the unit one half, where no operation
rounds, in a build that fuses the left product: the delay of the last sponsor. -/
theorem C12_two_part_delay_of_expired_witness :
    (ieeeConfig (.fin (1 / 2))).AnimationDelay = .fin (1 / 2) ∧
    [ieeeSponsor "a"].length ≤ 2 ∧
    (Generate.placed (ieeeExternals .left) (ieeeConfig (.fin (1 / 2)))
        (Generate.localsOf (ieeeConfig (.fin (1 / 2))) 1 2) 1 2 (ieeeSponsor "c")
        [65, 66]).AnimationDelay =
      F32.mul (F32.ofInt 2) (.fin (1 / 2)) :=
  ⟨rfl, by decide,
    (C12_two_part_delay_of_expired (ieeeExternals .left) sampleClient [ieeeSponsor "a"]
      [ieeeSponsor "b", ieeeSponsor "c"] (ieeeConfig (.fin (1 / 2))) ["a", "b", "c"]
      (Generate.dataOf (Generate.localsOf (ieeeConfig (.fin (1 / 2))) 1 2)
        [ieeeSponsor "a"] [ieeeSponsor "b", ieeeSponsor "c"]
        [Generate.placed (ieeeExternals .left) (ieeeConfig (.fin (1 / 2)))
          (Generate.localsOf (ieeeConfig (.fin (1 / 2))) 1 2) 1 0 (ieeeSponsor "a") [65, 66],
         Generate.placed (ieeeExternals .left) (ieeeConfig (.fin (1 / 2)))
          (Generate.localsOf (ieeeConfig (.fin (1 / 2))) 1 2) 1 1 (ieeeSponsor "b") [65, 66],
         Generate.placed (ieeeExternals .left) (ieeeConfig (.fin (1 / 2)))
          (Generate.localsOf (ieeeConfig (.fin (1 / 2))) 1 2) 1 2 (ieeeSponsor "c") [65, 66]])
      (1 / 2) 2 _ ⟨rfl, rfl, rfl, .left, rfl⟩ rfl (by decide) rfl rfl (by decide)
      (Or.inr (Or.inr ⟨ofInt_two, ofInt_one, sub_two_one, mul_diff_half, mul_one_half⟩))).2⟩
/-! ## C19: one list as the active group, or as the expired group -/

/-- C19, as stated, fails in its last part, in every build: with the delay unit `+Inf`
and two sponsors,
the second sponsor gets the delay `float32(1) * +Inf = +Inf` when the list is the active
group, and `(float32(1) - float32(0)) * +Inf + float32(0) * +Inf`, a NaN, when it is the
expired group; so the two results differ in `AnimationDelay` as well. -/
theorem C19_infinite_unit_delay_differs :
    1 ≤ (ieeeConfig (.inf false)).AvatarsPerRow ∧
    ∀ m : Fusion, ∃ log dA dE sA sE,
      Generate.data (ieeeExternals m) sampleClient [ieeeSponsor "a", ieeeSponsor "b"] []
        (ieeeConfig (.inf false)) = (log, .ok dA) ∧
      Generate.data (ieeeExternals m) sampleClient [] [ieeeSponsor "a", ieeeSponsor "b"]
        (ieeeConfig (.inf false)) = (log, .ok dE) ∧
      dA.Sponsors[1]? = some sA ∧ dE.Sponsors[1]? = some sE ∧
      sA.AnimationDelay = .inf false ∧ sE.AnimationDelay = .nan ∧
      sA.AnimationDelay ≠ sE.AnimationDelay := by
  refine ⟨by decide, ?_⟩
  intro m
  have hX : (ieeeExternals m).IEEE := ⟨rfl, rfl, rfl, m, rfl⟩
  have hA : (Generate.placed (ieeeExternals m) (ieeeConfig (.inf false))
      (Generate.localsOf (ieeeConfig (.inf false)) 2 0) 2 1 (ieeeSponsor "b")
      [65, 66]).AnimationDelay = .inf false := by
    rw [placed_delay_ieee hX]
    simp [ieeeConfig, F32.ofInt, F32.round_one, F32.mul]
  have hE : (Generate.placed (ieeeExternals m) (ieeeConfig (.inf false))
      (Generate.localsOf (ieeeConfig (.inf false)) 0 2) 0 1 (ieeeSponsor "b")
      [65, 66]).AnimationDelay = .nan := by
    rw [placed_delay_ieee hX, if_neg (by decide), F32.ofInt_zero]
    have h1 : F32.sub (F32.ofInt ((1 : Nat) : Int)) (.fin 0) = .fin 1 := by
      unfold F32.ofInt
      rw [F32.sub_zero_round]
      simp only [Nat.cast_one, Int.cast_one]
      exact F32.round_one
    rw [h1]
    exact F32.mulAdd_inf_nan m
  refine ⟨["a", "b"],
    Generate.dataOf (Generate.localsOf (ieeeConfig (.inf false)) 2 0)
      [ieeeSponsor "a", ieeeSponsor "b"] []
      [Generate.placed (ieeeExternals m) (ieeeConfig (.inf false))
        (Generate.localsOf (ieeeConfig (.inf false)) 2 0) 2 0 (ieeeSponsor "a") [65, 66],
       Generate.placed (ieeeExternals m) (ieeeConfig (.inf false))
        (Generate.localsOf (ieeeConfig (.inf false)) 2 0) 2 1 (ieeeSponsor "b") [65, 66]],
    Generate.dataOf (Generate.localsOf (ieeeConfig (.inf false)) 0 2) []
      [ieeeSponsor "a", ieeeSponsor "b"]
      [Generate.placed (ieeeExternals m) (ieeeConfig (.inf false))
        (Generate.localsOf (ieeeConfig (.inf false)) 0 2) 0 0 (ieeeSponsor "a") [65, 66],
       Generate.placed (ieeeExternals m) (ieeeConfig (.inf false))
        (Generate.localsOf (ieeeConfig (.inf false)) 0 2) 0 1 (ieeeSponsor "b") [65, 66]],
    Generate.placed (ieeeExternals m) (ieeeConfig (.inf false))
      (Generate.localsOf (ieeeConfig (.inf false)) 2 0) 2 1 (ieeeSponsor "b") [65, 66],
    Generate.placed (ieeeExternals m) (ieeeConfig (.inf false))
      (Generate.localsOf (ieeeConfig (.inf false)) 0 2) 0 1 (ieeeSponsor "b") [65, 66],
    rfl, rfl, rfl, rfl, hA, hE, ?_⟩
  rw [hA, hE]
  intro h
  cases h

/-- C19, amended: for a column count of at least one (a Go `int`) and a list whose length
fits an `int`, if the list laid out as the active group yields template data, then laid
out as the expired group it yields template data after the same requests, with the same
width, height and font size and as many sponsors; the sponsor at every position `j` is
the one of the active layout with `IsActive` false, the opacity of the expired policy
and the delay computed in two parts; so `Index`, `CenterX`, `CenterY`, `TranslateX`,
`TranslateY` and `TextY` agree. In the binary32 model the two delays agree for every
finite delay unit and every build (with or without a product fused into the addition),
so that then the results differ in `IsActive` and `Opacity` only. The
expired layout yields template data only if the active one does. -/
theorem C19_one_group_either_way (X : Externals F32) (client : Client)
    (l : List (Sponsor F32)) (cfg : Config F32)
    (hX : X.IEEE) (hp : 1 ≤ cfg.AvatarsPerRow)
    (hr : cfg.AvatarsPerRow ≤ 9223372036854775807)
    (hlen : len l ≤ 9223372036854775807) :
    (∀ (log : List String) (dA : TemplateData F32),
      Generate.data X client l [] cfg = (log, .ok dA) →
      ∃ dE, Generate.data X client [] l cfg = (log, .ok dE) ∧
        dE.Width = dA.Width ∧ dE.Height = dA.Height ∧ dE.FontSize = dA.FontSize ∧
        dE.Sponsors.length = dA.Sponsors.length ∧
        ∀ (j : Nat) (sA : Sponsor F32), dA.Sponsors[j]? = some sA →
          sA.IsActive = true ∧ sA.Opacity = cfg.ActiveSponsorOpacity ∧
          ∃ sE : Sponsor F32, dE.Sponsors[j]? = some sE ∧
            sE = { sA with
              IsActive := false
              AnimationDelay := sE.AnimationDelay
              Opacity :=
                if cfg.UseActiveOpacityWhenNoActive = true then cfg.ActiveSponsorOpacity
                else cfg.ExpiredSponsorOpacity } ∧
            sE.Index = sA.Index ∧ sE.CenterX = sA.CenterX ∧ sE.CenterY = sA.CenterY ∧
            sE.TranslateX = sA.TranslateX ∧ sE.TranslateY = sA.TranslateY ∧
            sE.TextY = sA.TextY ∧
            (∀ δ : ℚ, cfg.AnimationDelay = .fin δ →
              sE.AnimationDelay = sA.AnimationDelay)) ∧
    (∀ (log : List String) (dE : TemplateData F32),
      Generate.data X client [] l cfg = (log, .ok dE) →
      ∃ dA, Generate.data X client l [] cfg = (log, .ok dA)) := by
  have hla : len l = (l.length : Int) := rfl
  refine ⟨?_, ?_⟩
  · intro log dA hA
    obtain ⟨out, hE⟩ := data_of_other_split X client l [] [] l cfg (by simp) hA
    obtain ⟨LA, hLA, _, _⟩ := data_inv hA
    obtain ⟨h1, h2, h3, hLAeq⟩ := locals_inv hLA
    have hLE := locals_ok cfg (len ([] : List (Sponsor F32))) (len l) h1 h2 h3
    obtain ⟨hdA, _, hlenA, hallA⟩ := data_sponsors hA hLA
    obtain ⟨_, _, hlenE, hallE⟩ := data_sponsors hE hLE
    have hsw := localsOf_swap cfg (len l) hp hr
    refine ⟨_, hE, ?_, ?_, ?_, ?_, ?_⟩
    · rw [hdA, hLAeq]; rfl
    · rw [hdA, hLAeq]; exact hsw.1
    · rw [hdA, hLAeq]; rfl
    · rw [hlenA]
      have : (Generate.dataOf (Generate.localsOf cfg (len ([] : List (Sponsor F32))) (len l))
          [] l out).Sponsors.length = ([] : List (Sponsor F32)).length + l.length := hlenE
      rw [this]; simp
    · intro j sA hs
      obtain ⟨hj, src, img0, hsrc, _⟩ := data_sponsor_at hA hLA hs
      obtain ⟨img, hb, hpA⟩ := hallA j src hsrc
      rw [hs] at hpA
      have hsA : sA = Generate.placed X cfg LA (len l) j src img := Option.some.inj hpA
      have hsrc2 : (([] : List (Sponsor F32)) ++ l)[j]? = some src := by
        simpa using hsrc
      obtain ⟨img2, hb2, hpE0⟩ := hallE j src hsrc2
      have hpE : (Generate.dataOf (Generate.localsOf cfg (len ([] : List (Sponsor F32)))
          (len l)) [] l out).Sponsors[j]? =
          some (Generate.placed X cfg (Generate.localsOf cfg 0 (len l)) 0 j src img2) := hpE0
      have himg : img2 = img := by
        have e : (([] : List (Sponsor F32)) ++ l) = l ++ [] := by simp
        rw [e, hb] at hb2
        exact (Option.some.inj hb2).symm
      subst himg
      have hjl : (j : Int) < len l := by
        rw [hla]
        simp at hj
        exact_mod_cast hj
      have hplaced := placed_swap X cfg (len l) j src img2 hp hr hjl hlen
      have hdel : (Generate.placed X cfg (Generate.localsOf cfg 0 (len l)) 0 j src
          img2).AnimationDelay =
          X.fmuladd (X.fsub (X.ofInt (j : Int)) (X.ofInt 0)) cfg.AnimationDelay
            (X.ofInt 0) cfg.AnimationDelay := by
        rw [hplaced]
      have hact : decide ((j : Int) < len l) = true := by simp [hjl]
      subst hsA
      subst hLAeq
      refine ⟨by rw [placed_IsActive]; exact hact,
        by rw [placed_Opacity, hact]; rfl, _, hpE, ?_, ?_, ?_, ?_, ?_, ?_, ?_, ?_⟩
      · show Generate.placed X cfg (Generate.localsOf cfg 0 (len l)) 0 j src img2 = _
        rw [hdel]
        exact hplaced
      · rfl
      · show (Generate.placed X cfg (Generate.localsOf cfg 0 (len l)) 0 j src img2).CenterX = _
        rw [hplaced]
        rfl
      · show (Generate.placed X cfg (Generate.localsOf cfg 0 (len l)) 0 j src img2).CenterY = _
        rw [hplaced]
        rfl
      · show (Generate.placed X cfg (Generate.localsOf cfg 0 (len l)) 0 j src
          img2).TranslateX = _
        rw [hplaced]
        rfl
      · show (Generate.placed X cfg (Generate.localsOf cfg 0 (len l)) 0 j src
          img2).TranslateY = _
        rw [hplaced]
        rfl
      · rfl
      · intro δ hδ
        show (Generate.placed X cfg (Generate.localsOf cfg 0 (len l)) 0 j src
          img2).AnimationDelay = _
        obtain ⟨m, hm⟩ := hX.2.2.2
        rw [placed_delay_ieee hX, placed_delay_ieee hX, if_pos hjl,
          if_neg (by omega : ¬ (j : Int) < 0), hδ, hm]
        exact F32.mulAdd_expired_only m _ _
  · intro log dE hE
    obtain ⟨out, hA⟩ := data_of_other_split X client [] l l [] cfg (by simp) hE
    exact ⟨_, hA⟩

/-- C19 at two sponsors with the unit one tenth: the expired layout exists next to the
active one and has the properties stated. -/
theorem C19_one_group_either_way_witness :
    ∃ dE, Generate.data (ieeeExternals .left) sampleClient [] [ieeeSponsor "a", ieeeSponsor "b"]
        (ieeeConfig (.fin tenth)) = (["a", "b"], .ok dE) ∧
      dE.Width = 352 ∧ dE.Height = 98 ∧ dE.FontSize = 12 ∧ dE.Sponsors.length = 2 := by
  obtain ⟨dE, h1, h2, h3, h4, h5, _⟩ :=
    (C19_one_group_either_way (ieeeExternals .left) sampleClient [ieeeSponsor "a", ieeeSponsor "b"]
      (ieeeConfig (.fin tenth)) ⟨rfl, rfl, rfl, .left, rfl⟩ (by decide) (by decide) (by decide)).1
      ["a", "b"]
      (Generate.dataOf (Generate.localsOf (ieeeConfig (.fin tenth)) 2 0)
        [ieeeSponsor "a", ieeeSponsor "b"] []
        [Generate.placed (ieeeExternals .left) (ieeeConfig (.fin tenth))
          (Generate.localsOf (ieeeConfig (.fin tenth)) 2 0) 2 0 (ieeeSponsor "a") [65, 66],
         Generate.placed (ieeeExternals .left) (ieeeConfig (.fin tenth))
          (Generate.localsOf (ieeeConfig (.fin tenth)) 2 0) 2 1 (ieeeSponsor "b") [65, 66]])
      rfl
  exact ⟨dE, h1, h2.trans rfl, h3.trans rfl, h4.trans rfl, h5.trans rfl⟩

end AfdianSponsor
